import Mathlib

/-!
# glTF reader/writer: container framing, schema mapper and buffer resolver

A shallow embedding of `src/src/deserialze.cpp`, `src/src/serialze.cpp`,
`src/src/base_64.cpp` and `src/include/fs.hpp`.

Conventions of the embedding

* A byte (`u8`, `char`) is a `Fin 256`; a `std::string`, a `std::vector<u8>` and an
  input buffer `(const u8 *data, usize length)` are all `List u8`.
* `u32`, `u64`, `usize` values are `Nat` (reduced modulo `2^32` / `2^64` where the
  code converts), `i32` values are `Int`. `usize` is taken to be 64 bits wide.
* An `f32` is its IEEE-754 binary32 bit pattern. Text/float conversion is done by
  the C++ runtime and is a parameter of the embedding (`Env.stof`, `Env.fmt_f32`).
* The JSON tokenizer (`json_parse` of `json.h`) and the file system are not part of
  the repository; they are parameters of the embedding (`Env.json_parse`,
  `Env.open_file`).
* A computation that can leave through an uncaught C++ exception (`std::stoi`,
  `std::stof`) returns an `Option`; `none` means the exception was thrown.
-/

set_option maxRecDepth 20000

namespace gltf

/-! ## Bytes and strings -/

abbrev u8 := Fin 256

/-- The bytes of an ASCII string literal of the source. -/
def ascii (s : String) : List u8 :=
  s.toList.map (fun c => (⟨c.toNat % 256, Nat.mod_lt _ (by decide)⟩ : u8))

/-- Little-endian bytes of the low 32 bits of `n`: what
`file.write(reinterpret_cast<const char *>(&x), 4)` writes on a little-endian host. -/
def le32 (n : Nat) : List u8 :=
  [⟨n % 256, Nat.mod_lt _ (by decide)⟩,
   ⟨n / 256 % 256, Nat.mod_lt _ (by decide)⟩,
   ⟨n / 65536 % 256, Nat.mod_lt _ (by decide)⟩,
   ⟨n / 16777216 % 256, Nat.mod_lt _ (by decide)⟩]

/-- Byte `i` of the buffer; reads are only issued at offsets the code has checked. -/
def byte_at (data : List u8) (i : Nat) : Nat := (data.getD i 0).val

/-- The value of `*reinterpret_cast<const u32 *>(data + off)` on a little-endian host. -/
def read_u32 (data : List u8) (off : Nat) : Nat :=
  byte_at data off + 256 * byte_at data (off + 1) + 65536 * byte_at data (off + 2)
    + 16777216 * byte_at data (off + 3)

/-- Conversion of an `i32` to `u32`. -/
def to_u32 (i : Int) : Nat := (i % 4294967296).toNat

/-- Conversion of an `i32` to `u64` / `usize` (sign extension, then modulo `2^64`). -/
def to_u64 (i : Int) : Nat := (i % 18446744073709551616).toNat

def UINT32_MAX : Nat := 4294967295

/-- Decimal text of an unsigned integer, as `operator<<` writes it. -/
def show_nat (n : Nat) : List u8 := ascii (Nat.repr n)

/-- Decimal text of a signed integer, as `operator<<` writes it. -/
def show_int (i : Int) : List u8 :=
  if i < 0 then ascii "-" ++ show_nat i.natAbs else show_nat i.natAbs

/-! ## Floats -/

/-- An `f32`, as its binary32 bit pattern. -/
structure f32 where
  bits : Fin 4294967296
  deriving DecidableEq, Repr

namespace f32

def zero : f32 := ⟨0⟩
def one : f32 := ⟨0x3F800000⟩
def half : f32 := ⟨0x3F000000⟩

/-- Exponent all ones and a non-zero mantissa. -/
def is_nan (x : f32) : Bool :=
  x.bits.val / 8388608 % 256 == 255 && x.bits.val % 8388608 != 0

/-- Positive or negative zero. -/
def is_zero (x : f32) : Bool := x.bits.val % 2147483648 == 0

/-- The C++ comparison `x != y` on floats. -/
def ne (x y : f32) : Bool :=
  if x.is_nan || y.is_nan then true
  else if x.is_zero && y.is_zero then false
  else x.bits != y.bits

end f32

/-! ## The untyped document tree (`json.h`) -/

/-- A `json_value_s`: the `type` tag with its payload. Strings, numbers and member
names are kept as the bytes the tokenizer stored (`string`/`string_size`,
`number`/`number_size`). -/
inductive json_value_s where
  | json_string (s : List u8)
  | json_number (number : List u8)
  | json_object (members : List (List u8 × json_value_s))
  | json_array (elements : List json_value_s)
  | json_true
  | json_false
  | json_null

abbrev json_object_s := List (List u8 × json_value_s)

/-! ## The environment: the collaborators outside the repository -/

structure Env where
  /-- The call `json_parse(src, size)`: the tree of a text, `none` for a null result. -/
  json_parse : List u8 → Option json_value_s
  /-- The function `std::stof`: `none` when it throws. -/
  stof : List u8 → Option f32
  /-- The text `operator<<` writes for a float. -/
  fmt_f32 : f32 → List u8
  /-- Opening a file for reading: its content, `none` when the stream is not good. A path
  that opens is taken to name a regular file, whose size `tellg()` reports: sizing a
  directory, where the unchecked `tellg()` fails and `resize` throws, is not represented. -/
  open_file : List u8 → Option (List u8)

/-! ## `std::stoi` -/

def is_space (c : u8) : Bool := c.val == 32 || (9 ≤ c.val && c.val ≤ 13)

def is_digit (c : u8) : Bool := 48 ≤ c.val && c.val ≤ 57

/-- The contract of `std::stoi(str)` (base 10): leading white space is skipped, an
optional sign is read, then the longest run of digits. `none` when it throws
(`std::invalid_argument` without digits, `std::out_of_range` outside `int`). -/
def stoi (str : List u8) : Option Int :=
  let s := str.dropWhile is_space
  let neg := s.head? == some (45 : u8)
  let s := if s.head? == some (45 : u8) || s.head? == some (43 : u8) then s.tail else s
  let ds := s.takeWhile is_digit
  if ds.isEmpty then none
  else
    let v : Int := (ds.foldl (fun a d => 10 * a + (d.val - 48)) 0 : Nat)
    let v := if neg then -v else v
    if -2147483648 ≤ v ∧ v ≤ 2147483647 then some v else none

/-! ## Reading scalars off the tree -/

def get_string (value : Option json_value_s) : List u8 :=
  match value with
  | some (.json_string s) => s
  | _ => []

def get_int (value : Option json_value_s) : Option Int :=
  match value with
  | none => some 0
  | some (.json_number number) => stoi number
  | some .json_true => some 1
  | some _ => some 0

def get_float (env : Env) (value : Option json_value_s) : Option f32 :=
  match value with
  | some (.json_number number) => env.stof number
  | _ => some f32.zero

def get_bool (value : Option json_value_s) : Bool :=
  match value with
  | some .json_true => true
  | _ => false

/-- Whether `strncmp(a, b, n) == 0`, for the NUL-terminated strings whose bytes
before the terminator are `a` and `b`. -/
def strncmp_eq : List u8 → List u8 → Nat → Bool
  | _, _, 0 => true
  | a, b, n + 1 =>
    if a.headD 0 ≠ b.headD 0 then false
    else if a.headD 0 = 0 then true
    else strncmp_eq a.tail b.tail n

def find_member (object : json_object_s) (name : List u8) : Option json_value_s :=
  match object with
  | [] => none
  | (element_name, value) :: next =>
    if strncmp_eq element_name name element_name.length then some value
    else find_member next name

/-! ## The document model (`gltf.hpp`) -/

structure Vec3 where
  x : f32
  y : f32
  z : f32
  deriving DecidableEq, Repr

def Vec3.zero : Vec3 := ⟨f32.zero, f32.zero, f32.zero⟩

def Vec3.one : Vec3 := ⟨f32.one, f32.one, f32.one⟩

structure Vec4 where
  x : f32
  y : f32
  z : f32
  w : f32
  deriving DecidableEq, Repr

def Vec4.one : Vec4 := ⟨f32.one, f32.one, f32.one, f32.one⟩

/-- The sixteen floats `m[16]`. -/
abbrev Mat4 := { m : List f32 // m.length = 16 }

def Mat4.identify : Mat4 :=
  ⟨[f32.one, f32.zero, f32.zero, f32.zero, f32.zero, f32.one, f32.zero, f32.zero,
    f32.zero, f32.zero, f32.one, f32.zero, f32.zero, f32.zero, f32.zero, f32.one], rfl⟩

structure Buffer where
  uri : List u8 := []
  byte_length : Nat := 0
  data : List u8 := []
  loaded : Bool := false
  deriving DecidableEq, Repr

structure BufferView where
  buffer : Nat := 0
  byte_offset : Nat := 0
  byte_length : Nat := 0
  byte_stride : Nat := 0
  target : Int := 0
  name : List u8 := []
  deriving DecidableEq, Repr

structure Accessor where
  buffer_view : Nat := 0
  byte_offset : Nat := 0
  component_type : Int := 0
  normalized : Bool := false
  count : Nat := 0
  type : List u8 := []
  min : List f32 := []
  max : List f32 := []
  name : List u8 := []
  deriving DecidableEq, Repr

structure Image where
  uri : List u8 := []
  mime_type : List u8 := []
  buffer_view : Nat := 0
  name : List u8 := []
  data : List u8 := []
  width : Int := 0
  height : Int := 0
  channels : Int := 0
  loaded : Bool := false
  deriving DecidableEq, Repr

structure Sampler where
  mag_filter : Int := 0
  min_filter : Int := 0
  wrap_s : Int := 10497
  wrap_t : Int := 10497
  name : List u8 := []
  deriving DecidableEq, Repr

structure Texture where
  sampler : Nat := 0
  source : Nat := 0
  name : List u8 := []
  deriving DecidableEq, Repr

structure TextureInfo where
  index : Nat := 0
  tex_coord : Nat := 0
  deriving DecidableEq, Repr

structure PbrMetallicRoughness where
  base_color_factor : Vec4 := Vec4.one
  base_color_texture : TextureInfo := {}
  metallic_factor : f32 := f32.one
  roughness_factor : f32 := f32.one
  metallic_roughness_texture : TextureInfo := {}
  deriving DecidableEq, Repr

structure Material where
  pbr_metallic_roughness : PbrMetallicRoughness := {}
  normal_texture : TextureInfo := {}
  occlusion_texture : TextureInfo := {}
  emissive_texture : TextureInfo := {}
  emissive_factor : Vec3 := Vec3.zero
  alpha_mode : List u8 := ascii "OPAQUE"
  alpha_cutoff : f32 := f32.half
  double_sided : Bool := false
  name : List u8 := []
  deriving DecidableEq, Repr

/-- A `Primitive`; `attributes` is the `std::map<std::string, u32>`, kept as its
entries in key order. -/
structure Primitive where
  attributes : List (List u8 × Nat) := []
  indices : Nat := UINT32_MAX
  material : Nat := UINT32_MAX
  mode : Int := 4
  deriving DecidableEq, Repr

structure Mesh where
  primitives : List Primitive := []
  weights : List f32 := []
  name : List u8 := []
  deriving DecidableEq, Repr

structure Skin where
  inverse_bind_matrices : Nat := UINT32_MAX
  skeleton : Nat := UINT32_MAX
  joints : List Nat := []
  name : List u8 := []
  deriving DecidableEq, Repr

structure Node where
  children : List Nat := []
  mesh : Nat := UINT32_MAX
  skin : Nat := UINT32_MAX
  matrix : Mat4 := Mat4.identify
  has_matrix : Bool := false
  translation : Vec3 := Vec3.zero
  rotation : Vec4 := ⟨f32.zero, f32.zero, f32.zero, f32.one⟩
  scale : Vec3 := Vec3.one
  name : List u8 := []
  deriving DecidableEq, Repr

structure Scene where
  nodes : List Nat := []
  name : List u8 := []
  deriving DecidableEq, Repr

structure AnimationSampler where
  input : Nat := UINT32_MAX
  output : Nat := UINT32_MAX
  interpolation : List u8 := ascii "LINEAR"
  deriving DecidableEq, Repr

structure AnimationChannel.Target where
  node : Nat := UINT32_MAX
  path : List u8 := []
  deriving DecidableEq, Repr

structure AnimationChannel where
  sampler : Nat := 0
  target : AnimationChannel.Target := {}
  deriving DecidableEq, Repr

structure Animation where
  samplers : List AnimationSampler := []
  channels : List AnimationChannel := []
  name : List u8 := []
  deriving DecidableEq, Repr

structure Model where
  buffers : List Buffer := []
  buffer_views : List BufferView := []
  accessors : List Accessor := []
  images : List Image := []
  samplers : List Sampler := []
  textures : List Texture := []
  materials : List Material := []
  meshes : List Mesh := []
  skins : List Skin := []
  nodes : List Node := []
  scenes : List Scene := []
  animations : List Animation := []
  default_scene : Nat := 0
  base_path : List u8 := []
  deriving DecidableEq, Repr

/-! ## Schema mapper, decode direction (`deserialze.cpp`) -/

/-- The loop shared by the `parse_*` functions:
`while (element) { if (element->value->type == json_type_object) { ...; push_back } element = element->next; }`. -/
def parse_elements {α : Type} (f : json_object_s → Option α) : List json_value_s → Option (List α)
  | [] => some []
  | .json_object obj :: next => do
    let x ← f obj
    let xs ← parse_elements f next
    pure (x :: xs)
  | _ :: next => parse_elements f next

/-- The loop `while (e) { v.push_back(get_float(e->value)); e = e->next; }`. -/
def get_floats (env : Env) : List json_value_s → Option (List f32)
  | [] => some []
  | value :: next => do
    let x ← get_float env (some value)
    let xs ← get_floats env next
    pure (x :: xs)

/-- The loop `while (e) { v.push_back(get_int(e->value)); e = e->next; }` into a
`std::vector<u32>`. -/
def get_indices : List json_value_s → Option (List Nat)
  | [] => some []
  | value :: next => do
    let x ← get_int (some value)
    let xs ← get_indices next
    pure (to_u32 x :: xs)

def parse_buffer_element (buffer_obj : json_object_s) : Option Buffer := do
  let mut buffer : Buffer := {}
  if let some byte_length_value := find_member buffer_obj (ascii "byteLength") then
    buffer := { buffer with byte_length := to_u64 (← get_int (some byte_length_value)) }
  if let some uri_value := find_member buffer_obj (ascii "uri") then
    buffer := { buffer with uri := get_string (some uri_value) }
  return buffer

/-- The function `Model::parse_buffers`: the new value of `buffers`. -/
def parse_buffers (buffers : List Buffer) (json : json_object_s) : Option (List Buffer) :=
  match find_member json (ascii "buffers") with
  | some (.json_array elements) =>
    if !buffers.isEmpty then some buffers
    else do
      let parsed ← parse_elements parse_buffer_element elements
      pure (buffers ++ parsed)
  | _ => some buffers

def parse_buffer_view_element (buffer_view_obj : json_object_s) : Option BufferView := do
  let mut buffer_view : BufferView := {}
  if let some buffer_value := find_member buffer_view_obj (ascii "buffer") then
    buffer_view := { buffer_view with buffer := to_u32 (← get_int (some buffer_value)) }
  if let some byte_offset_value := find_member buffer_view_obj (ascii "byteOffset") then
    buffer_view := { buffer_view with byte_offset := to_u64 (← get_int (some byte_offset_value)) }
  if let some byte_length_value := find_member buffer_view_obj (ascii "byteLength") then
    buffer_view := { buffer_view with byte_length := to_u64 (← get_int (some byte_length_value)) }
  if let some byte_stride_value := find_member buffer_view_obj (ascii "byteStride") then
    buffer_view := { buffer_view with byte_stride := to_u64 (← get_int (some byte_stride_value)) }
  if let some target_value := find_member buffer_view_obj (ascii "target") then
    buffer_view := { buffer_view with target := (← get_int (some target_value)) }
  if let some name_value := find_member buffer_view_obj (ascii "name") then
    buffer_view := { buffer_view with name := get_string (some name_value) }
  return buffer_view

/-- The function `Model::parse_buffer_views`: the new value of `buffer_views`. -/
def parse_buffer_views (buffer_views : List BufferView) (json : json_object_s) :
    Option (List BufferView) :=
  match find_member json (ascii "bufferViews") with
  | some (.json_array elements) => do
    let parsed ← parse_elements parse_buffer_view_element elements
    pure (buffer_views ++ parsed)
  | _ => some buffer_views

def parse_accessor_element (env : Env) (accessor_obj : json_object_s) : Option Accessor := do
  let mut accessor : Accessor := {}
  if let some buffer_view_value := find_member accessor_obj (ascii "bufferView") then
    accessor := { accessor with buffer_view := to_u32 (← get_int (some buffer_view_value)) }
  if let some byte_offset_value := find_member accessor_obj (ascii "byteOffset") then
    accessor := { accessor with byte_offset := to_u64 (← get_int (some byte_offset_value)) }
  if let some component_type_value := find_member accessor_obj (ascii "componentType") then
    accessor := { accessor with component_type := (← get_int (some component_type_value)) }
  if let some normalized_value := find_member accessor_obj (ascii "normalized") then
    accessor := { accessor with normalized := get_bool (some normalized_value) }
  if let some count_value := find_member accessor_obj (ascii "count") then
    accessor := { accessor with count := to_u64 (← get_int (some count_value)) }
  if let some type_value := find_member accessor_obj (ascii "type") then
    accessor := { accessor with type := get_string (some type_value) }
  if let some (.json_array min_array) := find_member accessor_obj (ascii "min") then
    accessor := { accessor with min := accessor.min ++ (← get_floats env min_array) }
  if let some (.json_array max_array) := find_member accessor_obj (ascii "max") then
    accessor := { accessor with max := accessor.max ++ (← get_floats env max_array) }
  if let some name_value := find_member accessor_obj (ascii "name") then
    accessor := { accessor with name := get_string (some name_value) }
  return accessor

/-- The function `Model::parse_accessors`: the new value of `accessors`. -/
def parse_accessors (env : Env) (accessors : List Accessor) (json : json_object_s) :
    Option (List Accessor) :=
  match find_member json (ascii "accessors") with
  | some (.json_array elements) => do
    let parsed ← parse_elements (parse_accessor_element env) elements
    pure (accessors ++ parsed)
  | _ => some accessors

def parse_image_element (image_obj : json_object_s) : Option Image := do
  let mut image : Image := {}
  if let some uri_value := find_member image_obj (ascii "uri") then
    image := { image with uri := get_string (some uri_value) }
  if let some mime_type_value := find_member image_obj (ascii "mimeType") then
    image := { image with mime_type := get_string (some mime_type_value) }
  if let some buffer_view_value := find_member image_obj (ascii "bufferView") then
    image := { image with buffer_view := to_u32 (← get_int (some buffer_view_value)) }
  if let some name_value := find_member image_obj (ascii "name") then
    image := { image with name := get_string (some name_value) }
  return image

/-- The function `Model::parse_images`: the new value of `images`. -/
def parse_images (images : List Image) (json : json_object_s) : Option (List Image) :=
  match find_member json (ascii "images") with
  | some (.json_array elements) => do
    let parsed ← parse_elements parse_image_element elements
    pure (images ++ parsed)
  | _ => some images

def parse_sampler_element (sampler_obj : json_object_s) : Option Sampler := do
  let mut sampler : Sampler := {}
  if let some mag_filter_value := find_member sampler_obj (ascii "magFilter") then
    sampler := { sampler with mag_filter := (← get_int (some mag_filter_value)) }
  if let some min_filter_value := find_member sampler_obj (ascii "minFilter") then
    sampler := { sampler with min_filter := (← get_int (some min_filter_value)) }
  if let some wrap_s_value := find_member sampler_obj (ascii "wrapS") then
    sampler := { sampler with wrap_s := (← get_int (some wrap_s_value)) }
  else
    sampler := { sampler with wrap_s := 10497 }
  if let some wrap_t_value := find_member sampler_obj (ascii "wrapT") then
    sampler := { sampler with wrap_t := (← get_int (some wrap_t_value)) }
  else
    sampler := { sampler with wrap_t := 10497 }
  if let some name_value := find_member sampler_obj (ascii "name") then
    sampler := { sampler with name := get_string (some name_value) }
  return sampler

/-- The function `Model::parse_samplers`: the new value of `samplers`. -/
def parse_samplers (samplers : List Sampler) (json : json_object_s) : Option (List Sampler) :=
  match find_member json (ascii "samplers") with
  | some (.json_array elements) => do
    let parsed ← parse_elements parse_sampler_element elements
    pure (samplers ++ parsed)
  | _ => some samplers

def parse_texture_element (texture_obj : json_object_s) : Option Texture := do
  let mut texture : Texture := {}
  if let some sampler_value := find_member texture_obj (ascii "sampler") then
    texture := { texture with sampler := to_u32 (← get_int (some sampler_value)) }
  if let some source_value := find_member texture_obj (ascii "source") then
    texture := { texture with source := to_u32 (← get_int (some source_value)) }
  if let some name_value := find_member texture_obj (ascii "name") then
    texture := { texture with name := get_string (some name_value) }
  return texture

/-- The function `Model::parse_textures`: the new value of `textures`. -/
def parse_textures (textures : List Texture) (json : json_object_s) : Option (List Texture) :=
  match find_member json (ascii "textures") with
  | some (.json_array elements) => do
    let parsed ← parse_elements parse_texture_element elements
    pure (textures ++ parsed)
  | _ => some textures

/-- The block repeated for every texture reference of a material:
`if (v && v->type == json_type_object) { index, texCoord }`. -/
def parse_texture_info (info : TextureInfo) (value : Option json_value_s) : Option TextureInfo :=
  match value with
  | some (.json_object tex_info_obj) => do
    let mut info := info
    if let some index_value := find_member tex_info_obj (ascii "index") then
      info := { info with index := to_u32 (← get_int (some index_value)) }
    if let some tex_coord_value := find_member tex_info_obj (ascii "texCoord") then
      info := { info with tex_coord := to_u32 (← get_int (some tex_coord_value)) }
    return info
  | _ => some info

/-- A three-component vector member: read when the value is an array of length at
least 3, left alone otherwise. -/
def parse_vec3 (env : Env) (cur : Vec3) (value : Option json_value_s) : Option Vec3 :=
  match value with
  | some (.json_array (x :: y :: z :: _)) => do
    let vx ← get_float env (some x)
    let vy ← get_float env (some y)
    let vz ← get_float env (some z)
    pure ⟨vx, vy, vz⟩
  | _ => some cur

/-- A four-component vector member: read when the value is an array of length at
least 4, left alone otherwise. -/
def parse_vec4 (env : Env) (cur : Vec4) (value : Option json_value_s) : Option Vec4 :=
  match value with
  | some (.json_array (x :: y :: z :: w :: _)) => do
    let vx ← get_float env (some x)
    let vy ← get_float env (some y)
    let vz ← get_float env (some z)
    let vw ← get_float env (some w)
    pure ⟨vx, vy, vz, vw⟩
  | _ => some cur

def parse_pbr (env : Env) (pbr : PbrMetallicRoughness) (pbr_obj : json_object_s) :
    Option PbrMetallicRoughness := do
  let mut pbr := pbr
  pbr := { pbr with base_color_factor :=
    (← parse_vec4 env pbr.base_color_factor (find_member pbr_obj (ascii "baseColorFactor"))) }
  pbr := { pbr with base_color_texture :=
    (← parse_texture_info pbr.base_color_texture (find_member pbr_obj (ascii "baseColorTexture"))) }
  if let some metallic_factor_value := find_member pbr_obj (ascii "metallicFactor") then
    pbr := { pbr with metallic_factor := (← get_float env (some metallic_factor_value)) }
  if let some roughness_factor_value := find_member pbr_obj (ascii "roughnessFactor") then
    pbr := { pbr with roughness_factor := (← get_float env (some roughness_factor_value)) }
  pbr := { pbr with metallic_roughness_texture :=
    (← parse_texture_info pbr.metallic_roughness_texture
        (find_member pbr_obj (ascii "metallicRoughnessTexture"))) }
  return pbr

def parse_material_element (env : Env) (material_obj : json_object_s) : Option Material := do
  let mut material : Material := {}
  if let some (.json_object pbr_obj) := find_member material_obj (ascii "pbrMetallicRoughness") then
    material := { material with pbr_metallic_roughness :=
      (← parse_pbr env material.pbr_metallic_roughness pbr_obj) }
  material := { material with normal_texture :=
    (← parse_texture_info material.normal_texture (find_member material_obj (ascii "normalTexture"))) }
  material := { material with occlusion_texture :=
    (← parse_texture_info material.occlusion_texture
        (find_member material_obj (ascii "occlusionTexture"))) }
  material := { material with emissive_texture :=
    (← parse_texture_info material.emissive_texture
        (find_member material_obj (ascii "emissiveTexture"))) }
  material := { material with emissive_factor :=
    (← parse_vec3 env material.emissive_factor (find_member material_obj (ascii "emissiveFactor"))) }
  if let some alpha_mode_value := find_member material_obj (ascii "alphaMode") then
    material := { material with alpha_mode := get_string (some alpha_mode_value) }
  else
    material := { material with alpha_mode := ascii "OPAQUE" }
  if let some alpha_cutoff_value := find_member material_obj (ascii "alphaCutoff") then
    material := { material with alpha_cutoff := (← get_float env (some alpha_cutoff_value)) }
  else
    material := { material with alpha_cutoff := f32.half }
  let double_sided_value := find_member material_obj (ascii "doubleSided")
  material := { material with double_sided :=
    if double_sided_value.isSome then get_bool double_sided_value else false }
  if let some name_value := find_member material_obj (ascii "name") then
    material := { material with name := get_string (some name_value) }
  return material

/-- The function `Model::parse_materials`: the new value of `materials`. -/
def parse_materials (env : Env) (materials : List Material) (json : json_object_s) :
    Option (List Material) :=
  match find_member json (ascii "materials") with
  | some (.json_array elements) => do
    let parsed ← parse_elements (parse_material_element env) elements
    pure (materials ++ parsed)
  | _ => some materials

/-- The order `a < b` of `std::string`: lexicographic on the bytes. -/
def str_lt : List u8 → List u8 → Bool
  | [], [] => false
  | [], _ :: _ => true
  | _ :: _, [] => false
  | a :: ra, b :: rb => a.val < b.val || (a == b && str_lt ra rb)

/-- The assignment `attributes[key] = value` on a `std::map<std::string, u32>`. -/
def map_assign (attributes : List (List u8 × Nat)) (key : List u8) (value : Nat) :
    List (List u8 × Nat) :=
  match attributes with
  | [] => [(key, value)]
  | (k, v) :: rest =>
    if key = k then (key, value) :: rest
    else if str_lt key k then (key, value) :: (k, v) :: rest
    else (k, v) :: map_assign rest key value

/-- The loop over the members of an `attributes` object. -/
def parse_attributes (attributes : List (List u8 × Nat)) :
    json_object_s → Option (List (List u8 × Nat))
  | [] => some attributes
  | (attr_name, value) :: next => do
    let accessor_index ← get_int (some value)
    parse_attributes (map_assign attributes attr_name (to_u32 accessor_index)) next

def parse_primitive_element (prim_obj : json_object_s) : Option Primitive := do
  let mut primitive : Primitive := {}
  if let some (.json_object attrs_obj) := find_member prim_obj (ascii "attributes") then
    primitive := { primitive with attributes := (← parse_attributes primitive.attributes attrs_obj) }
  if let some indices_value := find_member prim_obj (ascii "indices") then
    primitive := { primitive with indices := to_u32 (← get_int (some indices_value)) }
  if let some material_value := find_member prim_obj (ascii "material") then
    primitive := { primitive with material := to_u32 (← get_int (some material_value)) }
  if let some mode_value := find_member prim_obj (ascii "mode") then
    primitive := { primitive with mode := (← get_int (some mode_value)) }
  else
    primitive := { primitive with mode := 4 }
  return primitive

def parse_mesh_element (env : Env) (mesh_obj : json_object_s) : Option Mesh := do
  let mut mesh : Mesh := {}
  if let some (.json_array primitives_array) := find_member mesh_obj (ascii "primitives") then
    mesh := { mesh with primitives :=
      mesh.primitives ++ (← parse_elements parse_primitive_element primitives_array) }
  if let some (.json_array weights_array) := find_member mesh_obj (ascii "weights") then
    mesh := { mesh with weights := mesh.weights ++ (← get_floats env weights_array) }
  if let some name_value := find_member mesh_obj (ascii "name") then
    mesh := { mesh with name := get_string (some name_value) }
  return mesh

/-- The function `Model::parse_meshes`: the new value of `meshes`. -/
def parse_meshes (env : Env) (meshes : List Mesh) (json : json_object_s) : Option (List Mesh) :=
  match find_member json (ascii "meshes") with
  | some (.json_array elements) => do
    let parsed ← parse_elements (parse_mesh_element env) elements
    pure (meshes ++ parsed)
  | _ => some meshes

def parse_skin_element (skin_obj : json_object_s) : Option Skin := do
  let mut skin : Skin := {}
  if let some inverse_bind_matrices_value := find_member skin_obj (ascii "inverseBindMatrices") then
    skin := { skin with inverse_bind_matrices := to_u32 (← get_int (some inverse_bind_matrices_value)) }
  if let some skeleton_value := find_member skin_obj (ascii "skeleton") then
    skin := { skin with skeleton := to_u32 (← get_int (some skeleton_value)) }
  if let some (.json_array joints_array) := find_member skin_obj (ascii "joints") then
    skin := { skin with joints := skin.joints ++ (← get_indices joints_array) }
  if let some name_value := find_member skin_obj (ascii "name") then
    skin := { skin with name := get_string (some name_value) }
  return skin

/-- The function `Model::parse_skins`: the new value of `skins`. -/
def parse_skins (skins : List Skin) (json : json_object_s) : Option (List Skin) :=
  match find_member json (ascii "skins") with
  | some (.json_array elements) => do
    let parsed ← parse_elements parse_skin_element elements
    pure (skins ++ parsed)
  | _ => some skins

/-- The `matrix` member of a node, given the elements of its array value: when
`matrix_array->length == 16` the sixteen floats read in order by the loop
`for (int i = 0; i < 16; i++) node.matrix.m[i] = get_float(...)`, nothing otherwise.
(The loop reads as many floats as there are elements, so the inner test never fails.) -/
def parse_matrix (env : Env) (matrix_array : List json_value_s) : Option (Option Mat4) :=
  if matrix_array.length = 16 then do
    let m ← get_floats env matrix_array
    if h : m.length = 16 then pure (some ⟨m, h⟩) else pure none
  else some none

def parse_node_element (env : Env) (node_obj : json_object_s) : Option Node := do
  let mut node : Node := {}
  if let some (.json_array children_array) := find_member node_obj (ascii "children") then
    node := { node with children := node.children ++ (← get_indices children_array) }
  if let some mesh_value := find_member node_obj (ascii "mesh") then
    node := { node with mesh := to_u32 (← get_int (some mesh_value)) }
  if let some skin_value := find_member node_obj (ascii "skin") then
    node := { node with skin := to_u32 (← get_int (some skin_value)) }
  if let some (.json_array matrix_array) := find_member node_obj (ascii "matrix") then
    if let some m := (← parse_matrix env matrix_array) then
      node := { node with matrix := m, has_matrix := true }
  else
    node := { node with translation :=
      (← parse_vec3 env node.translation (find_member node_obj (ascii "translation"))) }
    node := { node with rotation :=
      (← parse_vec4 env node.rotation (find_member node_obj (ascii "rotation"))) }
    node := { node with scale :=
      (← parse_vec3 env node.scale (find_member node_obj (ascii "scale"))) }
  if let some name_value := find_member node_obj (ascii "name") then
    node := { node with name := get_string (some name_value) }
  return node

/-- The function `Model::parse_nodes`: the new value of `nodes`. -/
def parse_nodes (env : Env) (nodes : List Node) (json : json_object_s) : Option (List Node) :=
  match find_member json (ascii "nodes") with
  | some (.json_array elements) => do
    let parsed ← parse_elements (parse_node_element env) elements
    pure (nodes ++ parsed)
  | _ => some nodes

def parse_scene_element (scene_obj : json_object_s) : Option Scene := do
  let mut scene : Scene := {}
  if let some (.json_array nodes_array) := find_member scene_obj (ascii "nodes") then
    scene := { scene with nodes := scene.nodes ++ (← get_indices nodes_array) }
  if let some name_value := find_member scene_obj (ascii "name") then
    scene := { scene with name := get_string (some name_value) }
  return scene

/-- The function `Model::parse_scenes`: the new value of `scenes`. -/
def parse_scenes (scenes : List Scene) (json : json_object_s) : Option (List Scene) :=
  match find_member json (ascii "scenes") with
  | some (.json_array elements) => do
    let parsed ← parse_elements parse_scene_element elements
    pure (scenes ++ parsed)
  | _ => some scenes

def parse_animation_sampler_element (sampler_obj : json_object_s) : Option AnimationSampler := do
  let mut sampler : AnimationSampler := {}
  if let some input_value := find_member sampler_obj (ascii "input") then
    sampler := { sampler with input := to_u32 (← get_int (some input_value)) }
  if let some output_value := find_member sampler_obj (ascii "output") then
    sampler := { sampler with output := to_u32 (← get_int (some output_value)) }
  if let some interpolation_value := find_member sampler_obj (ascii "interpolation") then
    sampler := { sampler with interpolation := get_string (some interpolation_value) }
  else
    sampler := { sampler with interpolation := ascii "LINEAR" }
  return sampler

def parse_animation_channel_element (channel_obj : json_object_s) : Option AnimationChannel := do
  let mut channel : AnimationChannel := {}
  if let some sampler_value := find_member channel_obj (ascii "sampler") then
    channel := { channel with sampler := to_u32 (← get_int (some sampler_value)) }
  if let some (.json_object target_obj) := find_member channel_obj (ascii "target") then
    if let some node_value := find_member target_obj (ascii "node") then
      channel := { channel with target := { channel.target with
        node := to_u32 (← get_int (some node_value)) } }
    if let some path_value := find_member target_obj (ascii "path") then
      channel := { channel with target := { channel.target with
        path := get_string (some path_value) } }
  return channel

def parse_animation_element (animation_obj : json_object_s) : Option Animation := do
  let mut animation : Animation := {}
  if let some (.json_array samplers_array) := find_member animation_obj (ascii "samplers") then
    animation := { animation with samplers :=
      animation.samplers ++ (← parse_elements parse_animation_sampler_element samplers_array) }
  if let some (.json_array channels_array) := find_member animation_obj (ascii "channels") then
    animation := { animation with channels :=
      animation.channels ++ (← parse_elements parse_animation_channel_element channels_array) }
  if let some name_value := find_member animation_obj (ascii "name") then
    animation := { animation with name := get_string (some name_value) }
  return animation

/-- The function `Model::parse_animations`: the new value of `animations`. -/
def parse_animations (animations : List Animation) (json : json_object_s) :
    Option (List Animation) :=
  match find_member json (ascii "animations") with
  | some (.json_array elements) => do
    let parsed ← parse_elements parse_animation_element elements
    pure (animations ++ parsed)
  | _ => some animations

/-! ## Byte codec (`base_64.cpp`) -/

def decode_table : List Nat :=
  [64, 64, 64, 64, 64, 64, 64, 64, 64, 64, 64, 64, 64, 64, 64, 64,
   64, 64, 64, 64, 64, 64, 64, 64, 64, 64, 64, 64, 64, 64, 64, 64,
   64, 64, 64, 64, 64, 64, 64, 64, 64, 64, 64, 62, 64, 64, 64, 63,
   52, 53, 54, 55, 56, 57, 58, 59, 60, 61, 64, 64, 64, 64, 64, 64,
   64,  0,  1,  2,  3,  4,  5,  6,  7,  8,  9, 10, 11, 12, 13, 14,
   15, 16, 17, 18, 19, 20, 21, 22, 23, 24, 25, 64, 64, 64, 64, 64,
   64, 26, 27, 28, 29, 30, 31, 32, 33, 34, 35, 36, 37, 38, 39, 40,
   41, 42, 43, 44, 45, 46, 47, 48, 49, 50, 51, 64, 64, 64, 64, 64,
   64, 64, 64, 64, 64, 64, 64, 64, 64, 64, 64, 64, 64, 64, 64, 64,
   64, 64, 64, 64, 64, 64, 64, 64, 64, 64, 64, 64, 64, 64, 64, 64,
   64, 64, 64, 64, 64, 64, 64, 64, 64, 64, 64, 64, 64, 64, 64, 64,
   64, 64, 64, 64, 64, 64, 64, 64, 64, 64, 64, 64, 64, 64, 64, 64,
   64, 64, 64, 64, 64, 64, 64, 64, 64, 64, 64, 64, 64, 64, 64, 64,
   64, 64, 64, 64, 64, 64, 64, 64, 64, 64, 64, 64, 64, 64, 64, 64,
   64, 64, 64, 64, 64, 64, 64, 64, 64, 64, 64, 64, 64, 64, 64, 64,
   64, 64, 64, 64, 64, 64, 64, 64, 64, 64, 64, 64, 64, 64, 64, 64]

/-- A value of type `int` stored into a `u8`. -/
def to_u8 (n : Nat) : u8 := ⟨n % 256, Nat.mod_lt _ (by decide)⟩

/-- The input without its trailing `=` characters: the first `input_length` bytes. -/
def strip_padding (input : List u8) : List u8 :=
  (input.reverse.dropWhile (fun c => c.val == 61)).reverse

/-- One turn of the decoding loop; the state is the filled part of `val` and `output`. -/
def decode_step (state : List Nat × List u8) (c : u8) : List Nat × List u8 :=
  if decode_table.getD c.val 64 = 64 then state
  else
    let val := state.1 ++ [decode_table.getD c.val 64]
    if val.length = 4 then
      ([], state.2 ++
        [to_u8 ((val.getD 0 0 <<< 2) ||| (val.getD 1 0 >>> 4)),
         to_u8 ((val.getD 1 0 <<< 4) ||| (val.getD 2 0 >>> 2)),
         to_u8 ((val.getD 2 0 <<< 6) ||| val.getD 3 0)])
    else (val, state.2)

def decode_base_64 (input : List u8) : List u8 :=
  let state := (strip_padding input).foldl decode_step ([], [])
  let val := state.1
  let output := state.2
  let output :=
    if val.length > 1 then output ++ [to_u8 ((val.getD 0 0 <<< 2) ||| (val.getD 1 0 >>> 4))]
    else output
  let output :=
    if val.length > 2 then output ++ [to_u8 ((val.getD 1 0 <<< 4) ||| (val.getD 2 0 >>> 2))]
    else output
  output

/-! ## Path helpers (`fs.hpp`) -/

/-- The call `s.find_last_of(chars)`: the last position holding one of `chars`, `none` for `npos`. -/
def find_last_of (s chars : List u8) : Option Nat :=
  (List.range s.length).reverse.find? (fun i => chars.contains (s.getD i 0))

def parent_directory (path : List u8) : List u8 :=
  match find_last_of path (ascii "/\\") with
  | none => []
  | some pos => path.take pos

/-! ## Buffer resolver -/

/-- The test `s.find(pat) != std::string::npos`. -/
def str_contains : List u8 → List u8 → Bool
  | [], pat => pat.isEmpty
  | c :: s, pat => pat.isPrefixOf (c :: s) || str_contains s pat

/-- The function `Model::load_buffers`, from buffer `i` on: the returned flag and the buffers. -/
def load_buffers (env : Env) (base_path : List u8) : List Buffer → Bool × List Buffer
  | [] => (true, [])
  | buffer :: rest =>
    if buffer.loaded then
      ((load_buffers env base_path rest).1, buffer :: (load_buffers env base_path rest).2)
    else if buffer.uri.take 5 = ascii "data:" then
      if buffer.uri.contains (44 : u8) then
        let header := buffer.uri.takeWhile (fun c => c != (44 : u8))
        let data := (buffer.uri.dropWhile (fun c => c != (44 : u8))).tail
        let buffer :=
          if str_contains header (ascii "base64") then { buffer with data := decode_base_64 data }
          else { buffer with data := data }
        let buffer := { buffer with loaded := true }
        ((load_buffers env base_path rest).1, buffer :: (load_buffers env base_path rest).2)
      else
        ((load_buffers env base_path rest).1, buffer :: (load_buffers env base_path rest).2)
    else
      match env.open_file (base_path ++ buffer.uri) with
      | none => (false, buffer :: rest)
      | some content =>
        let buffer := { buffer with data := content, loaded := true }
        ((load_buffers env base_path rest).1, buffer :: (load_buffers env base_path rest).2)

/-! ## `Model::parse` -/

/-- The function `Model::parse`: the returned flag and the state of the model afterwards. The
`asset` block only writes a warning to `std::cerr` and is left out. The value
`load_buffers` returns is not used by the source. -/
def parse (env : Env) (model : Model) (root : json_value_s) : Option (Bool × Model) :=
  let model : Model :=
    { model with
      buffers := [], buffer_views := [], accessors := [], images := [], samplers := [],
      textures := [], materials := [], meshes := [], skins := [], nodes := [], scenes := [],
      animations := [] }
  match root with
  | .json_object root_obj => do
    let mut model := model
    if let some scene_value := find_member root_obj (ascii "scene") then
      model := { model with default_scene := to_u32 (← get_int (some scene_value)) }
    model := { model with buffers := (← parse_buffers model.buffers root_obj) }
    model := { model with buffer_views := (← parse_buffer_views model.buffer_views root_obj) }
    model := { model with accessors := (← parse_accessors env model.accessors root_obj) }
    model := { model with images := (← parse_images model.images root_obj) }
    model := { model with samplers := (← parse_samplers model.samplers root_obj) }
    model := { model with textures := (← parse_textures model.textures root_obj) }
    model := { model with materials := (← parse_materials env model.materials root_obj) }
    model := { model with meshes := (← parse_meshes env model.meshes root_obj) }
    model := { model with skins := (← parse_skins model.skins root_obj) }
    model := { model with nodes := (← parse_nodes env model.nodes root_obj) }
    model := { model with scenes := (← parse_scenes model.scenes root_obj) }
    model := { model with animations := (← parse_animations model.animations root_obj) }
    model := { model with buffers := (load_buffers env model.base_path model.buffers).2 }
    return (true, model)
  | _ => some (false, model)

/-! ## Container framer, decode direction (`Model::load_from_memory`) -/

/-- The sniffing test `length > 4 && memcmp(data, "glTF", 4) == 0`. -/
def is_glb (data : List u8) : Bool :=
  decide (data.length > 4) && data.take 4 == ascii "glTF"

/-- The header and JSON chunk header checks of the container branch (the code from
"Parse GLB header" to the test of `json_chunk_type`): `json_chunk_length` when every
check passes, `none` when one of them sets `success = false` and returns. -/
def glb_json_chunk_length (data : List u8) : Option Nat :=
  if data.length < 12 then none
  else if read_u32 data 0 ≠ 0x46546C67 then none
  else if read_u32 data 4 ≠ 2 then none
  else if read_u32 data 8 > data.length then none
  else if data.length < 20 then none
  else if read_u32 data 16 ≠ 0x4E4F534A then none
  else some (read_u32 data 12)

/-- The bytes of the input inside the range `[data + 20, data + 20 + json_chunk_length)`
handed to `json_parse`. -/
def glb_json_data (data : List u8) (json_chunk_length : Nat) : List u8 :=
  (data.drop 20).take json_chunk_length

/-- The value of `bin_chunk_start = 20 + json_chunk_length` (an `int` plus a `u32`). -/
def bin_chunk_start (json_chunk_length : Nat) : Nat := (20 + json_chunk_length) % 4294967296

/-- The block "Check for BIN chunk": the buffer pushed onto `model.buffers`, if any. -/
def glb_bin_buffer (data : List u8) (json_chunk_length : Nat) : Option Buffer :=
  let start := bin_chunk_start json_chunk_length
  if data.length > start + 8 then
    let bin_chunk_length := read_u32 data start
    let bin_chunk_type := read_u32 data (start + 4)
    if bin_chunk_type = 0x004E4942 then
      if data.length ≥ start + 8 + bin_chunk_length then
        some { byte_length := bin_chunk_length,
               data := (data.drop (start + 8)).take bin_chunk_length,
               loaded := true }
      else none
    else none
  else none

/-- The function `Model::load_from_memory`: the value stored in `success` and the returned model. -/
def load_from_memory (env : Env) (data : List u8) : Option (Bool × Model) :=
  let model : Model := {}
  if is_glb data then
    match glb_json_chunk_length data with
    | none => some (false, model)
    | some json_chunk_length =>
      match env.json_parse (glb_json_data data json_chunk_length) with
      | none => some (false, model)
      | some root =>
        let model : Model :=
          match glb_bin_buffer data json_chunk_length with
          | some buffer => { model with buffers := model.buffers ++ [buffer] }
          | none => model
        parse env model root
  else
    match env.json_parse data with
    | none => some (false, model)
    | some root => parse env model root

/-- The function `Model::load`: the value of `success` afterwards (it starts as `success`, the
caller's variable) and the returned model. On the text path the result of `parse`
goes to a local variable of the same name. -/
def load (env : Env) (success : Bool) (path : List u8) : Option (Bool × Model) :=
  let model : Model := { base_path := parent_directory path }
  match env.open_file path with
  | none => some (false, model)
  | some content =>
    if decide (path.length ≥ 4) && path.drop (path.length - 4) == ascii ".glb" then
      load_from_memory env content
    else
      match env.json_parse content with
      | none => some (false, model)
      | some root => do
        let r ← parse env model root
        pure (success, r.2)

/-! ## Schema mapper, encode direction (`serialze.cpp`) -/

/-- The lower-case hexadecimal digit of a value below 16. -/
def hex_digit (n : Nat) : u8 := (ascii "0123456789abcdef").getD n 0

/-- The text appended for one character of the string. -/
def escape_char (c : u8) : List u8 :=
  if c.val = 34 then ascii "\\\""
  else if c.val = 92 then ascii "\\\\"
  else if c.val = 8 then ascii "\\b"
  else if c.val = 12 then ascii "\\f"
  else if c.val = 10 then ascii "\\n"
  else if c.val = 13 then ascii "\\r"
  else if c.val = 9 then ascii "\\t"
  else if c.val < 32 then ascii "\\u00" ++ [hex_digit (c.val / 16), hex_digit (c.val % 16)]
  else [c]

def create_json_string (str : List u8) : List u8 :=
  ascii "\"" ++ (str.map escape_char).flatten ++ ascii "\""

/-- The loop `for (i ...) { if (i > 0) json << ","; json << item_i; }`. -/
def comma_sep (items : List (List u8)) : List u8 := (ascii ",").intercalate items

def scene_json (scene : Scene) : List u8 :=
  ascii "\x7b"
  ++ (if !scene.nodes.isEmpty then
        ascii "\"nodes\":[" ++ comma_sep (scene.nodes.map show_nat) ++ ascii "]"
      else [])
  ++ (if !scene.name.isEmpty then ascii ",\"name\":" ++ create_json_string scene.name else [])
  ++ ascii "\x7d"

def translation_set (node : Node) : Bool :=
  node.translation.x.ne f32.zero || node.translation.y.ne f32.zero || node.translation.z.ne f32.zero

def rotation_set (node : Node) : Bool :=
  node.rotation.x.ne f32.zero || node.rotation.y.ne f32.zero || node.rotation.z.ne f32.zero
    || node.rotation.w.ne f32.one

def scale_set (node : Node) : Bool :=
  node.scale.x.ne f32.one || node.scale.y.ne f32.one || node.scale.z.ne f32.one

def node_json (env : Env) (node : Node) : List u8 :=
  let has_transform_prop :=
    !node.children.isEmpty || node.mesh != UINT32_MAX || node.skin != UINT32_MAX
  ascii "\x7b"
  ++ (if !node.children.isEmpty then
        ascii "\"children\":[" ++ comma_sep (node.children.map show_nat) ++ ascii "]"
      else [])
  ++ (if node.mesh != UINT32_MAX then
        (if !node.children.isEmpty then ascii "," else []) ++ ascii "\"mesh\":" ++ show_nat node.mesh
      else [])
  ++ (if node.skin != UINT32_MAX then
        (if !node.children.isEmpty || node.mesh != UINT32_MAX then ascii "," else [])
        ++ ascii "\"skin\":" ++ show_nat node.skin
      else [])
  ++ (if node.has_matrix then
        (if has_transform_prop then ascii "," else [])
        ++ ascii "\"matrix\":[" ++ comma_sep (node.matrix.val.map env.fmt_f32) ++ ascii "]"
      else
        let has_transform := translation_set node
        (if translation_set node then
           (if has_transform_prop then ascii "," else [])
           ++ ascii "\"translation\":[" ++ env.fmt_f32 node.translation.x ++ ascii ","
           ++ env.fmt_f32 node.translation.y ++ ascii "," ++ env.fmt_f32 node.translation.z
           ++ ascii "]"
         else [])
        ++ (if rotation_set node then
              (if has_transform_prop || has_transform then ascii "," else [])
              ++ ascii "\"rotation\":[" ++ env.fmt_f32 node.rotation.x ++ ascii ","
              ++ env.fmt_f32 node.rotation.y ++ ascii "," ++ env.fmt_f32 node.rotation.z
              ++ ascii "," ++ env.fmt_f32 node.rotation.w ++ ascii "]"
            else [])
        ++ (let has_transform := has_transform || rotation_set node
            if scale_set node then
              (if has_transform_prop || has_transform then ascii "," else [])
              ++ ascii "\"scale\":[" ++ env.fmt_f32 node.scale.x ++ ascii ","
              ++ env.fmt_f32 node.scale.y ++ ascii "," ++ env.fmt_f32 node.scale.z ++ ascii "]"
            else []))
  ++ (if !node.name.isEmpty then
        (if has_transform_prop || node.has_matrix || translation_set node || rotation_set node
            || scale_set node then ascii "," else [])
        ++ ascii "\"name\":" ++ create_json_string node.name
      else [])
  ++ ascii "\x7d"

def primitive_json (primitive : Primitive) : List u8 :=
  ascii "\x7b" ++ ascii "\"attributes\":\x7b"
  ++ comma_sep (primitive.attributes.map
      (fun attr => ascii "\"" ++ attr.1 ++ ascii "\":" ++ show_nat attr.2))
  ++ ascii "\x7d"
  ++ (if primitive.indices != UINT32_MAX then ascii ",\"indices\":" ++ show_nat primitive.indices
      else [])
  ++ (if primitive.material != UINT32_MAX then
        ascii ",\"material\":" ++ show_nat primitive.material
      else [])
  ++ (if primitive.mode != 4 then ascii ",\"mode\":" ++ show_int primitive.mode else [])
  ++ ascii "\x7d"

def mesh_json (env : Env) (mesh : Mesh) : List u8 :=
  ascii "\x7b" ++ ascii "\"primitives\":[" ++ comma_sep (mesh.primitives.map primitive_json)
  ++ ascii "]"
  ++ (if !mesh.weights.isEmpty then
        ascii ",\"weights\":[" ++ comma_sep (mesh.weights.map env.fmt_f32) ++ ascii "]"
      else [])
  ++ (if !mesh.name.isEmpty then ascii ",\"name\":" ++ create_json_string mesh.name else [])
  ++ ascii "\x7d"

def base_color_factor_set (pbr : PbrMetallicRoughness) : Bool :=
  pbr.base_color_factor.x.ne f32.one || pbr.base_color_factor.y.ne f32.one
    || pbr.base_color_factor.z.ne f32.one || pbr.base_color_factor.w.ne f32.one

/-- The text `{"index":i` with the `texCoord` member when it is not 0, closed by `}`. -/
def texture_info_json (info : TextureInfo) : List u8 :=
  ascii "\x7b\"index\":" ++ show_nat info.index
  ++ (if info.tex_coord != 0 then ascii ",\"texCoord\":" ++ show_nat info.tex_coord else [])
  ++ ascii "\x7d"

def pbr_json (env : Env) (pbr : PbrMetallicRoughness) : List u8 :=
  ascii "\"pbrMetallicRoughness\":\x7b"
  ++ (if base_color_factor_set pbr then
        ascii "\"baseColorFactor\":[" ++ env.fmt_f32 pbr.base_color_factor.x ++ ascii ","
        ++ env.fmt_f32 pbr.base_color_factor.y ++ ascii ","
        ++ env.fmt_f32 pbr.base_color_factor.z ++ ascii ","
        ++ env.fmt_f32 pbr.base_color_factor.w ++ ascii "]"
      else [])
  ++ (if pbr.base_color_texture.index != 0 then
        (if base_color_factor_set pbr then ascii "," else [])
        ++ ascii "\"baseColorTexture\":" ++ texture_info_json pbr.base_color_texture
      else [])
  ++ (if pbr.metallic_factor.ne f32.one then
        (if base_color_factor_set pbr || pbr.base_color_texture.index != 0 then ascii "," else [])
        ++ ascii "\"metallicFactor\":" ++ env.fmt_f32 pbr.metallic_factor
      else [])
  ++ (if pbr.roughness_factor.ne f32.one then
        (if base_color_factor_set pbr || pbr.base_color_texture.index != 0
            || pbr.metallic_factor.ne f32.one then ascii "," else [])
        ++ ascii "\"roughnessFactor\":" ++ env.fmt_f32 pbr.roughness_factor
      else [])
  ++ (if pbr.metallic_roughness_texture.index != 0 then
        (if base_color_factor_set pbr || pbr.base_color_texture.index != 0
            || pbr.metallic_factor.ne f32.one || pbr.roughness_factor.ne f32.one then ascii ","
         else [])
        ++ ascii "\"metallicRoughnessTexture\":" ++ texture_info_json pbr.metallic_roughness_texture
      else [])
  ++ ascii "\x7d"

def material_json (env : Env) (material : Material) : List u8 :=
  ascii "\x7b" ++ pbr_json env material.pbr_metallic_roughness
  ++ (if material.normal_texture.index != 0 then
        ascii ",\"normalTexture\":" ++ texture_info_json material.normal_texture
      else [])
  ++ (if material.occlusion_texture.index != 0 then
        ascii ",\"occlusionTexture\":" ++ texture_info_json material.occlusion_texture
      else [])
  ++ (if material.emissive_texture.index != 0 then
        ascii ",\"emissiveTexture\":" ++ texture_info_json material.emissive_texture
      else [])
  ++ (if material.emissive_factor.x.ne f32.zero || material.emissive_factor.y.ne f32.zero
          || material.emissive_factor.z.ne f32.zero then
        ascii ",\"emissiveFactor\":[" ++ env.fmt_f32 material.emissive_factor.x ++ ascii ","
        ++ env.fmt_f32 material.emissive_factor.y ++ ascii ","
        ++ env.fmt_f32 material.emissive_factor.z ++ ascii "]"
      else [])
  ++ (if material.alpha_mode != ascii "OPAQUE" then
        ascii ",\"alphaMode\":" ++ create_json_string material.alpha_mode
      else [])
  ++ (if material.alpha_cutoff.ne f32.half && material.alpha_mode == ascii "MASK" then
        ascii ",\"alphaCutoff\":" ++ env.fmt_f32 material.alpha_cutoff
      else [])
  ++ (if material.double_sided then ascii ",\"doubleSided\":true" else [])
  ++ (if !material.name.isEmpty then ascii ",\"name\":" ++ create_json_string material.name
      else [])
  ++ ascii "\x7d"

def accessor_json (env : Env) (accessor : Accessor) : List u8 :=
  ascii "\x7b" ++ ascii "\"bufferView\":" ++ show_nat accessor.buffer_view
  ++ (if accessor.byte_offset != 0 then ascii ",\"byteOffset\":" ++ show_nat accessor.byte_offset
      else [])
  ++ ascii ",\"componentType\":" ++ show_int accessor.component_type
  ++ (if accessor.normalized then ascii ",\"normalized\":true" else [])
  ++ ascii ",\"count\":" ++ show_nat accessor.count
  ++ ascii ",\"type\":" ++ create_json_string accessor.type
  ++ (if !accessor.min.isEmpty then
        ascii ",\"min\":[" ++ comma_sep (accessor.min.map env.fmt_f32) ++ ascii "]"
      else [])
  ++ (if !accessor.max.isEmpty then
        ascii ",\"max\":[" ++ comma_sep (accessor.max.map env.fmt_f32) ++ ascii "]"
      else [])
  ++ (if !accessor.name.isEmpty then ascii ",\"name\":" ++ create_json_string accessor.name
      else [])
  ++ ascii "\x7d"

def buffer_view_json (buffer_view : BufferView) : List u8 :=
  ascii "\x7b" ++ ascii "\"buffer\":" ++ show_nat buffer_view.buffer
  ++ (if buffer_view.byte_offset != 0 then
        ascii ",\"byteOffset\":" ++ show_nat buffer_view.byte_offset
      else [])
  ++ ascii ",\"byteLength\":" ++ show_nat buffer_view.byte_length
  ++ (if buffer_view.byte_stride != 0 then
        ascii ",\"byteStride\":" ++ show_nat buffer_view.byte_stride
      else [])
  ++ (if buffer_view.target != 0 then ascii ",\"target\":" ++ show_int buffer_view.target else [])
  ++ (if !buffer_view.name.isEmpty then
        ascii ",\"name\":" ++ create_json_string buffer_view.name
      else [])
  ++ ascii "\x7d"

/-- The entry written for `buffers[i]` when `for_glb` is false. -/
def buffer_json (i : Nat) (buffer : Buffer) : List u8 :=
  ascii "\x7b" ++ ascii "\"byteLength\":" ++ show_nat buffer.byte_length
  ++ ascii ",\"uri\":\"buffer" ++ show_nat i ++ ascii "\"" ++ ascii "\x7d"

/-- The function `Model::generate_json`: the text it returns. -/
def generate_json (env : Env) (model : Model) (for_glb : Bool) : List u8 :=
  ascii "\x7b" ++ ascii "\"asset\":\x7b\"version\":\"2.0\"\x7d"
  ++ (if !model.scenes.isEmpty then
        ascii ",\"scene\":" ++ show_nat model.default_scene
        ++ ascii ",\"scenes\":[" ++ comma_sep (model.scenes.map scene_json) ++ ascii "]"
      else [])
  ++ (if !model.nodes.isEmpty then
        ascii ",\"nodes\":[" ++ comma_sep (model.nodes.map (node_json env)) ++ ascii "]"
      else [])
  ++ (if !model.meshes.isEmpty then
        ascii ",\"meshes\":[" ++ comma_sep (model.meshes.map (mesh_json env)) ++ ascii "]"
      else [])
  ++ (if !model.materials.isEmpty then
        ascii ",\"materials\":[" ++ comma_sep (model.materials.map (material_json env)) ++ ascii "]"
      else [])
  ++ (if !model.accessors.isEmpty then
        ascii ",\"accessors\":[" ++ comma_sep (model.accessors.map (accessor_json env)) ++ ascii "]"
      else [])
  ++ (if !model.buffer_views.isEmpty then
        ascii ",\"bufferViews\":[" ++ comma_sep (model.buffer_views.map buffer_view_json)
        ++ ascii "]"
      else [])
  ++ (if !model.buffers.isEmpty then
        ascii ",\"buffers\":["
        ++ (if for_glb then
              ascii "\x7b\"byteLength\":" ++ show_nat (model.buffers.headD {}).byte_length
              ++ ascii "\x7d"
            else
              comma_sep (model.buffers.enum.map (fun ib => buffer_json ib.1 ib.2)))
        ++ ascii "]"
      else [])
  ++ ascii "\x7d"

/-! ## Container framer, encode direction (`Model::save_as_glb`) -/

/-- The bytes `save_as_glb` writes to the output file, given the document text and
the concatenated buffer data. -/
def glb_bytes (json_content bin_data : List u8) : List u8 :=
  let json_padding := (4 - json_content.length % 4) % 4
  let padded_json_length := json_content.length + json_padding
  let bin_padding := (4 - bin_data.length % 4) % 4
  let padded_bin_length := bin_data.length + bin_padding
  let total_size := 12 + 8 + padded_json_length + 8 + padded_bin_length
  le32 0x46546C67 ++ le32 2 ++ le32 total_size
  ++ le32 padded_json_length ++ le32 0x4E4F534A ++ json_content
  ++ List.replicate json_padding (32 : u8)
  ++ (if !bin_data.isEmpty then
        le32 padded_bin_length ++ le32 0x004E4942 ++ bin_data
        ++ List.replicate bin_padding (0 : u8)
      else [])

/-- The loop that combines all buffer data into `bin_data`. -/
def concat_buffers (buffers : List Buffer) : List u8 :=
  (buffers.map (fun buffer => buffer.data)).flatten

/-- The function `Model::save_as_glb`: the content of the output file once it could be created. -/
def save_as_glb (env : Env) (model : Model) : List u8 :=
  glb_bytes (generate_json env model true) (concat_buffers model.buffers)

/-- What the container branch of `load_from_memory` takes out of the input: the text
handed to `json_parse` and the data copied from the BIN chunk, if any; `none` when the
input is not sniffed as a container or a header check fails. -/
def glb_decode (data : List u8) : Option (List u8 × Option (List u8)) :=
  if is_glb data then
    match glb_json_chunk_length data with
    | none => none
    | some json_chunk_length =>
      some (glb_json_data data json_chunk_length,
            (glb_bin_buffer data json_chunk_length).map (fun buffer => buffer.data))
  else none

/-! ## Concrete inputs -/

/-- The text `{"asset":{"version":"2.0"},"buffers":[{"byteLength":8}]}` (56 bytes). -/
def minimal_text : List u8 :=
  ascii "\x7b\"asset\":\x7b\"version\":\"2.0\"\x7d,\"buffers\":[\x7b\"byteLength\":8\x7d]\x7d"

/-- The tree of `minimal_text`. -/
def minimal_tree : json_value_s :=
  .json_object
    [(ascii "asset", .json_object [(ascii "version", .json_string (ascii "2.0"))]),
     (ascii "buffers",
      .json_array [.json_object [(ascii "byteLength", .json_number (ascii "8"))]])]

def minimal_payload : List u8 := [1, 2, 3, 4, 5, 6, 7, 8]

/-- A container of 92 bytes: header, the JSON chunk `minimal_text`, and a BIN chunk of
declared length 8 carrying `minimal_payload`. -/
def minimal_glb : List u8 :=
  ascii "glTF" ++ le32 2 ++ le32 92
  ++ le32 56 ++ ascii "JSON" ++ minimal_text
  ++ le32 8 ++ ascii "BIN\x00" ++ minimal_payload

/-- As `minimal_glb`, but the BIN chunk declares 100 bytes while only 8 follow. -/
def truncated_glb : List u8 :=
  ascii "glTF" ++ le32 2 ++ le32 92
  ++ le32 56 ++ ascii "JSON" ++ minimal_text
  ++ le32 100 ++ ascii "BIN\x00" ++ minimal_payload

/-- An environment whose tokenizer knows `minimal_text` and whose file system is empty. -/
def minimal_env : Env where
  json_parse := fun text => if text = minimal_text then some minimal_tree else none
  stof := fun _ => none
  fmt_f32 := fun _ => []
  open_file := fun _ => none

/-- A container of 20 bytes whose JSON chunk header declares a payload of 100 bytes. -/
def short_glb : List u8 :=
  ascii "glTF" ++ le32 2 ++ le32 20 ++ le32 100 ++ ascii "JSON"

/-- A document with one scene and nothing else. -/
def scene_doc : Model := { scenes := [{}] }

/-- The text `{"asset":{"version":"2.0"},"scene":0,"scenes":[{}]}`. -/
def scene_text : List u8 :=
  ascii "\x7b\"asset\":\x7b\"version\":\"2.0\"\x7d,\"scene\":0,\"scenes\":[\x7b\x7d]\x7d"

/-- The members of the root object of `scene_text`, in the order of the text. -/
def scene_root : json_object_s :=
  [(ascii "asset", .json_object [(ascii "version", .json_string (ascii "2.0"))]),
   (ascii "scene", .json_number (ascii "0")),
   (ascii "scenes", .json_array [.json_object []])]

/-- The tree of `scene_text`. -/
def scene_tree : json_value_s := .json_object scene_root

def scene_env : Env where
  json_parse := fun text => if text = scene_text then some scene_tree else none
  stof := fun _ => none
  fmt_f32 := fun _ => []
  open_file := fun _ => none

/-- The text `{"buffers":[{"byteLength":4,"uri":"missing.bin"}]}`. -/
def missing_text : List u8 :=
  ascii "\x7b\"buffers\":[\x7b\"byteLength\":4,\"uri\":\"missing.bin\"\x7d]\x7d"

/-- The tree of `missing_text`. -/
def missing_tree : json_value_s :=
  .json_object
    [(ascii "buffers",
      .json_array [.json_object [(ascii "byteLength", .json_number (ascii "4")),
                                 (ascii "uri", .json_string (ascii "missing.bin"))]])]

/-- An environment whose only file is `model.gltf`, with content `missing_text`. -/
def missing_env : Env where
  json_parse := fun text => if text = missing_text then some missing_tree else none
  stof := fun _ => none
  fmt_f32 := fun _ => []
  open_file := fun path => if path = ascii "model.gltf" then some missing_text else none

/-- The two-byte text `{}`. -/
def braces_text : List u8 := ascii "\x7b\x7d"

/-- The two-byte text `[]`. -/
def brackets_text : List u8 := ascii "[]"

/-- An environment with two files: `model.gltf` holds the text `{}` and `list.gltf`
holds the text `[]`; the tokenizer knows both texts. -/
def flag_env : Env where
  json_parse := fun text =>
    if text = braces_text then some (.json_object [])
    else if text = brackets_text then some (.json_array [])
    else none
  stof := fun _ => none
  fmt_f32 := fun _ => []
  open_file := fun path =>
    if path = ascii "model.gltf" then some braces_text
    else if path = ascii "list.gltf" then some brackets_text
    else none

/-- The root object of the text `{"buffers":[{"byteLength":3000000000}]}`. -/
def big_buffer_root : json_object_s :=
  [(ascii "buffers",
    .json_array [.json_object [(ascii "byteLength", .json_number (ascii "3000000000"))]])]

/-- The text `{"buffers":[{"byteLength":2,"uri":"buf.bin"}]}`. -/
def dir_text : List u8 :=
  ascii "\x7b\"buffers\":[\x7b\"byteLength\":2,\"uri\":\"buf.bin\"\x7d]\x7d"

/-- The tree of `dir_text`. -/
def dir_tree : json_value_s :=
  .json_object
    [(ascii "buffers",
      .json_array [.json_object [(ascii "byteLength", .json_number (ascii "2")),
                                 (ascii "uri", .json_string (ascii "buf.bin"))]])]

/-- An environment with three files: `dir/model.gltf` holds `dir_text`, `dir/buf.bin`
holds the bytes 1, 2 and `dirbuf.bin` holds the bytes 9, 9. -/
def dir_env : Env where
  json_parse := fun text => if text = dir_text then some dir_tree else none
  stof := fun _ => none
  fmt_f32 := fun _ => []
  open_file := fun path =>
    if path = ascii "dir/model.gltf" then some dir_text
    else if path = ascii "dir/buf.bin" then some [1, 2]
    else if path = ascii "dirbuf.bin" then some [9, 9]
    else none

/-- The values of `std::stof` on the texts `0`, `1` and `0.5`. -/
def small_stof (text : List u8) : Option f32 :=
  if text = ascii "0" then some f32.zero
  else if text = ascii "1" then some f32.one
  else if text = ascii "0.5" then some f32.half
  else none

/-- An environment without files whose `stof` is `small_stof`. -/
def table_env : Env where
  json_parse := fun _ => none
  stof := small_stof
  fmt_f32 := fun _ => []
  open_file := fun _ => none

/-- The array `[1,1,1]`. -/
def ones3 : json_value_s :=
  .json_array [.json_number (ascii "1"), .json_number (ascii "1"), .json_number (ascii "1")]

/-- The node object `{"matrix":[1,1,1],"translation":[1,1,1]}`. -/
def short_matrix_node : json_object_s :=
  [(ascii "matrix", ones3), (ascii "translation", ones3)]

/-- The root object of `{"scene":0,"scenes":[{},{"name":"a"}]}`. -/
def shadowed_root : json_object_s :=
  [(ascii "scene", .json_number (ascii "0")),
   (ascii "scenes",
    .json_array [.json_object [], .json_object [(ascii "name", .json_string (ascii "a"))]])]

/-- The root object of `{"scenes":[{},{"name":"a"}],"scene":0}`. -/
def unshadowed_root : json_object_s :=
  [(ascii "scenes",
    .json_array [.json_object [], .json_object [(ascii "name", .json_string (ascii "a"))]]),
   (ascii "scene", .json_number (ascii "0"))]

/-- The object `{"index":0}`. -/
def index_zero : json_value_s := .json_object [(ascii "index", .json_number (ascii "0"))]

/-! ## Trees whose numbers convert -/

/-- Every number of the tree is in the range of `int` and of `float`: neither
`std::stoi` nor `std::stof` throws on its text. -/
inductive numbers_ok (env : Env) : json_value_s → Prop where
  | json_string (s : List u8) : numbers_ok env (.json_string s)
  | json_number (number : List u8) (hi : ∃ i, stoi number = some i)
      (hf : ∃ x, env.stof number = some x) : numbers_ok env (.json_number number)
  | json_object (members : List (List u8 × json_value_s))
      (h : ∀ p ∈ members, numbers_ok env p.2) : numbers_ok env (.json_object members)
  | json_array (elements : List json_value_s)
      (h : ∀ e ∈ elements, numbers_ok env e) : numbers_ok env (.json_array elements)
  | json_true : numbers_ok env .json_true
  | json_false : numbers_ok env .json_false
  | json_null : numbers_ok env .json_null

/-- The primitive object `{"indices":null,"mode":1}`. -/
def null_indices_primitive : json_object_s :=
  [(ascii "indices", .json_null), (ascii "mode", .json_number (ascii "1"))]

/-- A buffer whose URI is `data:application/octet-stream;base64,TWFu`. -/
def data_buffer : Buffer := { uri := ascii "data:application/octet-stream;base64,TWFu" }

/-- The node object `{"matrix":[1, ..., 1],"translation":[1,1,1]}`, its matrix of 16
elements. -/
def matrix_node : json_object_s :=
  [(ascii "matrix", .json_array (List.replicate 16 (.json_number (ascii "1")))),
   (ascii "translation", ones3)]

/-- The root object of `{"nodes":1,"meshes":[{}]}`. -/
def scalar_nodes_root : json_object_s :=
  [(ascii "nodes", .json_number (ascii "1")), (ascii "meshes", .json_array [.json_object []])]

/-! ## Byte codec, encode direction -/

def base64_chars : List u8 :=
  ascii "ABCDEFGHIJKLMNOPQRSTUVWXYZabcdefghijklmnopqrstuvwxyz0123456789+/"

/-- The character `base64_chars[i]`. -/
def base64_char (i : Nat) : u8 := base64_chars.getD i 0

/-- The characters `encode_base64` stores into `result`, in order: four for each full
group of three bytes, then four for a remainder of one or two bytes. -/
def encode_chars : List u8 → List u8
  | a :: b :: c :: rest =>
    [base64_char ((a.val >>> 2) &&& 0x3F),
     base64_char (((a.val &&& 0x3) <<< 4) ||| ((b.val &&& 0xF0) >>> 4)),
     base64_char (((b.val &&& 0xF) <<< 2) ||| ((c.val &&& 0xC0) >>> 6)),
     base64_char (c.val &&& 0x3F)] ++ encode_chars rest
  | [a, b] =>
    [base64_char ((a.val >>> 2) &&& 0x3F),
     base64_char (((a.val &&& 0x3) <<< 4) ||| ((b.val &&& 0xF0) >>> 4)),
     base64_char ((b.val &&& 0xF) <<< 2),
     61]
  | [a] =>
    [base64_char ((a.val >>> 2) &&& 0x3F), base64_char ((a.val &&& 0x3) <<< 4), 61, 61]
  | [] => []

/-- The function `encode_base64`: `result` starts as `out_len` NUL characters, and the
characters stored overwrite it from the front. -/
def encode_base64 (data : List u8) : List u8 :=
  let out_len := 4 * ((data.length + 2) / 3)
  let written := encode_chars data
  written ++ (List.replicate out_len (0 : u8)).drop written.length

/-- The part of `decode_base_64` after its loop, on the state the loop ends in. -/
def decode_remaining (state : List Nat × List u8) : List u8 :=
  let val := state.1
  let output := state.2
  let output :=
    if val.length > 1 then output ++ [to_u8 ((val.getD 0 0 <<< 2) ||| (val.getD 1 0 >>> 4))]
    else output
  let output :=
    if val.length > 2 then output ++ [to_u8 ((val.getD 1 0 <<< 4) ||| (val.getD 2 0 >>> 2))]
    else output
  output

/-! ## Text form on disk (`Model::save_as_gltf`) -/

/-- The directory part `save_as_gltf` takes from the output path: the path up to and
including its last separator, empty when there is none. -/
def output_dir_path (path : List u8) : List u8 :=
  match find_last_of path (ascii "/\\") with
  | some last_slash => path.take (last_slash + 1)
  | none => []

/-- The base name `save_as_gltf` takes from the output path: what follows the last
separator, without the extension when the last dot comes after that separator. For
`npos`, `last_slash + 1` is 0. -/
def output_base_name (path : List u8) : List u8 :=
  let last_slash := find_last_of path (ascii "/\\")
  let start :=
    match last_slash with
    | some pos => pos + 1
    | none => 0
  match find_last_of path (ascii "."), last_slash with
  | some last_dot, none => (path.drop start).take (last_dot - start)
  | some last_dot, some pos =>
    if last_dot > pos then (path.drop start).take (last_dot - start) else path.drop start
  | none, _ => path.drop start

/-- The path of the side file written for buffer `i`. -/
def buffer_file_path (path : List u8) (i : Nat) : List u8 :=
  let buffer_filename := output_base_name path ++ ascii "_buffer" ++ show_nat i ++ ascii ".bin"
  output_dir_path path ++ buffer_filename

/-- The loop of `save_as_gltf` that writes the buffer files, from buffer `i` on: whether
it ran to its end, and the files it wrote, as path and content, in order.
`can_create` tells whether an output file can be opened at a path. -/
def write_buffer_files (can_create : List u8 → Bool) (path : List u8) :
    Nat → List Buffer → Bool × List (List u8 × List u8)
  | _, [] => (true, [])
  | i, buffer :: rest =>
    if can_create (buffer_file_path path i) then
      let r := write_buffer_files can_create path (i + 1) rest
      (r.1, (buffer_file_path path i, buffer.data) :: r.2)
    else (false, [])

/-- The function `Model::save_as_gltf`: its result and the files it wrote, as path and
content, in order. -/
def save_as_gltf (env : Env) (can_create : List u8 → Bool) (model : Model) (path : List u8)
    (embed_buffers : Bool) : Bool × List (List u8 × List u8) :=
  let json_content := generate_json env model false
  if !can_create path then (false, [])
  else if !embed_buffers then
    let r := write_buffer_files can_create path 0 model.buffers
    (r.1, (path, json_content) :: r.2)
  else (true, [(path, json_content)])

/-- A document with one buffer of two bytes. -/
def one_buffer_doc : Model := { buffers := [{ byte_length := 2, data := [1, 2], loaded := true }] }

/-- The document with the single scene named `a`, without nodes. -/
def named_scene_doc : Model := { scenes := [{ name := ascii "a" }] }

/-- A document with two buffers of four bytes each. -/
def two_buffer_doc : Model :=
  { buffers := [{ byte_length := 4, data := [1, 2, 3, 4], loaded := true },
                { byte_length := 4, data := [5, 6, 7, 8], loaded := true }] }

/-- A document with one entry in each of textures, images, samplers, skins and
animations and nothing else. -/
def texture_doc : Model :=
  { images := [{ uri := ascii "a.png" }], samplers := [{}], textures := [{}],
    skins := [{ joints := [0] }], animations := [{ name := ascii "walk" }] }

/-- The container `save_as_glb` frames from the text `dir_text` and four zero bytes. -/
def dir_glb : List u8 := glb_bytes dir_text [0, 0, 0, 0]

/-- An environment with four files: `dir/model.glb` holds `dir_glb`, `buf.bin` holds
the bytes 7, 7, `dir/buf.bin` holds 1, 2 and `dirbuf.bin` holds 9, 9; the tokenizer
knows the JSON chunk of `dir_glb`. -/
def glb_dir_env : Env where
  json_parse := fun text =>
    if text = dir_text ++ List.replicate ((4 - dir_text.length % 4) % 4) (32 : u8) then
      some dir_tree
    else none
  stof := fun _ => none
  fmt_f32 := fun _ => []
  open_file := fun path =>
    if path = ascii "dir/model.glb" then some dir_glb
    else if path = ascii "buf.bin" then some [7, 7]
    else if path = ascii "dir/buf.bin" then some [1, 2]
    else if path = ascii "dirbuf.bin" then some [9, 9]
    else none

/-- The text of the JSON number `-1`. -/
def minus_one : json_value_s := .json_number (ascii "-1")

/-- A list of three buffers: one loaded, one with a data URI, one with a file name. -/
def mixed_buffers : List Buffer :=
  [{ uri := ascii "x.bin", byte_length := 9, data := [5], loaded := true },
   { uri := ascii "data:,ab", byte_length := 1 },
   { uri := ascii "missing.bin", byte_length := 3 }]

/-- The node object `{"mesh":-1,"skin":-1,"name":"n"}`. -/
def minus_one_node : json_object_s :=
  [(ascii "mesh", minus_one), (ascii "skin", minus_one), (ascii "name", .json_string (ascii "n"))]

/-- An environment without files whose `stof` knows the texts `-1`, `0`, `1`, `0.5`. -/
def signed_env : Env where
  json_parse := fun _ => none
  stof := fun text => if text = ascii "-1" then some ⟨0xBF800000⟩ else small_stof text
  fmt_f32 := fun _ => []
  open_file := fun _ => none

/-- The node object `{"translation":[1,1],"name":"n"}`. -/
def short_translation_node : json_object_s :=
  [(ascii "translation", .json_array [.json_number (ascii "1"), .json_number (ascii "1")]),
   (ascii "name", .json_string (ascii "n"))]

/-- The node object `{"m":0,"matrix":[1, ..., 1],"translation":[1,1,1]}`, its matrix of
16 elements. -/
def shadowed_matrix_node : json_object_s :=
  [(ascii "m", .json_number (ascii "0")),
   (ascii "matrix", .json_array (List.replicate 16 (.json_number (ascii "1")))),
   (ascii "translation", ones3)]

/-- The root object of `{"scene":[{}]}`. -/
def scene_array_root : json_object_s := [(ascii "scene", .json_array [.json_object []])]

/-- The node object `{"t":[1,1,1],"translation":[1,1]}`. -/
def shadowed_translation_node : json_object_s :=
  [(ascii "t", ones3),
   (ascii "translation", .json_array [.json_number (ascii "1"), .json_number (ascii "1")])]

/-- The node object `{"me":5,"mesh":-1}`. -/
def shadowed_mesh_node : json_object_s :=
  [(ascii "me", .json_number (ascii "5")), (ascii "mesh", minus_one)]

theorem byte_at_append_right (a b : List u8) (k : Nat) :
    byte_at (a ++ b) (a.length + k) = byte_at b k := by
  unfold byte_at
  rw [List.getD_append_right _ _ _ _ (Nat.le_add_right _ _), Nat.add_sub_cancel_left]

theorem read_u32_append (a b : List u8) (k : Nat) :
    read_u32 (a ++ b) (a.length + k) = read_u32 b k := by
  simp only [read_u32, Nat.add_assoc a.length, byte_at_append_right]

theorem read_u32_le32 (n : Nat) (rest : List u8) :
    read_u32 (le32 n ++ rest) 0 = n % 4294967296 := by
  show n % 256 + 256 * (n / 256 % 256) + 65536 * (n / 65536 % 256)
      + 16777216 * (n / 16777216 % 256) = n % 4294967296
  omega

theorem le32_length (n : Nat) : (le32 n).length = 4 := rfl

theorem read_u32_skip (n : Nat) (rest : List u8) (k : Nat) :
    read_u32 (le32 n ++ rest) (4 + k) = read_u32 rest k :=
  read_u32_append (le32 n) rest k

/-- An input sniffed as a container passes the magic test of the header. -/
theorem read_u32_of_magic (data : List u8) (h : is_glb data = true) :
    read_u32 data 0 = 0x46546C67 := by
  unfold is_glb at h
  simp only [Bool.and_eq_true, decide_eq_true_eq, beq_iff_eq] at h
  obtain ⟨h1, h2⟩ := h
  have hm : ascii "glTF" = [103, 108, 84, 70] := by decide
  rw [hm] at h2
  match data, h1, h2 with
  | a :: b :: c :: d :: rest, _, h2 =>
    simp only [List.take_succ_cons, List.take_zero, List.cons.injEq, and_true] at h2
    obtain ⟨ha, hb, hc, hd⟩ := h2
    subst ha hb hc hd
    have h0 : byte_at ((103 : u8) :: (108 : u8) :: (84 : u8) :: (70 : u8) :: rest) 0 = 103 := rfl
    have h1 : byte_at ((103 : u8) :: (108 : u8) :: (84 : u8) :: (70 : u8) :: rest) 1 = 108 := rfl
    have h2 : byte_at ((103 : u8) :: (108 : u8) :: (84 : u8) :: (70 : u8) :: rest) 2 = 84 := rfl
    have h3 : byte_at ((103 : u8) :: (108 : u8) :: (84 : u8) :: (70 : u8) :: rest) 3 = 70 := rfl
    unfold read_u32
    rw [h0, h1, h2, h3]

theorem header_reads (a b c d e : Nat) (rest : List u8) :
    read_u32 (le32 a ++ (le32 b ++ (le32 c ++ (le32 d ++ (le32 e ++ rest))))) 0 = a % 4294967296
    ∧ read_u32 (le32 a ++ (le32 b ++ (le32 c ++ (le32 d ++ (le32 e ++ rest))))) 4 = b % 4294967296
    ∧ read_u32 (le32 a ++ (le32 b ++ (le32 c ++ (le32 d ++ (le32 e ++ rest))))) 8 = c % 4294967296
    ∧ read_u32 (le32 a ++ (le32 b ++ (le32 c ++ (le32 d ++ (le32 e ++ rest))))) 12 = d % 4294967296
    ∧ read_u32 (le32 a ++ (le32 b ++ (le32 c ++ (le32 d ++ (le32 e ++ rest))))) 16 = e % 4294967296
    ∧ (∀ k, read_u32 (le32 a ++ (le32 b ++ (le32 c ++ (le32 d ++ (le32 e ++ rest))))) (20 + k)
          = read_u32 rest k) := by
  refine ⟨read_u32_le32 _ _, ?_, ?_, ?_, ?_, ?_⟩
  · exact (read_u32_skip a _ 0).trans (read_u32_le32 _ _)
  · exact (read_u32_skip a _ 4).trans ((read_u32_skip b _ 0).trans (read_u32_le32 _ _))
  · exact (read_u32_skip a _ 8).trans ((read_u32_skip b _ 4).trans
      ((read_u32_skip c _ 0).trans (read_u32_le32 _ _)))
  · exact (read_u32_skip a _ 12).trans ((read_u32_skip b _ 8).trans
      ((read_u32_skip c _ 4).trans ((read_u32_skip d _ 0).trans (read_u32_le32 _ _))))
  · intro k
    have e1 : 20 + k = 4 + (4 + (4 + (4 + (4 + k)))) := by omega
    rw [e1, read_u32_skip, read_u32_skip, read_u32_skip, read_u32_skip, read_u32_skip]

theorem header_drop (a b c d e : Nat) (rest : List u8) :
    (le32 a ++ (le32 b ++ (le32 c ++ (le32 d ++ (le32 e ++ rest))))).drop 20 = rest := rfl

theorem header_take (a b c d e : Nat) (rest : List u8) :
    (le32 a ++ (le32 b ++ (le32 c ++ (le32 d ++ (le32 e ++ rest))))).take 4 = le32 a := rfl

theorem header_length (a b c d e : Nat) (rest : List u8) :
    (le32 a ++ (le32 b ++ (le32 c ++ (le32 d ++ (le32 e ++ rest))))).length
      = 20 + rest.length := by
  simp only [List.length_append, le32_length]
  omega

/-! ## The header checks of the container branch -/

theorem glb_json_chunk_length_eq_some_iff (data : List u8) (h : is_glb data = true) :
    glb_json_chunk_length data = some (read_u32 data 12)
      ↔ (data.length ≥ 20 ∧ read_u32 data 4 = 2 ∧ read_u32 data 8 ≤ data.length
          ∧ read_u32 data 16 = 0x4E4F534A) := by
  have hm := read_u32_of_magic data h
  unfold glb_json_chunk_length
  constructor
  · intro hs
    split_ifs at hs
    omega
  · rintro ⟨h1, h2, h3, h4⟩
    rw [if_neg (by omega), if_neg (by omega), if_neg (by omega), if_neg (by omega),
      if_neg (by omega), if_neg (by omega)]

theorem glb_json_chunk_length_cases (data : List u8) :
    glb_json_chunk_length data = none
      ∨ glb_json_chunk_length data = some (read_u32 data 12) := by
  unfold glb_json_chunk_length
  split_ifs <;> simp

/-! ## Container framing written by `save_as_glb` -/

theorem glb_bytes_layout (T B : List u8) (hB : B ≠ []) :
    glb_bytes T B
      = le32 0x46546C67 ++ (le32 2 ++ (le32 (12 + 8 + (T.length + (4 - T.length % 4) % 4) + 8
            + (B.length + (4 - B.length % 4) % 4))
          ++ (le32 (T.length + (4 - T.length % 4) % 4) ++ (le32 0x4E4F534A
          ++ ((T ++ List.replicate ((4 - T.length % 4) % 4) (32 : u8))
          ++ (le32 (B.length + (4 - B.length % 4) % 4) ++ (le32 0x004E4942
          ++ (B ++ List.replicate ((4 - B.length % 4) % 4) (0 : u8))))))))) := by
  have hB2 : (!B.isEmpty) = true := by
    cases B with
    | nil => exact absurd rfl hB
    | cons => rfl
  simp only [glb_bytes, hB2, if_true, List.append_assoc]

/-- Decoding a container made of the 12-byte header, a JSON chunk with payload `Tp`
and a BIN chunk with payload `Bp`, the length fields being the ones `save_as_glb`
computes. -/
theorem glb_decode_layout (Tp Bp : List u8) (hBp : 0 < Bp.length)
    (hsize : 12 + 8 + Tp.length + 8 + Bp.length < 4294967296) :
    glb_decode (le32 0x46546C67 ++ (le32 2 ++ (le32 (12 + 8 + Tp.length + 8 + Bp.length)
        ++ (le32 Tp.length ++ (le32 0x4E4F534A
        ++ (Tp ++ (le32 Bp.length ++ (le32 0x004E4942 ++ Bp))))))))
      = some (Tp, some Bp) := by
  generalize hd : (le32 0x46546C67 ++ (le32 2 ++ (le32 (12 + 8 + Tp.length + 8 + Bp.length)
        ++ (le32 Tp.length ++ (le32 0x4E4F534A
        ++ (Tp ++ (le32 Bp.length ++ (le32 0x004E4942 ++ Bp)))))))) = data
  obtain ⟨r0, r4, r8, r12, r16, rk⟩ := header_reads 0x46546C67 2
    (12 + 8 + Tp.length + 8 + Bp.length) Tp.length 0x4E4F534A
    (Tp ++ (le32 Bp.length ++ (le32 0x004E4942 ++ Bp)))
  have hlen := header_length 0x46546C67 2 (12 + 8 + Tp.length + 8 + Bp.length) Tp.length
    0x4E4F534A (Tp ++ (le32 Bp.length ++ (le32 0x004E4942 ++ Bp)))
  have htake := header_take 0x46546C67 2 (12 + 8 + Tp.length + 8 + Bp.length) Tp.length
    0x4E4F534A (Tp ++ (le32 Bp.length ++ (le32 0x004E4942 ++ Bp)))
  have hdrop := header_drop 0x46546C67 2 (12 + 8 + Tp.length + 8 + Bp.length) Tp.length
    0x4E4F534A (Tp ++ (le32 Bp.length ++ (le32 0x004E4942 ++ Bp)))
  rw [hd] at r0 r4 r8 r12 r16 rk hlen htake hdrop
  simp only [List.length_append, le32_length] at hlen
  have hmagic : (le32 0x46546C67 == ascii "glTF") = true := by decide
  have hglb : is_glb data = true := by
    unfold is_glb
    rw [htake, hmagic, Bool.and_true, decide_eq_true_eq]
    omega
  have hchunk : glb_json_chunk_length data = some Tp.length := by
    unfold glb_json_chunk_length
    rw [r0, r4, r8, r12, r16]
    rw [if_neg (by omega), if_neg (by omega), if_neg (by omega), if_neg (by omega),
      if_neg (by omega), if_neg (by omega)]
    congr 1
    omega
  have hjson : glb_json_data data Tp.length = Tp := by
    unfold glb_json_data
    rw [hdrop, List.take_left]
  have hstart : bin_chunk_start Tp.length = 20 + Tp.length := by
    unfold bin_chunk_start
    omega
  have hb0 : read_u32 data (20 + Tp.length) = Bp.length := by
    rw [rk]
    have := read_u32_append Tp (le32 Bp.length ++ (le32 0x004E4942 ++ Bp)) 0
    rw [Nat.add_zero] at this
    rw [this, read_u32_le32]
    omega
  have hb4 : read_u32 data (20 + Tp.length + 4) = 0x004E4942 := by
    rw [Nat.add_assoc, rk, read_u32_append]
    exact (read_u32_skip _ _ 0).trans (read_u32_le32 _ _)
  have hbdata : (data.drop (20 + Tp.length + 8)).take Bp.length = Bp := by
    have e : data.drop (20 + Tp.length + 8) = Bp := by
      rw [Nat.add_assoc, ← List.drop_drop, hdrop, List.drop_append]
      rfl
    rw [e, List.take_length]
  have hbin : glb_bin_buffer data Tp.length
      = some { byte_length := Bp.length, data := Bp, loaded := true } := by
    unfold glb_bin_buffer
    simp only [hstart, hb0, hb4, hbdata]
    rw [if_pos (by omega), if_pos trivial, if_pos (by omega)]
  unfold glb_decode
  rw [hglb, if_pos rfl, hchunk]
  simp only [hjson, hbin, Option.map_some']

theorem generate_json_empty (env : Env) (for_glb : Bool) :
    generate_json env {} for_glb = ascii "\x7b\"asset\":\x7b\"version\":\"2.0\"\x7d\x7d" := by
  rfl

theorem save_as_glb_empty (env : Env) :
    save_as_glb env {} = glb_bytes (ascii "\x7b\"asset\":\x7b\"version\":\"2.0\"\x7d\x7d") [] := by
  rw [save_as_glb, generate_json_empty]
  rfl

/-! ## What `Model::parse` keeps of the model it is called on -/

/-- The result of `Model::parse` depends on the model it is called on only through
`default_scene` and `base_path`: the twelve collections are cleared first. -/
theorem parse_forgets_collections (env : Env) (model : Model) (root : json_value_s) :
    parse env model root
      = parse env { default_scene := model.default_scene, base_path := model.base_path } root :=
  rfl

/-! ## The claims -/

/-- Claim C1, at the container `minimal_glb` (JSON chunk declaring one buffer of
`byteLength` 8, BIN chunk carrying the 8 bytes of `minimal_payload`): the BIN chunk is
recognised and its buffer is built, but `load_from_memory` returns a document whose
single buffer has `loaded = false` and no data, because `Model::parse` clears
`buffers` before mapping the tree. -/
theorem load_from_memory_drops_bin_buffer :
    glb_json_chunk_length minimal_glb = some 56
    ∧ glb_json_data minimal_glb 56 = minimal_text
    ∧ glb_bin_buffer minimal_glb 56
        = some { byte_length := 8, data := minimal_payload, loaded := true }
    ∧ load_from_memory minimal_env minimal_glb
        = some (true, { buffers := [{ uri := [], byte_length := 8, data := [], loaded := false }] }) := by
  refine ⟨by decide, by decide, by decide, by rfl⟩

/-- Claim C2 as stated fails: for the text `{}` and the one-byte blob `[1]` the decoder
hands `{}` followed by two spaces to the parser and takes `[1, 0, 0, 0]` from the BIN
chunk. -/
theorem glb_decode_glb_bytes_not_identity :
    glb_decode (glb_bytes braces_text [1])
        = some (braces_text ++ [32, 32], some [1, 0, 0, 0])
    ∧ glb_decode (glb_bytes braces_text [1]) ≠ some (braces_text, some [1]) := by
  refine ⟨by decide, by decide⟩

/-- Claim C2, amended: for every document text `T` and every non-empty blob `B` whose
container is shorter than `2^32` bytes, decoding the bytes `save_as_glb` frames from
`(T, B)` hands the parser `T` followed by the spaces that pad it to a multiple of 4,
and takes from the BIN chunk `B` followed by the zero bytes that pad it to a multiple
of 4. -/
theorem glb_decode_glb_bytes (T B : List u8) (hB : B ≠ [])
    (hsize : (glb_bytes T B).length < 4294967296) :
    glb_decode (glb_bytes T B)
      = some (T ++ List.replicate ((4 - T.length % 4) % 4) (32 : u8),
              some (B ++ List.replicate ((4 - B.length % 4) % 4) (0 : u8))) := by
  rw [glb_bytes_layout T B hB] at hsize ⊢
  have hTl : (T ++ List.replicate ((4 - T.length % 4) % 4) (32 : u8)).length
      = T.length + (4 - T.length % 4) % 4 := by simp
  have hBl : (B ++ List.replicate ((4 - B.length % 4) % 4) (0 : u8)).length
      = B.length + (4 - B.length % 4) % 4 := by simp
  have hBpos : 0 < B.length := List.length_pos.mpr hB
  simp only [List.length_append, le32_length, List.length_replicate] at hsize
  rw [← hTl, ← hBl]
  exact glb_decode_layout _ _ (by rw [hBl]; omega) (by rw [hTl, hBl]; omega)

/-- Witness of claim C2 (amended) at the text `{}` and the blob `[1]`. -/
theorem glb_decode_glb_bytes_witness :
    ([1] : List u8) ≠ [] ∧ (glb_bytes braces_text [1]).length < 4294967296
    ∧ glb_decode (glb_bytes braces_text [1])
      = some (braces_text ++ List.replicate ((4 - braces_text.length % 4) % 4) (32 : u8),
              some ([1] ++ List.replicate ((4 - ([1] : List u8).length % 4) % 4) (0 : u8))) :=
  ⟨by decide, by decide, glb_decode_glb_bytes braces_text [1] (by decide) (by decide)⟩

/-- Claim C3, at the document `scene_doc` (one scene, nothing else): `generate_json`
emits the text `scene_text`, whose root object has the member `scene` before the member
`scenes`; `find_member`, asked for `scenes`, returns the value of `scene`, and
`Model::parse` maps the tree of that text to a document without scenes. -/
theorem roundtrip_loses_scenes :
    scene_doc.scenes = [{}]
    ∧ generate_json scene_env scene_doc false = scene_text
    ∧ scene_env.json_parse scene_text = some scene_tree
    ∧ find_member scene_root (ascii "scenes") = some (.json_number (ascii "0"))
    ∧ parse scene_env {} scene_tree = some (true, { scenes := [] }) := by
  refine ⟨by rfl, by decide, by rfl, by rfl, by rfl⟩

/-- Claim C4, at the document without buffers: `save_as_glb` writes 48 bytes (header,
JSON chunk header and the 28 bytes of padded text, no BIN chunk), and the total-length
field at offset 8 holds 56. -/
theorem save_as_glb_total_length_without_bin (env : Env) :
    (save_as_glb env {}).length = 48 ∧ read_u32 (save_as_glb env {}) 8 = 56 := by
  rw [save_as_glb_empty]
  exact ⟨by decide, by decide⟩

/-- Claim C5, at the document without buffers: `load_from_memory` applied to the bytes
`save_as_glb` writes fails the check of the declared total length and reports
`success = false`. -/
theorem load_from_memory_rejects_saved_empty_document (env : Env) :
    load_from_memory env (save_as_glb env {}) = some (false, {}) := by
  rw [save_as_glb_empty]
  have h1 : is_glb (glb_bytes (ascii "\x7b\"asset\":\x7b\"version\":\"2.0\"\x7d\x7d") []) = true := by
    decide
  have h2 : glb_json_chunk_length
      (glb_bytes (ascii "\x7b\"asset\":\x7b\"version\":\"2.0\"\x7d\x7d") []) = none := by
    decide
  simp only [load_from_memory, h1, h2, if_true]

/-- Claim C6, at the buffer that consists of the four bytes `glTF`: the sniffing test
is false and `load_from_memory` hands the whole buffer to `json_parse` as document
text. -/
theorem four_byte_magic_takes_text_path (env : Env) :
    (ascii "glTF").length = 4
    ∧ (ascii "glTF").take 4 = ascii "glTF"
    ∧ is_glb (ascii "glTF") = false
    ∧ load_from_memory env (ascii "glTF")
        = (match env.json_parse (ascii "glTF") with
           | none => some (false, {})
           | some root => parse env {} root) := by
  have h : is_glb (ascii "glTF") = false := by decide
  refine ⟨by decide, by decide, h, ?_⟩
  simp only [load_from_memory, h]
  rfl

/-- Claim C7: for every input sniffed as a container, the code reaches `json_parse`
exactly when the input has at least 20 bytes, the version is 2, the declared total
length is at most the input length and the first chunk is tagged JSON; it then calls
`json_parse` on the JSON chunk, and in every other case it reports `success = false`
with a document whose collections are all empty. -/
theorem load_from_memory_container_checks (env : Env) (data : List u8)
    (h : is_glb data = true) :
    (glb_json_chunk_length data ≠ none
      ↔ (data.length ≥ 20 ∧ read_u32 data 4 = 2 ∧ read_u32 data 8 ≤ data.length
          ∧ read_u32 data 16 = 0x4E4F534A))
    ∧ (glb_json_chunk_length data ≠ none →
        load_from_memory env data
          = (match env.json_parse (glb_json_data data (read_u32 data 12)) with
             | none => some (false, {})
             | some root =>
               parse env
                 (match glb_bin_buffer data (read_u32 data 12) with
                  | some buffer => { buffers := [buffer] }
                  | none => {})
                 root))
    ∧ (glb_json_chunk_length data = none → load_from_memory env data = some (false, {})) := by
  have hiff := glb_json_chunk_length_eq_some_iff data h
  have hcases := glb_json_chunk_length_cases data
  refine ⟨?_, ?_, ?_⟩
  · rw [← hiff]
    rcases hcases with hc | hc <;> simp [hc]
  · intro hne
    rcases hcases with hc | hc
    · exact absurd hc hne
    · simp only [load_from_memory, h, hc, if_true]
      cases env.json_parse (glb_json_data data (read_u32 data 12)) with
      | none => rfl
      | some root =>
        cases glb_bin_buffer data (read_u32 data 12) <;> rfl
  · intro hc
    simp only [load_from_memory, h, hc, if_true]

/-- Witness of claim C7 at the container `short_glb`. -/
theorem load_from_memory_container_checks_witness :
    is_glb short_glb = true
    ∧ (glb_json_chunk_length short_glb ≠ none
        ↔ (short_glb.length ≥ 20 ∧ read_u32 short_glb 4 = 2
            ∧ read_u32 short_glb 8 ≤ short_glb.length ∧ read_u32 short_glb 16 = 0x4E4F534A)) :=
  ⟨by decide, (load_from_memory_container_checks minimal_env short_glb (by decide)).1⟩

/-- Claim C8, at the 20-byte container `short_glb`, whose JSON chunk header declares
100 payload bytes: every header check passes and `json_parse` is called for the range
`[20, 120)`, of which the input holds no byte. -/
theorem json_chunk_length_unchecked (env : Env) :
    short_glb.length = 20
    ∧ read_u32 short_glb 8 = 20
    ∧ glb_json_chunk_length short_glb = some 100
    ∧ glb_json_data short_glb 100 = []
    ∧ load_from_memory env short_glb
        = (match env.json_parse [] with
           | none => some (false, {})
           | some root => parse env {} root) := by
  have h1 : is_glb short_glb = true := by decide
  have h2 : glb_json_chunk_length short_glb = some 100 := by decide
  have h3 : glb_json_data short_glb 100 = [] := by decide
  have h4 : glb_bin_buffer short_glb 100 = none := by decide
  refine ⟨by decide, by decide, h2, h3, ?_⟩
  simp only [load_from_memory, h1, h2, h3, h4, if_true]

/-- Claim C9, at the container `truncated_glb` (92 bytes, declared total length 92): the
second chunk, at offset 76, is tagged BIN and declares 100 bytes where 8 remain, and
`load_from_memory` reports `success = true` and returns the document of the JSON chunk,
its buffer not loaded. -/
theorem truncated_bin_chunk_succeeds :
    truncated_glb.length = 92
    ∧ read_u32 truncated_glb 8 = 92
    ∧ glb_json_chunk_length truncated_glb = some 56
    ∧ bin_chunk_start 56 = 76
    ∧ read_u32 truncated_glb (76 + 4) = 0x004E4942
    ∧ read_u32 truncated_glb 76 = 100
    ∧ load_from_memory minimal_env truncated_glb
        = some (true, { buffers := [{ uri := [], byte_length := 8, data := [], loaded := false }] }) := by
  refine ⟨by decide, by decide, by decide, by decide, by decide, by decide, by rfl⟩

/-- Claim C10, at the document text `missing_text` (one buffer, not loaded, whose URI
`missing.bin` names a file that cannot be opened): `load_buffers` returns false, and
`load_from_memory` reports `success = true` with the buffer left unloaded; `load` of
the file `model.gltf` that holds the text leaves the caller's `success = true` as it
is. -/
theorem missing_buffer_file_reports_success :
    missing_env.open_file (ascii "missing.bin") = none
    ∧ (load_buffers missing_env [] [{ uri := ascii "missing.bin", byte_length := 4 }]).1 = false
    ∧ load_from_memory missing_env missing_text
        = some (true, { buffers := [{ uri := ascii "missing.bin", byte_length := 4,
                                      data := [], loaded := false }] })
    ∧ load missing_env true (ascii "model.gltf")
        = some (true, { buffers := [{ uri := ascii "missing.bin", byte_length := 4,
                                      data := [], loaded := false }] }) := by
  refine ⟨by decide, by decide, by rfl, by rfl⟩

/-- Claim C11, at the files `model.gltf` (text `{}`, an object root) and `list.gltf`
(text `[]`, a root that is not an object): `load` leaves the caller's flag as it was,
so the object root loaded with the flag at false reports false, and the array root
loaded with the flag at true reports true. -/
theorem load_text_path_leaves_success :
    parse flag_env {} (.json_object []) = some (true, {})
    ∧ load flag_env false (ascii "model.gltf") = some (false, {})
    ∧ parse flag_env {} (.json_array []) = some (false, {})
    ∧ load flag_env true (ascii "list.gltf") = some (true, {}) := by
  refine ⟨by rfl, by rfl, by rfl, by rfl⟩

/-- Claim C12, at the root object of `{"buffers":[{"byteLength":3000000000}]}`:
`std::stoi` throws `std::out_of_range` on the text `3000000000`, nothing catches it,
and `Model::parse` does not return. -/
theorem parse_throws_on_large_number :
    stoi (ascii "3000000000") = none
    ∧ parse minimal_env {} (.json_object big_buffer_root) = none := by
  refine ⟨by decide, by rfl⟩

/-- Claim C14, at the path `dir/model.gltf` and the buffer URI `buf.bin`: the base
path is `dir`, and the buffer is filled with the content of the file `dirbuf.bin`,
not of `dir/buf.bin`. -/
theorem external_buffer_path_has_no_separator :
    parent_directory (ascii "dir/model.gltf") = ascii "dir"
    ∧ dir_env.open_file (ascii "dir/buf.bin") = some [1, 2]
    ∧ dir_env.open_file (ascii "dir" ++ ascii "buf.bin") = some [9, 9]
    ∧ load dir_env true (ascii "dir/model.gltf")
        = some (true, { buffers := [{ uri := ascii "buf.bin", byte_length := 2,
                                      data := [9, 9], loaded := true }],
                        base_path := ascii "dir" }) := by
  refine ⟨by decide, by decide, by decide, by rfl⟩

/-- Claim C16, at the node object `{"matrix":[1,1,1],"translation":[1,1,1]}`, whose
matrix member is an array of length 3: the decoded node has no matrix and its
translation is left at (0,0,0); without the matrix member the same translation member
is read. -/
theorem short_matrix_skips_translation :
    parse_node_element table_env short_matrix_node = some {}
    ∧ parse_node_element table_env [(ascii "translation", ones3)]
        = some { translation := ⟨f32.one, f32.one, f32.one⟩ } := by
  refine ⟨by rfl, by rfl⟩

/-- Claim C18, at the root object of `{"scene":0,"scenes":[{},{"name":"a"}]}`: the
member `scenes` is an array of two objects, the lookup of `scenes` returns the value of
`scene`, and the decoded collection is empty; with the two members in the other order
the collection has the two entries. -/
theorem scenes_shadowed_by_scene :
    find_member shadowed_root (ascii "scenes") = some (.json_number (ascii "0"))
    ∧ parse_scenes [] shadowed_root = some []
    ∧ parse minimal_env {} (.json_object shadowed_root) = some (true, { scenes := [] })
    ∧ parse_scenes [] unshadowed_root = some [{}, { name := ascii "a" }] := by
  refine ⟨by rfl, by rfl, by rfl, by rfl⟩

/-- Claim C20, at texture references: a material whose `normalTexture` (or
`baseColorTexture`) has the explicit index 0 decodes to the same material as one
without the member, a texture with `source` 0 and an image with `bufferView` 0 decode
as without the member, and the encoder writes no `normalTexture` or `baseColorTexture`
member for a reference to index 0. -/
theorem texture_reference_zero_is_absent :
    parse_material_element table_env [(ascii "normalTexture", index_zero)]
        = parse_material_element table_env []
    ∧ parse_material_element table_env
          [(ascii "pbrMetallicRoughness", .json_object [(ascii "baseColorTexture", index_zero)])]
        = parse_material_element table_env []
    ∧ parse_texture_element [(ascii "source", .json_number (ascii "0"))]
        = parse_texture_element []
    ∧ parse_image_element [(ascii "bufferView", .json_number (ascii "0"))]
        = parse_image_element []
    ∧ material_json table_env
          { normal_texture := { index := 0 },
            pbr_metallic_roughness := { base_color_texture := { index := 0 } } }
        = ascii "\x7b\"pbrMetallicRoughness\":\x7b\x7d\x7d"
    ∧ parse_primitive_element [(ascii "indices", .json_number (ascii "0"))]
        ≠ parse_primitive_element [] := by
  refine ⟨by rfl, by rfl, by rfl, by rfl, by decide, by decide⟩

/-! ## Totality of the schema mapper on trees whose numbers convert -/

theorem find_member_mem : ∀ (object : json_object_s) (name : List u8) (value : json_value_s),
    find_member object name = some value → ∃ element_name, (element_name, value) ∈ object
  | [], _, _, h => by simp [find_member] at h
  | (element_name, v) :: next, name, value, h => by
    unfold find_member at h
    split_ifs at h with hc
    · injection h with h
      subst h
      exact ⟨element_name, List.mem_cons_self _ _⟩
    · obtain ⟨k, hk⟩ := find_member_mem next name value h
      exact ⟨k, List.mem_cons_of_mem _ hk⟩

theorem numbers_ok_member (env : Env) (object : json_object_s) (name : List u8)
    (value : json_value_s) (hok : numbers_ok env (.json_object object))
    (h : find_member object name = some value) : numbers_ok env value := by
  obtain ⟨k, hk⟩ := find_member_mem object name value h
  cases hok with
  | json_object _ hall => exact hall (k, value) hk

theorem numbers_ok_elements (env : Env) (elements : List json_value_s)
    (hok : numbers_ok env (.json_array elements)) : ∀ e ∈ elements, numbers_ok env e := by
  cases hok with
  | json_array _ hall => exact hall

theorem numbers_ok_members (env : Env) (members : json_object_s)
    (hok : numbers_ok env (.json_object members)) : ∀ p ∈ members, numbers_ok env p.2 := by
  cases hok with
  | json_object _ hall => exact hall

theorem get_int_ok (env : Env) (value : json_value_s) (hok : numbers_ok env value) :
    ∃ i, get_int (some value) = some i := by
  cases hok with
  | json_number number hi hf => exact hi
  | _ => exact ⟨_, rfl⟩

theorem get_float_ok (env : Env) (value : json_value_s) (hok : numbers_ok env value) :
    ∃ x, get_float env (some value) = some x := by
  cases hok with
  | json_number number hi hf => exact hf
  | _ => exact ⟨_, rfl⟩

theorem get_floats_ok (env : Env) : ∀ (elements : List json_value_s),
    (∀ e ∈ elements, numbers_ok env e) → ∃ fs, get_floats env elements = some fs
  | [], _ => ⟨[], rfl⟩
  | value :: next, h => by
    obtain ⟨x, hx⟩ := get_float_ok env value (h value (List.mem_cons_self _ _))
    obtain ⟨xs, hxs⟩ := get_floats_ok env next (fun e he => h e (List.mem_cons_of_mem _ he))
    exact ⟨x :: xs, by simp [get_floats, hx, hxs]⟩

theorem get_indices_ok (env : Env) : ∀ (elements : List json_value_s),
    (∀ e ∈ elements, numbers_ok env e) → ∃ l, get_indices elements = some l
  | [], _ => ⟨[], rfl⟩
  | value :: next, h => by
    obtain ⟨x, hx⟩ := get_int_ok env value (h value (List.mem_cons_self _ _))
    obtain ⟨xs, hxs⟩ := get_indices_ok env next (fun e he => h e (List.mem_cons_of_mem _ he))
    exact ⟨to_u32 x :: xs, by simp [get_indices, hx, hxs]⟩

theorem parse_elements_ok (env : Env) {α : Type} (f : json_object_s → Option α)
    (hf : ∀ obj, numbers_ok env (.json_object obj) → ∃ x, f obj = some x) :
    ∀ (elements : List json_value_s), (∀ e ∈ elements, numbers_ok env e) →
      ∃ xs, parse_elements f elements = some xs
  | [], _ => ⟨[], rfl⟩
  | value :: next, h => by
    obtain ⟨xs, hxs⟩ := parse_elements_ok env f hf next
      (fun e he => h e (List.mem_cons_of_mem _ he))
    have hv := h value (List.mem_cons_self _ _)
    cases value with
    | json_object obj =>
      obtain ⟨x, hx⟩ := hf obj hv
      exact ⟨x :: xs, by simp [parse_elements, hx, hxs]⟩
    | _ => exact ⟨xs, by simp [parse_elements, hxs]⟩

theorem member_int_ok (env : Env) (object : json_object_s)
    (hok : numbers_ok env (.json_object object)) (name : List u8) :
    ∀ v, find_member object name = some v → ∃ i, get_int (some v) = some i :=
  fun v h => get_int_ok env v (numbers_ok_member env object name v hok h)

theorem member_float_ok (env : Env) (object : json_object_s)
    (hok : numbers_ok env (.json_object object)) (name : List u8) :
    ∀ v, find_member object name = some v → ∃ x, get_float env (some v) = some x :=
  fun v h => get_float_ok env v (numbers_ok_member env object name v hok h)

theorem member_floats_ok (env : Env) (object : json_object_s)
    (hok : numbers_ok env (.json_object object)) (name : List u8) :
    ∀ a, find_member object name = some (.json_array a) → ∃ fs, get_floats env a = some fs :=
  fun a h => get_floats_ok env a
    (numbers_ok_elements env a (numbers_ok_member env object name _ hok h))

theorem member_indices_ok (env : Env) (object : json_object_s)
    (hok : numbers_ok env (.json_object object)) (name : List u8) :
    ∀ a, find_member object name = some (.json_array a) → ∃ l, get_indices a = some l :=
  fun a h => get_indices_ok env a
    (numbers_ok_elements env a (numbers_ok_member env object name _ hok h))

theorem parse_buffer_element_ok (env : Env) (obj : json_object_s)
    (hok : numbers_ok env (.json_object obj)) : ∃ x, parse_buffer_element obj = some x := by
  unfold parse_buffer_element
  lift_lets
  intro s0 j2 j1
  have t2 : ∀ s y, ∃ r, j2 s y = some r := fun s _ => ⟨s, rfl⟩
  have t1 : ∀ s y, ∃ r, j1 s y = some r := by
    intro s y
    simp only [j1]
    split <;> exact t2 _ PUnit.unit
  split
  · obtain ⟨i, hi⟩ := member_int_ok env obj hok _ _ (by assumption)
    rw [hi]
    exact t1 _ PUnit.unit
  · exact t1 _ PUnit.unit

theorem parse_buffer_view_element_ok (env : Env) (obj : json_object_s)
    (hok : numbers_ok env (.json_object obj)) : ∃ x, parse_buffer_view_element obj = some x := by
  unfold parse_buffer_view_element
  lift_lets
  intro s0 j6 j5 j4 j3 j2 j1
  have t6 : ∀ s y, ∃ r, j6 s y = some r := fun s _ => ⟨s, rfl⟩
  have t5 : ∀ s y, ∃ r, j5 s y = some r := by
    intro s y
    simp only [j5]
    split <;> exact t6 _ PUnit.unit
  have t4 : ∀ s y, ∃ r, j4 s y = some r := by
    intro s y
    simp only [j4]
    split
    · obtain ⟨i, hi⟩ := member_int_ok env obj hok _ _ (by assumption)
      rw [hi]
      exact t5 _ PUnit.unit
    · exact t5 _ PUnit.unit
  have t3 : ∀ s y, ∃ r, j3 s y = some r := by
    intro s y
    simp only [j3]
    split
    · obtain ⟨i, hi⟩ := member_int_ok env obj hok _ _ (by assumption)
      rw [hi]
      exact t4 _ PUnit.unit
    · exact t4 _ PUnit.unit
  have t2 : ∀ s y, ∃ r, j2 s y = some r := by
    intro s y
    simp only [j2]
    split
    · obtain ⟨i, hi⟩ := member_int_ok env obj hok _ _ (by assumption)
      rw [hi]
      exact t3 _ PUnit.unit
    · exact t3 _ PUnit.unit
  have t1 : ∀ s y, ∃ r, j1 s y = some r := by
    intro s y
    simp only [j1]
    split
    · obtain ⟨i, hi⟩ := member_int_ok env obj hok _ _ (by assumption)
      rw [hi]
      exact t2 _ PUnit.unit
    · exact t2 _ PUnit.unit
  split
  · obtain ⟨i, hi⟩ := member_int_ok env obj hok _ _ (by assumption)
    rw [hi]
    exact t1 _ PUnit.unit
  · exact t1 _ PUnit.unit

theorem parse_accessor_element_ok (env : Env) (obj : json_object_s)
    (hok : numbers_ok env (.json_object obj)) : ∃ x, parse_accessor_element env obj = some x := by
  unfold parse_accessor_element
  lift_lets
  intro s0 j9 j8 j7 j6 j5 j4 j3 j2 j1
  have t9 : ∀ s y, ∃ r, j9 s y = some r := fun s _ => ⟨s, rfl⟩
  have t8 : ∀ s y, ∃ r, j8 s y = some r := by
    intro s y
    simp only [j8]
    split <;> exact t9 _ PUnit.unit
  have t7 : ∀ s y, ∃ r, j7 s y = some r := by
    intro s y
    simp only [j7]
    split
    · obtain ⟨i, hi⟩ := member_floats_ok env obj hok _ _ (by assumption)
      rw [hi]
      exact t8 _ PUnit.unit
    · exact t8 _ PUnit.unit
  have t6 : ∀ s y, ∃ r, j6 s y = some r := by
    intro s y
    simp only [j6]
    split
    · obtain ⟨i, hi⟩ := member_floats_ok env obj hok _ _ (by assumption)
      rw [hi]
      exact t7 _ PUnit.unit
    · exact t7 _ PUnit.unit
  have t5 : ∀ s y, ∃ r, j5 s y = some r := by
    intro s y
    simp only [j5]
    split <;> exact t6 _ PUnit.unit
  have t4 : ∀ s y, ∃ r, j4 s y = some r := by
    intro s y
    simp only [j4]
    split
    · obtain ⟨i, hi⟩ := member_int_ok env obj hok _ _ (by assumption)
      rw [hi]
      exact t5 _ PUnit.unit
    · exact t5 _ PUnit.unit
  have t3 : ∀ s y, ∃ r, j3 s y = some r := by
    intro s y
    simp only [j3]
    split <;> exact t4 _ PUnit.unit
  have t2 : ∀ s y, ∃ r, j2 s y = some r := by
    intro s y
    simp only [j2]
    split
    · obtain ⟨i, hi⟩ := member_int_ok env obj hok _ _ (by assumption)
      rw [hi]
      exact t3 _ PUnit.unit
    · exact t3 _ PUnit.unit
  have t1 : ∀ s y, ∃ r, j1 s y = some r := by
    intro s y
    simp only [j1]
    split
    · obtain ⟨i, hi⟩ := member_int_ok env obj hok _ _ (by assumption)
      rw [hi]
      exact t2 _ PUnit.unit
    · exact t2 _ PUnit.unit
  split
  · obtain ⟨i, hi⟩ := member_int_ok env obj hok _ _ (by assumption)
    rw [hi]
    exact t1 _ PUnit.unit
  · exact t1 _ PUnit.unit

theorem parse_image_element_ok (env : Env) (obj : json_object_s)
    (hok : numbers_ok env (.json_object obj)) : ∃ x, parse_image_element obj = some x := by
  unfold parse_image_element
  lift_lets
  intro s0 j4 j3 j2 j1
  have t4 : ∀ s y, ∃ r, j4 s y = some r := fun s _ => ⟨s, rfl⟩
  have t3 : ∀ s y, ∃ r, j3 s y = some r := by
    intro s y
    simp only [j3]
    split <;> exact t4 _ PUnit.unit
  have t2 : ∀ s y, ∃ r, j2 s y = some r := by
    intro s y
    simp only [j2]
    split
    · obtain ⟨i, hi⟩ := member_int_ok env obj hok _ _ (by assumption)
      rw [hi]
      exact t3 _ PUnit.unit
    · exact t3 _ PUnit.unit
  have t1 : ∀ s y, ∃ r, j1 s y = some r := by
    intro s y
    simp only [j1]
    split <;> exact t2 _ PUnit.unit
  split <;> exact t1 _ PUnit.unit

theorem parse_sampler_element_ok (env : Env) (obj : json_object_s)
    (hok : numbers_ok env (.json_object obj)) : ∃ x, parse_sampler_element obj = some x := by
  unfold parse_sampler_element
  lift_lets
  intro s0 j5 j4 j3 j2 j1
  have t5 : ∀ s y, ∃ r, j5 s y = some r := fun s _ => ⟨s, rfl⟩
  have t4 : ∀ s y, ∃ r, j4 s y = some r := by
    intro s y
    simp only [j4]
    split <;> exact t5 _ PUnit.unit
  have t3 : ∀ s y, ∃ r, j3 s y = some r := by
    intro s y
    simp only [j3]
    split
    · obtain ⟨i, hi⟩ := member_int_ok env obj hok _ _ (by assumption)
      rw [hi]
      exact t4 _ PUnit.unit
    · exact t4 _ PUnit.unit
  have t2 : ∀ s y, ∃ r, j2 s y = some r := by
    intro s y
    simp only [j2]
    split
    · obtain ⟨i, hi⟩ := member_int_ok env obj hok _ _ (by assumption)
      rw [hi]
      exact t3 _ PUnit.unit
    · exact t3 _ PUnit.unit
  have t1 : ∀ s y, ∃ r, j1 s y = some r := by
    intro s y
    simp only [j1]
    split
    · obtain ⟨i, hi⟩ := member_int_ok env obj hok _ _ (by assumption)
      rw [hi]
      exact t2 _ PUnit.unit
    · exact t2 _ PUnit.unit
  split
  · obtain ⟨i, hi⟩ := member_int_ok env obj hok _ _ (by assumption)
    rw [hi]
    exact t1 _ PUnit.unit
  · exact t1 _ PUnit.unit

theorem parse_texture_element_ok (env : Env) (obj : json_object_s)
    (hok : numbers_ok env (.json_object obj)) : ∃ x, parse_texture_element obj = some x := by
  unfold parse_texture_element
  lift_lets
  intro s0 j3 j2 j1
  have t3 : ∀ s y, ∃ r, j3 s y = some r := fun s _ => ⟨s, rfl⟩
  have t2 : ∀ s y, ∃ r, j2 s y = some r := by
    intro s y
    simp only [j2]
    split <;> exact t3 _ PUnit.unit
  have t1 : ∀ s y, ∃ r, j1 s y = some r := by
    intro s y
    simp only [j1]
    split
    · obtain ⟨i, hi⟩ := member_int_ok env obj hok _ _ (by assumption)
      rw [hi]
      exact t2 _ PUnit.unit
    · exact t2 _ PUnit.unit
  split
  · obtain ⟨i, hi⟩ := member_int_ok env obj hok _ _ (by assumption)
    rw [hi]
    exact t1 _ PUnit.unit
  · exact t1 _ PUnit.unit

theorem parse_skin_element_ok (env : Env) (obj : json_object_s)
    (hok : numbers_ok env (.json_object obj)) : ∃ x, parse_skin_element obj = some x := by
  unfold parse_skin_element
  lift_lets
  intro s0 j4 j3 j2 j1
  have t4 : ∀ s y, ∃ r, j4 s y = some r := fun s _ => ⟨s, rfl⟩
  have t3 : ∀ s y, ∃ r, j3 s y = some r := by
    intro s y
    simp only [j3]
    split <;> exact t4 _ PUnit.unit
  have t2 : ∀ s y, ∃ r, j2 s y = some r := by
    intro s y
    simp only [j2]
    split
    · obtain ⟨i, hi⟩ := member_indices_ok env obj hok _ _ (by assumption)
      rw [hi]
      exact t3 _ PUnit.unit
    · exact t3 _ PUnit.unit
  have t1 : ∀ s y, ∃ r, j1 s y = some r := by
    intro s y
    simp only [j1]
    split
    · obtain ⟨i, hi⟩ := member_int_ok env obj hok _ _ (by assumption)
      rw [hi]
      exact t2 _ PUnit.unit
    · exact t2 _ PUnit.unit
  split
  · obtain ⟨i, hi⟩ := member_int_ok env obj hok _ _ (by assumption)
    rw [hi]
    exact t1 _ PUnit.unit
  · exact t1 _ PUnit.unit

theorem parse_scene_element_ok (env : Env) (obj : json_object_s)
    (hok : numbers_ok env (.json_object obj)) : ∃ x, parse_scene_element obj = some x := by
  unfold parse_scene_element
  lift_lets
  intro s0 j2 j1
  have t2 : ∀ s y, ∃ r, j2 s y = some r := fun s _ => ⟨s, rfl⟩
  have t1 : ∀ s y, ∃ r, j1 s y = some r := by
    intro s y
    simp only [j1]
    split <;> exact t2 _ PUnit.unit
  split
  · obtain ⟨i, hi⟩ := member_indices_ok env obj hok _ _ (by assumption)
    rw [hi]
    exact t1 _ PUnit.unit
  · exact t1 _ PUnit.unit

theorem parse_animation_sampler_element_ok (env : Env) (obj : json_object_s)
    (hok : numbers_ok env (.json_object obj)) : ∃ x, parse_animation_sampler_element obj = some x := by
  unfold parse_animation_sampler_element
  lift_lets
  intro s0 j3 j2 j1
  have t3 : ∀ s y, ∃ r, j3 s y = some r := fun s _ => ⟨s, rfl⟩
  have t2 : ∀ s y, ∃ r, j2 s y = some r := by
    intro s y
    simp only [j2]
    split <;> exact t3 _ PUnit.unit
  have t1 : ∀ s y, ∃ r, j1 s y = some r := by
    intro s y
    simp only [j1]
    split
    · obtain ⟨i, hi⟩ := member_int_ok env obj hok _ _ (by assumption)
      rw [hi]
      exact t2 _ PUnit.unit
    · exact t2 _ PUnit.unit
  split
  · obtain ⟨i, hi⟩ := member_int_ok env obj hok _ _ (by assumption)
    rw [hi]
    exact t1 _ PUnit.unit
  · exact t1 _ PUnit.unit


theorem bind_ok {α β : Type} {x : Option α} {f : α → Option β}
    (hx : ∃ a, x = some a) (hf : ∀ a, ∃ b, f a = some b) : ∃ b, x >>= f = some b := by
  obtain ⟨a, rfl⟩ := hx
  exact hf a

theorem parse_vec3_ok (env : Env) (cur : Vec3) (value : Option json_value_s)
    (h : ∀ v, value = some v → numbers_ok env v) : ∃ r, parse_vec3 env cur value = some r := by
  unfold parse_vec3
  split
  · rename_i x y z rest
    have hall := numbers_ok_elements env _ (h _ rfl)
    exact bind_ok (get_float_ok env x (hall x (by simp))) (fun _ =>
      bind_ok (get_float_ok env y (hall y (by simp))) (fun _ =>
        bind_ok (get_float_ok env z (hall z (by simp))) (fun _ => ⟨_, rfl⟩)))
  · exact ⟨cur, rfl⟩

theorem parse_vec4_ok (env : Env) (cur : Vec4) (value : Option json_value_s)
    (h : ∀ v, value = some v → numbers_ok env v) : ∃ r, parse_vec4 env cur value = some r := by
  unfold parse_vec4
  split
  · rename_i x y z w rest
    have hall := numbers_ok_elements env _ (h _ rfl)
    exact bind_ok (get_float_ok env x (hall x (by simp))) (fun _ =>
      bind_ok (get_float_ok env y (hall y (by simp))) (fun _ =>
        bind_ok (get_float_ok env z (hall z (by simp))) (fun _ =>
          bind_ok (get_float_ok env w (hall w (by simp))) (fun _ => ⟨_, rfl⟩))))
  · exact ⟨cur, rfl⟩

theorem parse_texture_info_ok (env : Env) (info : TextureInfo) (value : Option json_value_s)
    (h : ∀ v, value = some v → numbers_ok env v) :
    ∃ r, parse_texture_info info value = some r := by
  unfold parse_texture_info
  split
  · rename_i obj
    have hok := h _ rfl
    simp only []
    repeat' split
    all_goals repeat' first
      | exact ⟨_, rfl⟩
      | exact member_int_ok env obj hok _ _ (by assumption)
      | refine bind_ok ?_ (fun a => ?_)
  · exact ⟨info, rfl⟩

theorem parse_pbr_ok (env : Env) (pbr : PbrMetallicRoughness) (obj : json_object_s)
    (hok : numbers_ok env (.json_object obj)) : ∃ r, parse_pbr env pbr obj = some r := by
  simp only [parse_pbr]
  repeat' first
    | exact ⟨_, rfl⟩
    | exact member_float_ok env obj hok _ _ (by assumption)
    | exact parse_texture_info_ok env _ _ (fun v hv => numbers_ok_member env obj _ v hok hv)
    | exact parse_vec4_ok env _ _ (fun v hv => numbers_ok_member env obj _ v hok hv)
    | refine bind_ok ?_ (fun a => ?_)
    | split

theorem parse_material_element_ok (env : Env) (obj : json_object_s)
    (hok : numbers_ok env (.json_object obj)) :
    ∃ r, parse_material_element env obj = some r := by
  simp only [parse_material_element]
  repeat' first
    | exact ⟨_, rfl⟩
    | exact member_float_ok env obj hok _ _ (by assumption)
    | exact parse_texture_info_ok env _ _ (fun v hv => numbers_ok_member env obj _ v hok hv)
    | exact parse_vec3_ok env _ _ (fun v hv => numbers_ok_member env obj _ v hok hv)
    | exact parse_pbr_ok env _ _ (numbers_ok_member env obj _ _ hok (by assumption))
    | refine bind_ok ?_ (fun a => ?_)
    | split


theorem parse_attributes_ok (env : Env) : ∀ (members : json_object_s)
    (attributes : List (List u8 × Nat)), (∀ p ∈ members, numbers_ok env p.2) →
      ∃ r, parse_attributes attributes members = some r
  | [], attributes, _ => ⟨attributes, rfl⟩
  | (attr_name, value) :: next, attributes, h => by
    obtain ⟨i, hi⟩ := get_int_ok env value (h (attr_name, value) (List.mem_cons_self _ _))
    obtain ⟨r, hr⟩ := parse_attributes_ok env next
      (map_assign attributes attr_name (to_u32 i)) (fun p hp => h p (List.mem_cons_of_mem _ hp))
    exact ⟨r, by simp [parse_attributes, hi, hr]⟩

theorem parse_primitive_element_ok (env : Env) (obj : json_object_s)
    (hok : numbers_ok env (.json_object obj)) : ∃ r, parse_primitive_element obj = some r := by
  simp only [parse_primitive_element]
  repeat' first
    | exact ⟨_, rfl⟩
    | exact member_int_ok env obj hok _ _ (by assumption)
    | exact parse_attributes_ok env _ _
        (numbers_ok_members env _ (numbers_ok_member env obj _ _ hok (by assumption)))
    | refine bind_ok ?_ (fun a => ?_)
    | split

theorem parse_mesh_element_ok (env : Env) (obj : json_object_s)
    (hok : numbers_ok env (.json_object obj)) : ∃ r, parse_mesh_element env obj = some r := by
  simp only [parse_mesh_element]
  repeat' first
    | exact ⟨_, rfl⟩
    | exact member_floats_ok env obj hok _ _ (by assumption)
    | exact parse_elements_ok env _ (parse_primitive_element_ok env) _
        (numbers_ok_elements env _ (numbers_ok_member env obj _ _ hok (by assumption)))
    | refine bind_ok ?_ (fun a => ?_)
    | split

theorem parse_matrix_ok (env : Env) (matrix_array : List json_value_s)
    (h : ∀ e ∈ matrix_array, numbers_ok env e) : ∃ r, parse_matrix env matrix_array = some r := by
  unfold parse_matrix
  split
  · obtain ⟨fs, hfs⟩ := get_floats_ok env matrix_array h
    rw [hfs]
    simp only [bind, Option.bind]
    split <;> exact ⟨_, rfl⟩
  · exact ⟨none, rfl⟩

theorem parse_node_element_ok (env : Env) (obj : json_object_s)
    (hok : numbers_ok env (.json_object obj)) : ∃ r, parse_node_element env obj = some r := by
  simp only [parse_node_element]
  repeat' first
    | exact ⟨_, rfl⟩
    | exact member_int_ok env obj hok _ _ (by assumption)
    | exact member_indices_ok env obj hok _ _ (by assumption)
    | exact parse_vec3_ok env _ _ (fun v hv => numbers_ok_member env obj _ v hok hv)
    | exact parse_vec4_ok env _ _ (fun v hv => numbers_ok_member env obj _ v hok hv)
    | exact parse_matrix_ok env _
        (numbers_ok_elements env _ (numbers_ok_member env obj _ _ hok (by assumption)))
    | refine bind_ok ?_ (fun a => ?_)
    | split

theorem parse_animation_channel_element_ok (env : Env) (obj : json_object_s)
    (hok : numbers_ok env (.json_object obj)) :
    ∃ r, parse_animation_channel_element obj = some r := by
  simp only [parse_animation_channel_element]
  repeat' first
    | exact ⟨_, rfl⟩
    | exact member_int_ok env obj hok _ _ (by assumption)
    | exact member_int_ok env _ (numbers_ok_member env obj _ _ hok (by assumption)) _ _
        (by assumption)
    | refine bind_ok ?_ (fun a => ?_)
    | split

theorem parse_animation_element_ok (env : Env) (obj : json_object_s)
    (hok : numbers_ok env (.json_object obj)) : ∃ r, parse_animation_element obj = some r := by
  simp only [parse_animation_element]
  repeat' first
    | exact ⟨_, rfl⟩
    | exact parse_elements_ok env _ (parse_animation_sampler_element_ok env) _
        (numbers_ok_elements env _ (numbers_ok_member env obj _ _ hok (by assumption)))
    | exact parse_elements_ok env _ (parse_animation_channel_element_ok env) _
        (numbers_ok_elements env _ (numbers_ok_member env obj _ _ hok (by assumption)))
    | refine bind_ok ?_ (fun a => ?_)
    | split


theorem parse_buffers_spec (env : Env) (cur : List Buffer) (json : json_object_s)
    (hok : numbers_ok env (.json_object json)) :
    ∃ r, parse_buffers cur json = some r
      ∧ ((∀ es, find_member json (ascii "buffers") ≠ some (.json_array es)) → r = cur) := by
  unfold parse_buffers
  split
  · rename_i es heq
    obtain ⟨xs, hxs⟩ := parse_elements_ok env _ (parse_buffer_element_ok env) es
      (numbers_ok_elements env _ (numbers_ok_member env json _ _ hok heq))
    rw [hxs]
    split
    · exact ⟨cur, rfl, fun h => absurd heq (h es)⟩
    · exact ⟨cur ++ xs, rfl, fun h => absurd heq (h es)⟩
  · exact ⟨cur, rfl, fun _ => rfl⟩

theorem parse_buffer_views_spec (env : Env) (cur : List BufferView) (json : json_object_s)
    (hok : numbers_ok env (.json_object json)) :
    ∃ r, parse_buffer_views cur json = some r
      ∧ ((∀ es, find_member json (ascii "bufferViews") ≠ some (.json_array es)) → r = cur) := by
  unfold parse_buffer_views
  split
  · rename_i es heq
    obtain ⟨xs, hxs⟩ := parse_elements_ok env _ (parse_buffer_view_element_ok env) es
      (numbers_ok_elements env _ (numbers_ok_member env json _ _ hok heq))
    rw [hxs]
    exact ⟨cur ++ xs, rfl, fun h => absurd heq (h es)⟩
  · exact ⟨cur, rfl, fun _ => rfl⟩

theorem parse_accessors_spec (env : Env) (cur : List Accessor) (json : json_object_s)
    (hok : numbers_ok env (.json_object json)) :
    ∃ r, parse_accessors env cur json = some r
      ∧ ((∀ es, find_member json (ascii "accessors") ≠ some (.json_array es)) → r = cur) := by
  unfold parse_accessors
  split
  · rename_i es heq
    obtain ⟨xs, hxs⟩ := parse_elements_ok env _ (parse_accessor_element_ok env) es
      (numbers_ok_elements env _ (numbers_ok_member env json _ _ hok heq))
    rw [hxs]
    exact ⟨cur ++ xs, rfl, fun h => absurd heq (h es)⟩
  · exact ⟨cur, rfl, fun _ => rfl⟩

theorem parse_images_spec (env : Env) (cur : List Image) (json : json_object_s)
    (hok : numbers_ok env (.json_object json)) :
    ∃ r, parse_images cur json = some r
      ∧ ((∀ es, find_member json (ascii "images") ≠ some (.json_array es)) → r = cur) := by
  unfold parse_images
  split
  · rename_i es heq
    obtain ⟨xs, hxs⟩ := parse_elements_ok env _ (parse_image_element_ok env) es
      (numbers_ok_elements env _ (numbers_ok_member env json _ _ hok heq))
    rw [hxs]
    exact ⟨cur ++ xs, rfl, fun h => absurd heq (h es)⟩
  · exact ⟨cur, rfl, fun _ => rfl⟩

theorem parse_samplers_spec (env : Env) (cur : List Sampler) (json : json_object_s)
    (hok : numbers_ok env (.json_object json)) :
    ∃ r, parse_samplers cur json = some r
      ∧ ((∀ es, find_member json (ascii "samplers") ≠ some (.json_array es)) → r = cur) := by
  unfold parse_samplers
  split
  · rename_i es heq
    obtain ⟨xs, hxs⟩ := parse_elements_ok env _ (parse_sampler_element_ok env) es
      (numbers_ok_elements env _ (numbers_ok_member env json _ _ hok heq))
    rw [hxs]
    exact ⟨cur ++ xs, rfl, fun h => absurd heq (h es)⟩
  · exact ⟨cur, rfl, fun _ => rfl⟩

theorem parse_textures_spec (env : Env) (cur : List Texture) (json : json_object_s)
    (hok : numbers_ok env (.json_object json)) :
    ∃ r, parse_textures cur json = some r
      ∧ ((∀ es, find_member json (ascii "textures") ≠ some (.json_array es)) → r = cur) := by
  unfold parse_textures
  split
  · rename_i es heq
    obtain ⟨xs, hxs⟩ := parse_elements_ok env _ (parse_texture_element_ok env) es
      (numbers_ok_elements env _ (numbers_ok_member env json _ _ hok heq))
    rw [hxs]
    exact ⟨cur ++ xs, rfl, fun h => absurd heq (h es)⟩
  · exact ⟨cur, rfl, fun _ => rfl⟩

theorem parse_materials_spec (env : Env) (cur : List Material) (json : json_object_s)
    (hok : numbers_ok env (.json_object json)) :
    ∃ r, parse_materials env cur json = some r
      ∧ ((∀ es, find_member json (ascii "materials") ≠ some (.json_array es)) → r = cur) := by
  unfold parse_materials
  split
  · rename_i es heq
    obtain ⟨xs, hxs⟩ := parse_elements_ok env _ (parse_material_element_ok env) es
      (numbers_ok_elements env _ (numbers_ok_member env json _ _ hok heq))
    rw [hxs]
    exact ⟨cur ++ xs, rfl, fun h => absurd heq (h es)⟩
  · exact ⟨cur, rfl, fun _ => rfl⟩

theorem parse_meshes_spec (env : Env) (cur : List Mesh) (json : json_object_s)
    (hok : numbers_ok env (.json_object json)) :
    ∃ r, parse_meshes env cur json = some r
      ∧ ((∀ es, find_member json (ascii "meshes") ≠ some (.json_array es)) → r = cur) := by
  unfold parse_meshes
  split
  · rename_i es heq
    obtain ⟨xs, hxs⟩ := parse_elements_ok env _ (parse_mesh_element_ok env) es
      (numbers_ok_elements env _ (numbers_ok_member env json _ _ hok heq))
    rw [hxs]
    exact ⟨cur ++ xs, rfl, fun h => absurd heq (h es)⟩
  · exact ⟨cur, rfl, fun _ => rfl⟩

theorem parse_skins_spec (env : Env) (cur : List Skin) (json : json_object_s)
    (hok : numbers_ok env (.json_object json)) :
    ∃ r, parse_skins cur json = some r
      ∧ ((∀ es, find_member json (ascii "skins") ≠ some (.json_array es)) → r = cur) := by
  unfold parse_skins
  split
  · rename_i es heq
    obtain ⟨xs, hxs⟩ := parse_elements_ok env _ (parse_skin_element_ok env) es
      (numbers_ok_elements env _ (numbers_ok_member env json _ _ hok heq))
    rw [hxs]
    exact ⟨cur ++ xs, rfl, fun h => absurd heq (h es)⟩
  · exact ⟨cur, rfl, fun _ => rfl⟩

theorem parse_nodes_spec (env : Env) (cur : List Node) (json : json_object_s)
    (hok : numbers_ok env (.json_object json)) :
    ∃ r, parse_nodes env cur json = some r
      ∧ ((∀ es, find_member json (ascii "nodes") ≠ some (.json_array es)) → r = cur) := by
  unfold parse_nodes
  split
  · rename_i es heq
    obtain ⟨xs, hxs⟩ := parse_elements_ok env _ (parse_node_element_ok env) es
      (numbers_ok_elements env _ (numbers_ok_member env json _ _ hok heq))
    rw [hxs]
    exact ⟨cur ++ xs, rfl, fun h => absurd heq (h es)⟩
  · exact ⟨cur, rfl, fun _ => rfl⟩

theorem parse_scenes_spec (env : Env) (cur : List Scene) (json : json_object_s)
    (hok : numbers_ok env (.json_object json)) :
    ∃ r, parse_scenes cur json = some r
      ∧ ((∀ es, find_member json (ascii "scenes") ≠ some (.json_array es)) → r = cur) := by
  unfold parse_scenes
  split
  · rename_i es heq
    obtain ⟨xs, hxs⟩ := parse_elements_ok env _ (parse_scene_element_ok env) es
      (numbers_ok_elements env _ (numbers_ok_member env json _ _ hok heq))
    rw [hxs]
    exact ⟨cur ++ xs, rfl, fun h => absurd heq (h es)⟩
  · exact ⟨cur, rfl, fun _ => rfl⟩

theorem parse_animations_spec (env : Env) (cur : List Animation) (json : json_object_s)
    (hok : numbers_ok env (.json_object json)) :
    ∃ r, parse_animations cur json = some r
      ∧ ((∀ es, find_member json (ascii "animations") ≠ some (.json_array es)) → r = cur) := by
  unfold parse_animations
  split
  · rename_i es heq
    obtain ⟨xs, hxs⟩ := parse_elements_ok env _ (parse_animation_element_ok env) es
      (numbers_ok_elements env _ (numbers_ok_member env json _ _ hok heq))
    rw [hxs]
    exact ⟨cur ++ xs, rfl, fun h => absurd heq (h es)⟩
  · exact ⟨cur, rfl, fun _ => rfl⟩


/-- For every root object whose numbers convert, `Model::parse` returns true, and each
top-level collection for which the lookup returns no value, or a value that is not an
array, is empty afterwards. -/
theorem absent_collections_are_empty (env : Env) (model : Model) (root_obj : json_object_s)
    (hok : numbers_ok env (.json_object root_obj)) :
    ∃ m, parse env model (.json_object root_obj) = some (true, m)
      ∧ ((∀ es, find_member root_obj (ascii "buffers") ≠ some (.json_array es)) → m.buffers = [])
      ∧ ((∀ es, find_member root_obj (ascii "bufferViews") ≠ some (.json_array es)) → m.buffer_views = [])
      ∧ ((∀ es, find_member root_obj (ascii "accessors") ≠ some (.json_array es)) → m.accessors = [])
      ∧ ((∀ es, find_member root_obj (ascii "images") ≠ some (.json_array es)) → m.images = [])
      ∧ ((∀ es, find_member root_obj (ascii "samplers") ≠ some (.json_array es)) → m.samplers = [])
      ∧ ((∀ es, find_member root_obj (ascii "textures") ≠ some (.json_array es)) → m.textures = [])
      ∧ ((∀ es, find_member root_obj (ascii "materials") ≠ some (.json_array es)) → m.materials = [])
      ∧ ((∀ es, find_member root_obj (ascii "meshes") ≠ some (.json_array es)) → m.meshes = [])
      ∧ ((∀ es, find_member root_obj (ascii "skins") ≠ some (.json_array es)) → m.skins = [])
      ∧ ((∀ es, find_member root_obj (ascii "nodes") ≠ some (.json_array es)) → m.nodes = [])
      ∧ ((∀ es, find_member root_obj (ascii "scenes") ≠ some (.json_array es)) → m.scenes = [])
      ∧ ((∀ es, find_member root_obj (ascii "animations") ≠ some (.json_array es)) → m.animations = []) := by
  obtain ⟨c1, h1, e1⟩ := parse_buffers_spec env [] root_obj hok
  obtain ⟨c2, h2, e2⟩ := parse_buffer_views_spec env [] root_obj hok
  obtain ⟨c3, h3, e3⟩ := parse_accessors_spec env [] root_obj hok
  obtain ⟨c4, h4, e4⟩ := parse_images_spec env [] root_obj hok
  obtain ⟨c5, h5, e5⟩ := parse_samplers_spec env [] root_obj hok
  obtain ⟨c6, h6, e6⟩ := parse_textures_spec env [] root_obj hok
  obtain ⟨c7, h7, e7⟩ := parse_materials_spec env [] root_obj hok
  obtain ⟨c8, h8, e8⟩ := parse_meshes_spec env [] root_obj hok
  obtain ⟨c9, h9, e9⟩ := parse_skins_spec env [] root_obj hok
  obtain ⟨c10, h10, e10⟩ := parse_nodes_spec env [] root_obj hok
  obtain ⟨c11, h11, e11⟩ := parse_scenes_spec env [] root_obj hok
  obtain ⟨c12, h12, e12⟩ := parse_animations_spec env [] root_obj hok
  have hempty : ∀ base, (load_buffers env base []).2 = [] := fun _ => rfl
  simp only [parse]
  split
  · obtain ⟨i, hi⟩ := member_int_ok env root_obj hok _ _ (by assumption)
    simp only [hi, h1, h2, h3, h4, h5, h6, h7, h8, h9, h10, h11, h12, bind, Option.bind, pure]
    refine ⟨_, rfl, ?_, ?_, ?_, ?_, ?_, ?_, ?_, ?_, ?_, ?_, ?_, ?_⟩
    · intro h
      simp only [e1 h, hempty]
    · exact e2
    · exact e3
    · exact e4
    · exact e5
    · exact e6
    · exact e7
    · exact e8
    · exact e9
    · exact e10
    · exact e11
    · exact e12
  · simp only [h1, h2, h3, h4, h5, h6, h7, h8, h9, h10, h11, h12, bind, Option.bind, pure]
    refine ⟨_, rfl, ?_, ?_, ?_, ?_, ?_, ?_, ?_, ?_, ?_, ?_, ?_, ?_⟩
    · intro h
      simp only [e1 h, hempty]
    · exact e2
    · exact e3
    · exact e4
    · exact e5
    · exact e6
    · exact e7
    · exact e8
    · exact e9
    · exact e10
    · exact e11
    · exact e12

theorem get_floats_length (env : Env) : ∀ (l : List json_value_s) (fs : List f32),
    get_floats env l = some fs → fs.length = l.length
  | [], fs, h => by
    simp only [get_floats, Option.some.injEq] at h
    subst h
    rfl
  | v :: l, fs, h => by
    simp only [get_floats, bind, Option.bind_eq_some, pure, Option.some.injEq] at h
    obtain ⟨x, _, xs, hxs, rfl⟩ := h
    simp [get_floats_length env l xs hxs]

/-- The floats `get_floats` returns are the values of `get_float` on the elements, in
order. -/
theorem get_floats_map (env : Env) : ∀ (l : List json_value_s) (fs : List f32),
    get_floats env l = some fs → fs.map some = l.map (fun v => get_float env (some v))
  | [], fs, h => by
    simp only [get_floats, Option.some.injEq] at h
    subst h
    rfl
  | v :: l, fs, h => by
    simp only [get_floats, bind, Option.bind_eq_some, pure, Option.some.injEq] at h
    obtain ⟨x, hx, xs, hxs, rfl⟩ := h
    simp [get_floats_map env l xs hxs, hx]

theorem parse_node_element_matrix (env : Env) (node_obj : json_object_s)
    (matrix_array : List json_value_s) (fs : List f32)
    (hm : find_member node_obj (ascii "matrix") = some (.json_array matrix_array))
    (hl : matrix_array.length = 16)
    (hfs : get_floats env matrix_array = some fs)
    (hok : numbers_ok env (.json_object node_obj)) :
    ∃ node, parse_node_element env node_obj = some node
      ∧ node.has_matrix = true ∧ node.matrix.val = fs
      ∧ node.translation = Vec3.zero
      ∧ node.rotation = ⟨f32.zero, f32.zero, f32.zero, f32.one⟩
      ∧ node.scale = Vec3.one := by
  have hlen : fs.length = 16 := (get_floats_length env matrix_array fs hfs).trans hl
  have hch := member_indices_ok env node_obj hok (ascii "children")
  have hme := member_int_ok env node_obj hok (ascii "mesh")
  have hsk := member_int_ok env node_obj hok (ascii "skin")
  clear hok
  simp only [parse_node_element, hm, parse_matrix, hl, hfs, if_true, hlen, dite_true]
  repeat' split
  all_goals simp_all
  all_goals casesm* ∃ _, _
  all_goals simp_all

/-- For every node object in which the lookup of `matrix` returns an array of 16 elements
(and whose numbers convert), the decoded node has `has_matrix = true`, its matrix holds
the values of `get_float` on the 16 elements in order, and translation, rotation and
scale keep their defaults, whatever other members the object has. -/
theorem matrix_member_excludes_trs (env : Env) (node_obj : json_object_s)
    (matrix_array : List json_value_s)
    (hm : find_member node_obj (ascii "matrix") = some (.json_array matrix_array))
    (hl : matrix_array.length = 16)
    (hok : numbers_ok env (.json_object node_obj)) :
    ∃ node, parse_node_element env node_obj = some node
      ∧ node.has_matrix = true
      ∧ node.matrix.val.map some = matrix_array.map (fun v => get_float env (some v))
      ∧ node.translation = Vec3.zero
      ∧ node.rotation = ⟨f32.zero, f32.zero, f32.zero, f32.one⟩
      ∧ node.scale = Vec3.one := by
  obtain ⟨fs, hfs⟩ := member_floats_ok env node_obj hok _ _ hm
  obtain ⟨node, h1, h2, h3, h4, h5, h6⟩ :=
    parse_node_element_matrix env node_obj matrix_array fs hm hl hfs hok
  exact ⟨node, h1, h2, by rw [h3]; exact get_floats_map env _ _ hfs, h4, h5, h6⟩


theorem bind_ok_prop {α β : Type} {x : Option α} {f : α → Option β} {P : β → Prop}
    (hx : ∃ a, x = some a) (hf : ∀ a, ∃ b, f a = some b ∧ P b) :
    ∃ b, x >>= f = some b ∧ P b := by
  obtain ⟨a, rfl⟩ := hx
  exact hf a

theorem some_bind_eq {α β : Type} (a : α) (f : α → Option β) : (some a >>= f) = f a := rfl

theorem get_int_wrong_kind (v : json_value_s) (h1 : ∀ t, v ≠ .json_number t)
    (h2 : v ≠ .json_true) : get_int (some v) = some 0 := by
  cases v <;> simp_all [get_int]

theorem get_string_wrong_kind (v : json_value_s) (h : ∀ s, v ≠ .json_string s) :
    get_string (some v) = [] := by
  cases v <;> simp_all [get_string]

theorem get_float_wrong_kind (env : Env) (v : json_value_s) (h : ∀ t, v ≠ .json_number t) :
    get_float env (some v) = some f32.zero := by
  cases v <;> simp_all [get_float]

theorem primitive_indices_wrong_kind (env : Env) (obj : json_object_s) (v : json_value_s)
    (hm : find_member obj (ascii "indices") = some v)
    (h1 : ∀ t, v ≠ .json_number t) (h2 : v ≠ .json_true)
    (hok : numbers_ok env (.json_object obj)) :
    ∃ p, parse_primitive_element obj = some p ∧ p.indices = 0 := by
  have hg := get_int_wrong_kind v h1 h2
  simp only [parse_primitive_element, hm, hg]
  repeat' first
    | exact ⟨_, rfl, rfl⟩
    | exact ⟨_, rfl⟩
    | exact member_int_ok env obj hok _ _ (by assumption)
    | exact parse_attributes_ok env _ _
        (numbers_ok_members env _ (numbers_ok_member env obj _ _ hok (by assumption)))
    | rw [some_bind_eq]
    | refine bind_ok_prop ?_ (fun a => ?_)
    | split

theorem sampler_wrap_s_wrong_kind (env : Env) (obj : json_object_s) (v : json_value_s)
    (hm : find_member obj (ascii "wrapS") = some v)
    (h1 : ∀ t, v ≠ .json_number t) (h2 : v ≠ .json_true)
    (hok : numbers_ok env (.json_object obj)) :
    ∃ s, parse_sampler_element obj = some s ∧ s.wrap_s = 0 := by
  have hg := get_int_wrong_kind v h1 h2
  simp only [parse_sampler_element, hm, hg]
  repeat' first
    | exact ⟨_, rfl, rfl⟩
    | exact ⟨_, rfl⟩
    | exact member_int_ok env obj hok _ _ (by assumption)
    | rw [some_bind_eq]
    | refine bind_ok_prop ?_ (fun a => ?_)
    | split

theorem material_alpha_mode_wrong_kind (env : Env) (obj : json_object_s) (v : json_value_s)
    (hm : find_member obj (ascii "alphaMode") = some v)
    (h : ∀ s, v ≠ .json_string s)
    (hok : numbers_ok env (.json_object obj)) :
    ∃ m, parse_material_element env obj = some m ∧ m.alpha_mode = [] := by
  have hg := get_string_wrong_kind v h
  simp only [parse_material_element, hm, hg]
  repeat' first
    | exact ⟨_, rfl, rfl⟩
    | exact ⟨_, rfl⟩
    | exact member_float_ok env obj hok _ _ (by assumption)
    | exact parse_texture_info_ok env _ _ (fun v hv => numbers_ok_member env obj _ v hok hv)
    | exact parse_vec3_ok env _ _ (fun v hv => numbers_ok_member env obj _ v hok hv)
    | exact parse_pbr_ok env _ _ (numbers_ok_member env obj _ _ hok (by assumption))
    | rw [some_bind_eq]
    | refine bind_ok_prop ?_ (fun a => ?_)
    | split

theorem material_alpha_cutoff_wrong_kind (env : Env) (obj : json_object_s) (v : json_value_s)
    (hm : find_member obj (ascii "alphaCutoff") = some v)
    (h : ∀ t, v ≠ .json_number t)
    (hok : numbers_ok env (.json_object obj)) :
    ∃ m, parse_material_element env obj = some m ∧ m.alpha_cutoff = f32.zero := by
  have hg := get_float_wrong_kind env v h
  simp only [parse_material_element, hm, hg]
  repeat' first
    | exact ⟨_, rfl, rfl⟩
    | exact ⟨_, rfl⟩
    | exact parse_texture_info_ok env _ _ (fun v hv => numbers_ok_member env obj _ v hok hv)
    | exact parse_vec3_ok env _ _ (fun v hv => numbers_ok_member env obj _ v hok hv)
    | exact parse_pbr_ok env _ _ (numbers_ok_member env obj _ _ hok (by assumption))
    | rw [some_bind_eq]
    | refine bind_ok_prop ?_ (fun a => ?_)
    | split


/-- Splitting a string at its first comma. -/
theorem split_at_first_comma : ∀ (header payload : List u8), (44 : u8) ∉ header →
    (header ++ (44 : u8) :: payload).contains (44 : u8) = true
    ∧ (header ++ (44 : u8) :: payload).takeWhile (fun c => c != (44 : u8)) = header
    ∧ ((header ++ (44 : u8) :: payload).dropWhile (fun c => c != (44 : u8))).tail = payload
  | [], payload, _ => by simp
  | c :: header, payload, h => by
    have hc : c ≠ (44 : u8) := fun e => h (e ▸ List.mem_cons_self _ _)
    have ht : (44 : u8) ∉ header := fun e => h (List.mem_cons_of_mem _ e)
    obtain ⟨h1, h2, h3⟩ := split_at_first_comma header payload ht
    have hcb : (c != (44 : u8)) = true := by simpa using hc
    refine ⟨?_, ?_, ?_⟩
    · simp only [List.cons_append, List.contains_cons, h1, Bool.or_true]
    · simp only [List.cons_append, List.takeWhile_cons, hcb, if_true, h2]
    · simp only [List.cons_append, List.dropWhile_cons, hcb, if_true, h3]

/-- One turn of the loop of `load_buffers`: either the buffer is resolved and the loop
goes on, or the loop stops with `false` and leaves the buffers as they are. -/
theorem load_buffers_cons_cases (env : Env) (base_path : List u8) (buffer : Buffer) :
    (∃ resolved, ∀ rest, load_buffers env base_path (buffer :: rest)
        = ((load_buffers env base_path rest).1,
           resolved :: (load_buffers env base_path rest).2))
    ∨ (∀ rest, load_buffers env base_path (buffer :: rest) = (false, buffer :: rest)) := by
  by_cases c1 : buffer.loaded = true
  · exact Or.inl ⟨_, fun rest => by rw [load_buffers, if_pos c1]⟩
  · by_cases c2 : buffer.uri.take 5 = ascii "data:"
    · by_cases c3 : buffer.uri.contains (44 : u8) = true
      · exact Or.inl ⟨_, fun rest => by rw [load_buffers, if_neg c1, if_pos c2, if_pos c3]⟩
      · exact Or.inl ⟨_, fun rest => by rw [load_buffers, if_neg c1, if_pos c2, if_neg c3]⟩
    · cases ho : env.open_file (base_path ++ buffer.uri) with
      | none => exact Or.inr (fun rest => by rw [load_buffers, if_neg c1, if_neg c2, ho])
      | some content =>
        exact Or.inl ⟨_, fun rest => by rw [load_buffers, if_neg c1, if_neg c2, ho]⟩

/-- The loop of `load_buffers` over a list of buffers that it gets past. -/
theorem load_buffers_append (env : Env) (base_path : List u8) :
    ∀ (pre rest : List Buffer), (load_buffers env base_path pre).1 = true →
      load_buffers env base_path (pre ++ rest)
        = ((load_buffers env base_path rest).1,
           (load_buffers env base_path pre).2 ++ (load_buffers env base_path rest).2)
  | [], rest, _ => rfl
  | buffer :: pre, rest, h => by
    rcases load_buffers_cons_cases env base_path buffer with ⟨resolved, hr⟩ | hstop
    · rw [hr] at h
      rw [List.cons_append, hr, hr, load_buffers_append env base_path pre rest h]
      rfl
    · rw [hstop] at h
      cases h

/-- Claim C13: for every buffer that the loop of `load_buffers` comes to, that is not
loaded and whose URI starts with `data:` and is `header`, a comma, `payload` with no
comma in `header`: the buffer's data becomes `decode_base_64 payload` when the header
contains `base64` and exactly `payload` otherwise, the buffer is marked loaded, its
other fields and the buffers before it are as the loop left them, and the loop goes
on. -/
theorem data_uri_buffer_is_decoded (env : Env) (base_path : List u8) (pre rest : List Buffer)
    (buffer : Buffer) (header payload : List u8)
    (hreach : (load_buffers env base_path pre).1 = true)
    (hloaded : buffer.loaded = false)
    (hscheme : buffer.uri.take 5 = ascii "data:")
    (huri : buffer.uri = header ++ (44 : u8) :: payload)
    (hfirst : (44 : u8) ∉ header) :
    (load_buffers env base_path (pre ++ buffer :: rest)).2
      = (load_buffers env base_path pre).2
        ++ { buffer with
             data := if str_contains header (ascii "base64") then decode_base_64 payload
                     else payload,
             loaded := true }
        :: (load_buffers env base_path rest).2 := by
  obtain ⟨h1, h2, h3⟩ := split_at_first_comma header payload hfirst
  rw [← huri] at h1 h2 h3
  rw [load_buffers_append env base_path pre _ hreach]
  simp only [List.append_cancel_left_eq]
  simp only [load_buffers, hloaded, hscheme, h1, h2, h3, if_true, Bool.false_eq_true, if_false]
  split_ifs <;> rfl

/-! ## Members of the wrong kind -/

/-- The number `1` converts under `table_env`. -/
theorem numbers_ok_one : numbers_ok table_env (.json_number (ascii "1")) :=
  numbers_ok.json_number _ ⟨1, by decide⟩ ⟨f32.one, by decide⟩

/-- The array `[1,1,1]` converts under `table_env`. -/
theorem numbers_ok_ones3 : numbers_ok table_env ones3 :=
  numbers_ok.json_array _ (fun e he => by
    simp only [List.mem_cons, List.mem_singleton, List.not_mem_nil, or_false, or_self] at he
    subst he
    exact numbers_ok_one)

theorem numbers_ok_null_indices_primitive :
    numbers_ok table_env (.json_object null_indices_primitive) :=
  numbers_ok.json_object _ (fun p hp => by
    simp only [null_indices_primitive, List.mem_cons, List.mem_singleton, List.not_mem_nil,
      or_false] at hp
    rcases hp with rfl | rfl
    · exact numbers_ok.json_null
    · exact numbers_ok_one)

theorem numbers_ok_matrix_node : numbers_ok table_env (.json_object matrix_node) :=
  numbers_ok.json_object _ (fun p hp => by
    simp only [matrix_node, List.mem_cons, List.mem_singleton, List.not_mem_nil,
      or_false] at hp
    rcases hp with rfl | rfl
    · exact numbers_ok.json_array _ (fun e he => by
        rw [List.eq_of_mem_replicate he]
        exact numbers_ok_one)
    · exact numbers_ok_ones3)

theorem numbers_ok_scalar_nodes_root : numbers_ok table_env (.json_object scalar_nodes_root) :=
  numbers_ok.json_object _ (fun p hp => by
    simp only [scalar_nodes_root, List.mem_cons, List.mem_singleton, List.not_mem_nil,
      or_false] at hp
    rcases hp with rfl | rfl
    · exact numbers_ok_one
    · exact numbers_ok.json_array _ (fun e he => by
        simp only [List.mem_singleton] at he
        subst he
        exact numbers_ok.json_object _ (fun p hp => by cases hp)))

/-- The buffer `data_buffer`, alone in the list, is decoded to the bytes `Man`. -/
theorem data_uri_buffer_is_decoded_witness :
    (load_buffers table_env [] []).1 = true
    ∧ data_buffer.loaded = false
    ∧ data_buffer.uri.take 5 = ascii "data:"
    ∧ data_buffer.uri
        = ascii "data:application/octet-stream;base64" ++ (44 : u8) :: ascii "TWFu"
    ∧ (44 : u8) ∉ ascii "data:application/octet-stream;base64"
    ∧ (load_buffers table_env [] ([] ++ data_buffer :: [])).2
        = (load_buffers table_env [] []).2
          ++ { data_buffer with
               data := if str_contains (ascii "data:application/octet-stream;base64")
                         (ascii "base64") then decode_base_64 (ascii "TWFu")
                       else ascii "TWFu",
               loaded := true }
          :: (load_buffers table_env [] []).2 :=
  ⟨rfl, rfl, by decide, by decide, by decide,
    data_uri_buffer_is_decoded table_env [] [] [] data_buffer
      (ascii "data:application/octet-stream;base64") (ascii "TWFu")
      rfl rfl (by decide) (by decide) (by decide)⟩

/-- The node `matrix_node` decodes with its matrix of ones and the default
translation, although it has a `translation` member. -/
theorem matrix_member_excludes_trs_witness :
    find_member matrix_node (ascii "matrix")
        = some (.json_array (List.replicate 16 (.json_number (ascii "1"))))
    ∧ (List.replicate 16 (json_value_s.json_number (ascii "1"))).length = 16
    ∧ numbers_ok table_env (.json_object matrix_node)
    ∧ ∃ node, parse_node_element table_env matrix_node = some node
        ∧ node.has_matrix = true
        ∧ node.matrix.val.map some
            = (List.replicate 16 (json_value_s.json_number (ascii "1"))).map
                (fun v => get_float table_env (some v))
        ∧ node.translation = Vec3.zero
        ∧ node.rotation = ⟨f32.zero, f32.zero, f32.zero, f32.one⟩
        ∧ node.scale = Vec3.one :=
  ⟨rfl, rfl, numbers_ok_matrix_node,
    matrix_member_excludes_trs table_env matrix_node _ rfl rfl numbers_ok_matrix_node⟩

/-- The root `{"nodes":1,"meshes":[{}]}` is decoded with success and without nodes. -/
theorem absent_collections_are_empty_witness :
    numbers_ok table_env (.json_object scalar_nodes_root)
    ∧ ∃ m, parse table_env {} (.json_object scalar_nodes_root) = some (true, m)
        ∧ m.nodes = [] ∧ m.buffers = [] ∧ m.meshes.length = 1 := by
  obtain ⟨m, hm, hb, _, _, _, _, _, _, _, _, hn, _, _⟩ :=
    absent_collections_are_empty table_env {} scalar_nodes_root numbers_ok_scalar_nodes_root
  refine ⟨numbers_ok_scalar_nodes_root, m, hm, hn (fun es h => by cases h),
    hb (fun es h => by cases h), ?_⟩
  have h2 : parse table_env {} (.json_object scalar_nodes_root)
      = some (true, { meshes := [{}], default_scene := 0 }) := by decide
  rw [h2] at hm
  cases hm
  rfl

/-! ## The byte codec: decoding what was encoded -/

theorem byte_facts : ∀ a : Fin 256,
    (a.val >>> 2) &&& 0x3F = a.val / 4
    ∧ (a.val &&& 0x3) <<< 4 = 16 * (a.val % 4)
    ∧ (a.val &&& 0xF0) >>> 4 = a.val / 16
    ∧ (a.val &&& 0xF) <<< 2 = 4 * (a.val % 16)
    ∧ (a.val &&& 0xC0) >>> 6 = a.val / 64
    ∧ a.val &&& 0x3F = a.val % 64 := by
  decide

theorem table_facts : ∀ k : Fin 64,
    decode_table.getD (base64_char k.val).val 64 = k.val ∧ (base64_char k.val).val ≠ 61 := by
  decide

theorem encode_chars_length : ∀ data : List u8,
    (encode_chars data).length = 4 * ((data.length + 2) / 3)
  | a :: b :: c :: rest => by
    simp only [encode_chars, List.length_append, List.length_cons, List.length_nil,
      encode_chars_length rest]
    omega
  | [_, _] => by simp [encode_chars]
  | [_] => by simp [encode_chars]
  | [] => by simp [encode_chars]

theorem encode_base64_eq (data : List u8) : encode_base64 data = encode_chars data := by
  simp only [encode_base64, encode_chars_length, List.drop_replicate, Nat.sub_self,
    List.replicate_zero, List.append_nil]

theorem decode_base_64_eq (input : List u8) :
    decode_base_64 input
      = decode_remaining ((strip_padding input).foldl decode_step ([], [])) := rfl

theorem table_value (k : Nat) (hk : k < 64) :
    decode_table.getD (base64_char k).val 64 = k := (table_facts ⟨k, hk⟩).1

theorem base64_char_ne_pad (k : Nat) (hk : k < 64) : ((base64_char k).val == 61) = false := by
  have := (table_facts ⟨k, hk⟩).2
  simpa using this

theorem decode_step_char (val : List Nat) (output : List u8) (k : Nat) (hk : k < 64) :
    decode_step (val, output) (base64_char k)
      = if (val ++ [k]).length = 4 then
          ([], output ++
            [to_u8 (((val ++ [k]).getD 0 0 <<< 2) ||| ((val ++ [k]).getD 1 0 >>> 4)),
             to_u8 (((val ++ [k]).getD 1 0 <<< 4) ||| ((val ++ [k]).getD 2 0 >>> 2)),
             to_u8 (((val ++ [k]).getD 2 0 <<< 6) ||| (val ++ [k]).getD 3 0)])
        else (val ++ [k], output) := by
  simp only [decode_step, table_value k hk, if_neg (Nat.ne_of_lt hk)]

/-- Four characters of the alphabet, read from an empty `val`, give three bytes. -/
theorem decode_group (output : List u8) (i0 i1 i2 i3 : Nat)
    (h0 : i0 < 64) (h1 : i1 < 64) (h2 : i2 < 64) (h3 : i3 < 64) :
    [base64_char i0, base64_char i1, base64_char i2, base64_char i3].foldl decode_step
        ([], output)
      = ([], output ++ [to_u8 ((i0 <<< 2) ||| (i1 >>> 4)), to_u8 ((i1 <<< 4) ||| (i2 >>> 2)),
                        to_u8 ((i2 <<< 6) ||| i3)]) := by
  simp [List.foldl, decode_step_char, h0, h1, h2, h3]

theorem decode_pair (output : List u8) (i0 i1 : Nat) (h0 : i0 < 64) (h1 : i1 < 64) :
    decode_remaining ([base64_char i0, base64_char i1].foldl decode_step ([], output))
      = output ++ [to_u8 ((i0 <<< 2) ||| (i1 >>> 4))] := by
  simp [List.foldl, decode_step_char, h0, h1, decode_remaining]

theorem decode_triple (output : List u8) (i0 i1 i2 : Nat)
    (h0 : i0 < 64) (h1 : i1 < 64) (h2 : i2 < 64) :
    decode_remaining
        ([base64_char i0, base64_char i1, base64_char i2].foldl decode_step ([], output))
      = output ++ [to_u8 ((i0 <<< 2) ||| (i1 >>> 4)), to_u8 ((i1 <<< 4) ||| (i2 >>> 2))] := by
  simp [List.foldl, decode_step_char, h0, h1, h2, decode_remaining]

theorem strip_padding_append (group rest : List u8) (c : u8) (hc : (c.val == 61) = false) :
    strip_padding ((group ++ [c]) ++ rest) = (group ++ [c]) ++ strip_padding rest := by
  simp only [strip_padding, List.reverse_append, List.dropWhile_append, List.reverse_cons,
    List.reverse_nil, List.nil_append, List.singleton_append, List.dropWhile_cons, hc]
  split <;> simp_all

theorem strip_padding_pad (input : List u8) :
    strip_padding (input ++ [61]) = strip_padding input := by
  have h : (((61 : u8).val : Nat) == 61) = true := rfl
  simp only [strip_padding, List.reverse_append, List.reverse_cons, List.reverse_nil,
    List.nil_append, List.singleton_append, List.dropWhile_cons, h, if_true]

theorem or_eq_add (i : Nat) (a b : Nat) (hb : b < 2 ^ i) : (2 ^ i * a) ||| b = 2 ^ i * a + b :=
  (Nat.mul_add_lt_is_or hb a).symm

/-- The four indices `encode_base64` computes for a group of three bytes. -/
theorem index_values (a b c : u8) :
    (a.val >>> 2) &&& 0x3F = a.val / 4
    ∧ ((a.val &&& 0x3) <<< 4) ||| ((b.val &&& 0xF0) >>> 4) = 16 * (a.val % 4) + b.val / 16
    ∧ ((b.val &&& 0xF) <<< 2) ||| ((c.val &&& 0xC0) >>> 6) = 4 * (b.val % 16) + c.val / 64
    ∧ c.val &&& 0x3F = c.val % 64 := by
  obtain ⟨a1, a2, _, _, _, _⟩ := byte_facts a
  obtain ⟨_, _, b3, b4, _, _⟩ := byte_facts b
  obtain ⟨_, _, _, _, c5, c6⟩ := byte_facts c
  have hb : b.val / 16 < 2 ^ 4 := by have := b.isLt; omega
  have hc : c.val / 64 < 2 ^ 2 := by have := c.isLt; omega
  refine ⟨a1, ?_, ?_, c6⟩
  · rw [a2, b3]
    exact or_eq_add 4 _ _ hb
  · rw [b4, c5]
    exact or_eq_add 2 _ _ hc

/-- The three bytes `decode_base_64` builds from the four indices of a group. -/
theorem bytes_of_indices (a b c : u8) :
    to_u8 (((a.val / 4) <<< 2) ||| ((16 * (a.val % 4) + b.val / 16) >>> 4)) = a
    ∧ to_u8 (((16 * (a.val % 4) + b.val / 16) <<< 4) ||| ((4 * (b.val % 16) + c.val / 64) >>> 2))
        = b
    ∧ to_u8 (((4 * (b.val % 16) + c.val / 64) <<< 6) ||| (c.val % 64)) = c := by
  have ha := a.isLt
  have hb := b.isLt
  have hc := c.isLt
  have e1 : (a.val / 4) <<< 2 = 2 ^ 2 * (a.val / 4) := by rw [Nat.shiftLeft_eq, Nat.mul_comm]
  have e2 : (16 * (a.val % 4) + b.val / 16) >>> 4 = a.val % 4 := by
    rw [Nat.shiftRight_eq_div_pow]
    omega
  have e3 : (16 * (a.val % 4) + b.val / 16) <<< 4 = 2 ^ 4 * (16 * (a.val % 4) + b.val / 16) := by
    rw [Nat.shiftLeft_eq, Nat.mul_comm]
  have e4 : (4 * (b.val % 16) + c.val / 64) >>> 2 = b.val % 16 := by
    rw [Nat.shiftRight_eq_div_pow]
    omega
  have e5 : (4 * (b.val % 16) + c.val / 64) <<< 6 = 2 ^ 6 * (4 * (b.val % 16) + c.val / 64) := by
    rw [Nat.shiftLeft_eq, Nat.mul_comm]
  rw [e1, e2, e3, e4, e5, or_eq_add 2 _ _ (by omega), or_eq_add 4 _ _ (by omega),
    or_eq_add 6 _ _ (by omega)]
  refine ⟨Fin.ext ?_, Fin.ext ?_, Fin.ext ?_⟩
  · show (2 ^ 2 * (a.val / 4) + a.val % 4) % 256 = a.val
    omega
  · show (2 ^ 4 * (16 * (a.val % 4) + b.val / 16) + b.val % 16) % 256 = b.val
    omega
  · show (2 ^ 6 * (4 * (b.val % 16) + c.val / 64) + c.val % 64) % 256 = c.val
    omega

theorem index_bounds (a b c : u8) :
    a.val / 4 < 64 ∧ 16 * (a.val % 4) + b.val / 16 < 64 ∧ 4 * (b.val % 16) + c.val / 64 < 64
    ∧ c.val % 64 < 64 ∧ 16 * (a.val % 4) < 64 ∧ 4 * (b.val % 16) < 64 := by
  have ha := a.isLt
  have hb := b.isLt
  have hc := c.isLt
  omega

/-- Decoding what `encode_base64` stores for `data`, the loop starting with an empty
`val` and the output `output`, appends `data` to the output. -/
theorem decode_encode_chars : ∀ (data output : List u8),
    decode_remaining ((strip_padding (encode_chars data)).foldl decode_step ([], output))
      = output ++ data
  | a :: b :: c :: rest, output => by
    obtain ⟨i0, i1, i2, i3⟩ := index_values a b c
    obtain ⟨b0, b1, b2, b3, _, _⟩ := index_bounds a b c
    obtain ⟨v0, v1, v2⟩ := bytes_of_indices a b c
    have hstrip := strip_padding_append
      [base64_char (a.val / 4), base64_char (16 * (a.val % 4) + b.val / 16),
       base64_char (4 * (b.val % 16) + c.val / 64)] (encode_chars rest)
      (base64_char (c.val % 64)) (base64_char_ne_pad _ b3)
    simp only [List.cons_append, List.nil_append] at hstrip
    simp only [encode_chars, i0, i1, i2, i3, List.cons_append, List.nil_append, hstrip]
    rw [show ∀ (x1 x2 x3 x4 : u8) (l : List u8), x1 :: x2 :: x3 :: x4 :: l = [x1, x2, x3, x4] ++ l
      from fun _ _ _ _ _ => rfl, List.foldl_append, decode_group output _ _ _ _ b0 b1 b2 b3,
      decode_encode_chars rest, v0, v1, v2]
    simp
  | [a, b], output => by
    obtain ⟨i0, i1, _, _⟩ := index_values a b 0
    obtain ⟨_, _, _, b4, _, _⟩ := byte_facts b
    obtain ⟨b0, b1, _, _, _, b5⟩ := index_bounds a b 0
    obtain ⟨v0, v1, _⟩ := bytes_of_indices a b 0
    have hstrip := strip_padding_append
      [base64_char (a.val / 4), base64_char (16 * (a.val % 4) + b.val / 16)] []
      (base64_char (4 * (b.val % 16))) (base64_char_ne_pad _ b5)
    have hpad := strip_padding_pad
      [base64_char (a.val / 4), base64_char (16 * (a.val % 4) + b.val / 16),
       base64_char (4 * (b.val % 16))]
    have hnil : strip_padding [] = [] := rfl
    simp only [List.cons_append, List.nil_append, List.append_nil, hnil] at hstrip hpad
    have z : (4 * (b.val % 16) + (0 : u8).val / 64) = 4 * (b.val % 16) := by simp
    rw [z] at v1
    simp only [encode_chars, i0, i1, b4, hpad, hstrip]
    rw [decode_triple output _ _ _ b0 b1 b5, v0, v1]
  | [a], output => by
    obtain ⟨a1, a2, _, _, _, _⟩ := byte_facts a
    obtain ⟨b0, _, _, _, b4, _⟩ := index_bounds a 0 0
    obtain ⟨v0, _, _⟩ := bytes_of_indices a 0 0
    have hstrip := strip_padding_append [base64_char (a.val / 4)] []
      (base64_char (16 * (a.val % 4))) (base64_char_ne_pad _ b4)
    have hpad1 := strip_padding_pad
      [base64_char (a.val / 4), base64_char (16 * (a.val % 4)), 61]
    have hpad2 := strip_padding_pad [base64_char (a.val / 4), base64_char (16 * (a.val % 4))]
    have hnil : strip_padding [] = [] := rfl
    simp only [List.cons_append, List.nil_append, List.append_nil, hnil] at hstrip hpad1 hpad2
    have z : (16 * (a.val % 4) + (0 : u8).val / 16) = 16 * (a.val % 4) := by simp
    rw [z] at v0
    simp only [encode_chars, a1, a2, hpad1, hpad2, hstrip]
    rw [decode_pair output _ _ b0 b4, v0]
  | [], output => by
    simp [encode_chars, strip_padding, decode_remaining]

/-- Claim C29: for every byte sequence `d`, of any length, decoding what
`encode_base64` returns for `d` gives `d` back. -/
theorem decode_base_64_encode_base64 (d : List u8) :
    decode_base_64 (encode_base64 d) = d := by
  rw [encode_base64_eq, decode_base_64_eq, decode_encode_chars]
  rfl

/-! ## Files written by `save_as_gltf` -/

/-- Claim C26, at the document `one_buffer_doc` saved to `out/model.gltf` with
`embed_buffers` false: the side file written is `out/model_buffer0.bin`, while the uri
recorded in the document text is `buffer0`. -/
theorem uri_placeholder_is_not_file_name :
    save_as_gltf table_env (fun _ => true) one_buffer_doc (ascii "out/model.gltf") false
      = (true,
         [(ascii "out/model.gltf",
           ascii "\x7b\"asset\":\x7b\"version\":\"2.0\"\x7d,\"buffers\":[\x7b\"byteLength\":2,\"uri\":\"buffer0\"\x7d]\x7d"),
          (ascii "out/model_buffer0.bin", [1, 2])])
    ∧ buffer_json 0 { byte_length := 2, data := [1, 2], loaded := true }
        = ascii "\x7b\"byteLength\":2,\"uri\":\"buffer0\"\x7d"
    ∧ output_base_name (ascii "out/model.gltf") ++ ascii "_buffer" ++ show_nat 0 ++ ascii ".bin"
        = ascii "model_buffer0.bin"
    ∧ ascii "buffer0" ≠ ascii "model_buffer0.bin" := by
  refine ⟨by decide, by decide, by decide, by decide⟩

/-- The text of a material is its PBR block, a middle part, the `alphaCutoff` member
under its condition, and a last part; the middle and last part depend neither on the
PBR block nor on the cutoff. -/
theorem material_json_parts (env : Env) (material : Material) :
    ∃ middle last, ∀ (pbr : PbrMetallicRoughness) (cutoff : f32),
      material_json env { material with pbr_metallic_roughness := pbr, alpha_cutoff := cutoff }
        = ascii "\x7b" ++ pbr_json env pbr ++ middle
          ++ (if cutoff.ne f32.half = true ∧ material.alpha_mode = ascii "MASK" then
                ascii ",\"alphaCutoff\":" ++ env.fmt_f32 cutoff
              else [])
          ++ last := by
  refine ⟨(if material.normal_texture.index != 0 then
            ascii ",\"normalTexture\":" ++ texture_info_json material.normal_texture
          else [])
      ++ (if material.occlusion_texture.index != 0 then
            ascii ",\"occlusionTexture\":" ++ texture_info_json material.occlusion_texture
          else [])
      ++ (if material.emissive_texture.index != 0 then
            ascii ",\"emissiveTexture\":" ++ texture_info_json material.emissive_texture
          else [])
      ++ (if material.emissive_factor.x.ne f32.zero || material.emissive_factor.y.ne f32.zero
              || material.emissive_factor.z.ne f32.zero then
            ascii ",\"emissiveFactor\":[" ++ env.fmt_f32 material.emissive_factor.x ++ ascii ","
            ++ env.fmt_f32 material.emissive_factor.y ++ ascii ","
            ++ env.fmt_f32 material.emissive_factor.z ++ ascii "]"
          else [])
      ++ (if material.alpha_mode != ascii "OPAQUE" then
            ascii ",\"alphaMode\":" ++ create_json_string material.alpha_mode
          else []),
    (if material.double_sided then ascii ",\"doubleSided\":true" else [])
      ++ (if !material.name.isEmpty then ascii ",\"name\":" ++ create_json_string material.name
          else [])
      ++ ascii "\x7d", fun pbr cutoff => ?_⟩
  simp only [material_json, List.append_assoc, Bool.and_eq_true, beq_iff_eq]

/-- Claim C21: for every material whose PBR block is all-default (base colour factor
(1,1,1,1), metallic and roughness factor 1, both texture references at index 0), the PBR
block `generate_json` emits for it is the empty object, which holds none of the keys
`baseColorFactor`, `metallicFactor`, `roughnessFactor`; the material's text is that
block followed by a tail that does not depend on the PBR block. -/
theorem default_pbr_emits_no_factors (env : Env) (material : Material)
    (hc : material.pbr_metallic_roughness.base_color_factor = Vec4.one)
    (hm : material.pbr_metallic_roughness.metallic_factor = f32.one)
    (hr : material.pbr_metallic_roughness.roughness_factor = f32.one)
    (hb : material.pbr_metallic_roughness.base_color_texture.index = 0)
    (ht : material.pbr_metallic_roughness.metallic_roughness_texture.index = 0) :
    pbr_json env material.pbr_metallic_roughness = ascii "\"pbrMetallicRoughness\":\x7b\x7d"
    ∧ str_contains (pbr_json env material.pbr_metallic_roughness) (ascii "baseColorFactor")
        = false
    ∧ str_contains (pbr_json env material.pbr_metallic_roughness) (ascii "metallicFactor")
        = false
    ∧ str_contains (pbr_json env material.pbr_metallic_roughness) (ascii "roughnessFactor")
        = false
    ∧ ∃ tail, material_json env material
          = ascii "\x7b" ++ ascii "\"pbrMetallicRoughness\":\x7b\x7d" ++ tail
        ∧ ∀ pbr, material_json env { material with pbr_metallic_roughness := pbr }
            = ascii "\x7b" ++ pbr_json env pbr ++ tail := by
  have hp : pbr_json env material.pbr_metallic_roughness
      = ascii "\"pbrMetallicRoughness\":\x7b\x7d" := by
    have h1 : base_color_factor_set material.pbr_metallic_roughness = false := by
      rw [base_color_factor_set, hc]
      decide
    have h2 : f32.one.ne f32.one = false := by decide
    simp only [pbr_json, h1, hm, hr, hb, ht, h2, Bool.false_eq_true, if_false, bne_self_eq_false,
      List.append_nil]
    rfl
  obtain ⟨middle, last, hparts⟩ := material_json_parts env material
  refine ⟨hp, ?_, ?_, ?_,
    middle ++ (if material.alpha_cutoff.ne f32.half = true ∧ material.alpha_mode = ascii "MASK"
        then ascii ",\"alphaCutoff\":" ++ env.fmt_f32 material.alpha_cutoff else []) ++ last,
    ?_, fun pbr => ?_⟩
  · rw [hp]
    decide
  · rw [hp]
    decide
  · rw [hp]
    decide
  · have h := hparts material.pbr_metallic_roughness material.alpha_cutoff
    rw [hp] at h
    simp only [List.append_assoc] at h ⊢
    exact h
  · have h := hparts pbr material.alpha_cutoff
    simp only [List.append_assoc] at h ⊢
    exact h

/-- The material named `m`, double sided, with the default PBR block. -/
theorem default_pbr_emits_no_factors_witness :
    ({ name := ascii "m", double_sided := true } : Material).pbr_metallic_roughness.base_color_factor
        = Vec4.one
    ∧ ({ name := ascii "m", double_sided := true } : Material).pbr_metallic_roughness.metallic_factor
        = f32.one
    ∧ ({ name := ascii "m", double_sided := true } : Material).pbr_metallic_roughness.roughness_factor
        = f32.one
    ∧ pbr_json table_env
          ({ name := ascii "m", double_sided := true } : Material).pbr_metallic_roughness
        = ascii "\"pbrMetallicRoughness\":\x7b\x7d"
    ∧ material_json table_env { name := ascii "m", double_sided := true }
        = ascii "\x7b\"pbrMetallicRoughness\":\x7b\x7d,\"doubleSided\":true,\"name\":\"m\"\x7d" :=
  ⟨rfl, rfl, rfl,
   (default_pbr_emits_no_factors table_env { name := ascii "m", double_sided := true }
      rfl rfl rfl rfl rfl).1,
   by decide⟩

/-- Claim C24, at the document with one scene named `a` and no nodes: the scene object
is written as `{,"name":"a"}`, with a comma directly after its opening brace. -/
theorem scene_name_has_leading_comma :
    scene_json { name := ascii "a" } = ascii "\x7b,\"name\":\"a\"\x7d"
    ∧ generate_json table_env named_scene_doc false
        = ascii "\x7b\"asset\":\x7b\"version\":\"2.0\"\x7d,\"scene\":0,\"scenes\":[\x7b,\"name\":\"a\"\x7d]\x7d"
    ∧ generate_json table_env named_scene_doc true
        = generate_json table_env named_scene_doc false := by
  refine ⟨by decide, by decide, by decide⟩

/-- Claim C25, at the document `two_buffer_doc` (two buffers of 4 bytes each): the
single entry of the container form has `byteLength` 4, the declared length of the first
buffer, while the blob `save_as_glb` puts in the BIN chunk has 8 bytes and the BIN
chunk header declares 8. -/
theorem glb_buffer_length_is_first_buffer :
    generate_json table_env two_buffer_doc true
        = ascii "\x7b\"asset\":\x7b\"version\":\"2.0\"\x7d,\"buffers\":[\x7b\"byteLength\":4\x7d]\x7d"
    ∧ concat_buffers two_buffer_doc.buffers = [1, 2, 3, 4, 5, 6, 7, 8]
    ∧ (generate_json table_env two_buffer_doc true).length = 56
    ∧ read_u32 (save_as_glb table_env two_buffer_doc) (20 + 56) = 8
    ∧ read_u32 (save_as_glb table_env two_buffer_doc) (20 + 56 + 4) = 0x004E4942 := by
  refine ⟨by decide, by decide, by decide, by decide, by decide⟩

/-- Claim C30, at the document `texture_doc` (one image, sampler, texture, skin and
animation): the emitted text is `{"asset":{"version":"2.0"}}`, without a member for any
of the five collections; for every document the text is the one of the document
without them. -/
theorem texture_collections_not_emitted (env : Env) (model : Model) (for_glb : Bool) :
    texture_doc.images ≠ [] ∧ texture_doc.samplers ≠ [] ∧ texture_doc.textures ≠ []
    ∧ texture_doc.skins ≠ [] ∧ texture_doc.animations ≠ []
    ∧ generate_json env texture_doc for_glb
        = ascii "\x7b\"asset\":\x7b\"version\":\"2.0\"\x7d\x7d"
    ∧ generate_json env model for_glb
        = generate_json env
            { model with images := [], samplers := [], textures := [], skins := [],
                         animations := [] } for_glb := by
  refine ⟨by decide, by decide, by decide, by decide, by decide, by rfl, by rfl⟩

/-! ## Chunk padding -/

/-- Claim C28: for every document text `T` and every non-empty blob `B` whose padded
lengths fit the 32-bit length fields, `save_as_glb` writes, after the 12-byte header, a
JSON chunk whose declared length is the least multiple of 4 not below the length of `T`
and whose payload is `T` followed by at most 3 spaces, then a BIN chunk whose declared
length is the least multiple of 4 not below the length of `B` and whose payload is `B`
followed by at most 3 zero bytes; `B` is the data of the buffers, concatenated in index
order. -/
theorem glb_chunks_are_padded (T B : List u8) (hB : B ≠ [])
    (hT32 : T.length + 3 < 4294967296) (hB32 : B.length + 3 < 4294967296) :
    ∃ json_padding bin_padding total_size,
      json_padding ≤ 3 ∧ (T.length + json_padding) % 4 = 0
      ∧ (∀ k, k % 4 = 0 → T.length ≤ k → T.length + json_padding ≤ k)
      ∧ bin_padding ≤ 3 ∧ (B.length + bin_padding) % 4 = 0
      ∧ (∀ k, k % 4 = 0 → B.length ≤ k → B.length + bin_padding ≤ k)
      ∧ glb_bytes T B
          = le32 0x46546C67 ++ (le32 2 ++ (le32 total_size
            ++ (le32 (T.length + json_padding) ++ (le32 0x4E4F534A
            ++ ((T ++ List.replicate json_padding (32 : u8))
            ++ (le32 (B.length + bin_padding) ++ (le32 0x004E4942
            ++ (B ++ List.replicate bin_padding (0 : u8)))))))))
      ∧ read_u32 (glb_bytes T B) 12 = T.length + json_padding
      ∧ read_u32 (glb_bytes T B) 16 = 0x4E4F534A
      ∧ read_u32 (glb_bytes T B) (20 + (T.length + json_padding)) = B.length + bin_padding
      ∧ read_u32 (glb_bytes T B) (20 + (T.length + json_padding) + 4) = 0x004E4942
      ∧ (∀ (env : Env) (model : Model),
          save_as_glb env model
            = glb_bytes (generate_json env model true)
                ((model.buffers.map (fun buffer => buffer.data)).flatten)) := by
  have hl := glb_bytes_layout T B hB
  obtain ⟨_, _, _, r12, r16, rk⟩ := header_reads 0x46546C67 2
    (12 + 8 + (T.length + (4 - T.length % 4) % 4) + 8 + (B.length + (4 - B.length % 4) % 4))
    (T.length + (4 - T.length % 4) % 4) 0x4E4F534A
    ((T ++ List.replicate ((4 - T.length % 4) % 4) (32 : u8))
      ++ (le32 (B.length + (4 - B.length % 4) % 4) ++ (le32 0x004E4942
      ++ (B ++ List.replicate ((4 - B.length % 4) % 4) (0 : u8)))))
  rw [← hl] at r12 r16 rk
  have hTl : (T ++ List.replicate ((4 - T.length % 4) % 4) (32 : u8)).length
      = T.length + (4 - T.length % 4) % 4 := by simp
  refine ⟨(4 - T.length % 4) % 4, (4 - B.length % 4) % 4, _, by omega, by omega,
    fun k h1 h2 => by omega, by omega, by omega, fun k h1 h2 => by omega, hl, ?_, ?_, ?_, ?_,
    fun env model => rfl⟩
  · rw [r12]
    omega
  · rw [r16]
  · rw [rk, ← hTl]
    have := read_u32_append (T ++ List.replicate ((4 - T.length % 4) % 4) (32 : u8))
      (le32 (B.length + (4 - B.length % 4) % 4) ++ (le32 0x004E4942
        ++ (B ++ List.replicate ((4 - B.length % 4) % 4) (0 : u8)))) 0
    rw [Nat.add_zero] at this
    rw [this, read_u32_le32]
    omega
  · rw [Nat.add_assoc, rk, ← hTl, read_u32_append]
    exact (read_u32_skip _ _ 0).trans (read_u32_le32 _ _)

/-- The text `{}` and the one-byte blob `[1]`. -/
theorem glb_chunks_are_padded_witness :
    ([1] : List u8) ≠ [] ∧ braces_text.length + 3 < 4294967296
    ∧ ([1] : List u8).length + 3 < 4294967296
    ∧ ∃ json_padding bin_padding,
        json_padding ≤ 3 ∧ bin_padding ≤ 3
        ∧ read_u32 (glb_bytes braces_text [1]) 12 = braces_text.length + json_padding
        ∧ read_u32 (glb_bytes braces_text [1]) (20 + (braces_text.length + json_padding))
            = ([1] : List u8).length + bin_padding := by
  refine ⟨by decide, by decide, by decide, ?_⟩
  obtain ⟨jp, bp, _, h1, _, _, h2, _, _, _, h3, _, h4, _⟩ :=
    glb_chunks_are_padded braces_text [1] (by decide) (by decide) (by decide)
  exact ⟨jp, bp, h1, h2, h3, h4⟩

/-! ## Loading a container from a path -/

/-- Claim C31, at the path `dir/model.glb`, whose file is the container `dir_glb`
(JSON chunk `{"buffers":[{"byteLength":2,"uri":"buf.bin"}]}`): the returned document
has the empty `base_path`, not `dir`, and its buffer is filled from the file `buf.bin`
of the working directory, not from a file under `dir`. -/
theorem load_glb_loses_base_path :
    parent_directory (ascii "dir/model.glb") = ascii "dir"
    ∧ glb_dir_env.open_file (ascii "dir/buf.bin") = some [1, 2]
    ∧ glb_dir_env.open_file (ascii "buf.bin") = some [7, 7]
    ∧ load glb_dir_env true (ascii "dir/model.glb")
        = some (true, { buffers := [{ uri := ascii "buf.bin", byte_length := 2,
                                      data := [7, 7], loaded := true }],
                        base_path := [] }) := by
  refine ⟨by decide, by decide, by decide, by rfl⟩

/-- Claim C33, at requests that a shorter member name shadows: asked for `scenes`,
`find_member` returns the value of the member `scene` that comes first, and the value
of a member with the empty name; asked for `scene` it does not return the member
`scenes`. -/
theorem find_member_matches_prefix :
    find_member [(ascii "scene", .json_true), (ascii "scenes", .json_null)] (ascii "scenes")
        = some .json_true
    ∧ find_member [(ascii "scene", .json_true)] (ascii "scenes") = some .json_true
    ∧ find_member [([], .json_true), (ascii "scenes", .json_null)] (ascii "scenes")
        = some .json_true
    ∧ find_member [(ascii "scenes", .json_null)] (ascii "scene") = none := by
  refine ⟨by rfl, by rfl, by rfl, by rfl⟩

/-! ## Payload length of loaded buffers -/

/-- One turn of the loop of `load_buffers` keeps the buffer count, and the `uri` and
`byte_length` of every buffer; a buffer marked loaded is kept as it is. -/
theorem load_buffers_frame (env : Env) (base_path : List u8) : ∀ buffers : List Buffer,
    (load_buffers env base_path buffers).2.length = buffers.length
    ∧ (load_buffers env base_path buffers).2.map (fun b => b.uri) = buffers.map (fun b => b.uri)
    ∧ (load_buffers env base_path buffers).2.map (fun b => b.byte_length)
        = buffers.map (fun b => b.byte_length)
    ∧ ∀ i b, buffers.get? i = some b → b.loaded = true →
        (load_buffers env base_path buffers).2.get? i = some b
  | [] => ⟨rfl, rfl, rfl, fun i b h => by simp at h⟩
  | buffer :: rest => by
    obtain ⟨h1, h2, h3, h4⟩ := load_buffers_frame env base_path rest
    by_cases c1 : buffer.loaded = true
    · rw [load_buffers, if_pos c1]
      refine ⟨by simp [h1], by simp [h2], by simp [h3], fun i b hi hb => ?_⟩
      cases i with
      | zero => simpa using hi
      | succ i => exact h4 i b (by simpa using hi) hb
    · have hframe : ∀ (b2 : Buffer), b2.uri = buffer.uri → b2.byte_length = buffer.byte_length →
          (b2 :: (load_buffers env base_path rest).2).length = (buffer :: rest).length
          ∧ (b2 :: (load_buffers env base_path rest).2).map (fun b => b.uri)
              = (buffer :: rest).map (fun b => b.uri)
          ∧ (b2 :: (load_buffers env base_path rest).2).map (fun b => b.byte_length)
              = (buffer :: rest).map (fun b => b.byte_length)
          ∧ ∀ i b, (buffer :: rest).get? i = some b → b.loaded = true →
              (b2 :: (load_buffers env base_path rest).2).get? i = some b := by
        intro b2 e1 e2
        refine ⟨by simp [h1], by simp [h2, e1], by simp [h3, e2], fun i b hi hb => ?_⟩
        cases i with
        | zero =>
          simp only [List.get?_cons_zero, Option.some.injEq] at hi
          subst hi
          exact absurd hb c1
        | succ i => exact h4 i b (by simpa using hi) hb
      by_cases c2 : buffer.uri.take 5 = ascii "data:"
      · by_cases c3 : buffer.uri.contains (44 : u8) = true
        · rw [load_buffers, if_neg c1, if_pos c2, if_pos c3]
          refine hframe _ ?_ ?_ <;> (split_ifs <;> rfl)
        · rw [load_buffers, if_neg c1, if_pos c2, if_neg c3]
          exact hframe _ rfl rfl
      · cases ho : env.open_file (base_path ++ buffer.uri) with
        | none =>
          rw [load_buffers, if_neg c1, if_neg c2, ho]
          exact ⟨rfl, rfl, rfl, fun i b hi _ => hi⟩
        | some content =>
          rw [load_buffers, if_neg c1, if_neg c2, ho]
          exact hframe _ rfl rfl

/-- Claim C34: for every list of buffers, `load_buffers` returns the same number of
buffers with the same `uri` and `byte_length` at every index, and every buffer that was
marked loaded before the call is returned unchanged (data, uri, byte_length and flag). -/
theorem load_buffers_keeps_loaded (env : Env) (base_path : List u8) (buffers : List Buffer) :
    (load_buffers env base_path buffers).2.length = buffers.length
    ∧ (load_buffers env base_path buffers).2.map (fun b => b.uri) = buffers.map (fun b => b.uri)
    ∧ (load_buffers env base_path buffers).2.map (fun b => b.byte_length)
        = buffers.map (fun b => b.byte_length)
    ∧ ∀ i b, buffers.get? i = some b → b.loaded = true →
        (load_buffers env base_path buffers).2.get? i = some b :=
  load_buffers_frame env base_path buffers

/-- The loaded first buffer of `mixed_buffers` is returned unchanged. -/
theorem load_buffers_keeps_loaded_witness :
    mixed_buffers.get? 0 = some { uri := ascii "x.bin", byte_length := 9, data := [5], loaded := true }
    ∧ (load_buffers table_env [] mixed_buffers).2.get? 0
        = some { uri := ascii "x.bin", byte_length := 9, data := [5], loaded := true }
    ∧ (load_buffers table_env [] mixed_buffers).2.length = 3 :=
  ⟨rfl, (load_buffers_keeps_loaded table_env [] mixed_buffers).2.2.2 0 _ rfl rfl,
   (load_buffers_keeps_loaded table_env [] mixed_buffers).1⟩

/-- Claim C36: for every tree, `Model::parse` gives the same result whatever the twelve
collections held before the call; and called with no buffer held, as `parse` always
calls it, `parse_buffers` maps the elements of the `buffers` array (the branch that
skips them when a buffer is already held is not taken). -/
theorem parse_is_independent_of_prior_collections (env : Env) (model : Model)
    (root : json_value_s) (buffers : List Buffer) (buffer_views : List BufferView)
    (accessors : List Accessor) (images : List Image) (samplers : List Sampler)
    (textures : List Texture) (materials : List Material) (meshes : List Mesh)
    (skins : List Skin) (nodes : List Node) (scenes : List Scene)
    (animations : List Animation) :
    parse env
        { model with
          buffers := buffers, buffer_views := buffer_views, accessors := accessors,
          images := images, samplers := samplers, textures := textures,
          materials := materials, meshes := meshes, skins := skins, nodes := nodes,
          scenes := scenes, animations := animations } root
      = parse env model root
    ∧ (∀ (json : json_object_s) (elements : List json_value_s),
        find_member json (ascii "buffers") = some (.json_array elements) →
        parse_buffers [] json = parse_elements parse_buffer_element elements) := by
  refine ⟨rfl, fun json elements h => ?_⟩
  simp only [parse_buffers, h, List.isEmpty_nil, Bool.not_true, Bool.false_eq_true, if_false,
    List.nil_append]
  cases parse_elements parse_buffer_element elements <;> rfl

/-- The tree `dir_tree`, parsed on a model that already holds a loaded buffer. -/
theorem parse_is_independent_of_prior_collections_witness :
    parse dir_env { buffers := [{ byte_length := 8, data := minimal_payload, loaded := true }] }
        dir_tree
      = parse dir_env {} dir_tree
    ∧ find_member [(ascii "buffers", .json_array [.json_object []])] (ascii "buffers")
        = some (.json_array [.json_object []])
    ∧ parse_buffers [] [(ascii "buffers", .json_array [.json_object []])]
        = parse_elements parse_buffer_element [.json_object []] :=
  ⟨(parse_is_independent_of_prior_collections dir_env {} dir_tree
      [{ byte_length := 8, data := minimal_payload, loaded := true }] [] [] [] [] [] [] [] [] []
      [] []).1,
   rfl,
   (parse_is_independent_of_prior_collections dir_env {} dir_tree [] [] [] [] [] [] [] [] [] []
      [] []).2 _ _ rfl⟩

/-! ## The index -1 -/

theorem get_int_minus_one : get_int (some minus_one) = some (-1) := by decide

theorem numbers_ok_minus_one_node : numbers_ok signed_env (.json_object minus_one_node) :=
  numbers_ok.json_object _ (fun p hp => by
    simp only [minus_one_node, List.mem_cons, List.mem_singleton, List.not_mem_nil,
      or_false] at hp
    rcases hp with rfl | rfl | rfl
    · exact numbers_ok.json_number _ ⟨-1, by decide⟩ ⟨⟨0xBF800000⟩, by decide⟩
    · exact numbers_ok.json_number _ ⟨-1, by decide⟩ ⟨⟨0xBF800000⟩, by decide⟩
    · exact numbers_ok.json_string _)

theorem node_mesh_minus_one (env : Env) (obj : json_object_s)
    (hm : find_member obj (ascii "mesh") = some minus_one)
    (hok : numbers_ok env (.json_object obj)) :
    ∃ node, parse_node_element env obj = some node ∧ node.mesh = UINT32_MAX := by
  have hg := get_int_minus_one
  simp only [parse_node_element, hm, hg]
  repeat' first
    | exact ⟨_, rfl, rfl⟩
    | exact ⟨_, rfl⟩
    | exact member_int_ok env obj hok _ _ (by assumption)
    | exact member_indices_ok env obj hok _ _ (by assumption)
    | exact parse_vec3_ok env _ _ (fun v hv => numbers_ok_member env obj _ v hok hv)
    | exact parse_vec4_ok env _ _ (fun v hv => numbers_ok_member env obj _ v hok hv)
    | exact parse_matrix_ok env _
        (numbers_ok_elements env _ (numbers_ok_member env obj _ _ hok (by assumption)))
    | rw [some_bind_eq]
    | refine bind_ok_prop ?_ (fun a => ?_)
    | split

theorem node_skin_minus_one (env : Env) (obj : json_object_s)
    (hm : find_member obj (ascii "skin") = some minus_one)
    (hok : numbers_ok env (.json_object obj)) :
    ∃ node, parse_node_element env obj = some node ∧ node.skin = UINT32_MAX := by
  have hg := get_int_minus_one
  simp only [parse_node_element, hm, hg]
  repeat' first
    | exact ⟨_, rfl, rfl⟩
    | exact ⟨_, rfl⟩
    | exact member_int_ok env obj hok _ _ (by assumption)
    | exact member_indices_ok env obj hok _ _ (by assumption)
    | exact parse_vec3_ok env _ _ (fun v hv => numbers_ok_member env obj _ v hok hv)
    | exact parse_vec4_ok env _ _ (fun v hv => numbers_ok_member env obj _ v hok hv)
    | exact parse_matrix_ok env _
        (numbers_ok_elements env _ (numbers_ok_member env obj _ _ hok (by assumption)))
    | rw [some_bind_eq]
    | refine bind_ok_prop ?_ (fun a => ?_)
    | split

theorem primitive_indices_minus_one (env : Env) (obj : json_object_s)
    (hm : find_member obj (ascii "indices") = some minus_one)
    (hok : numbers_ok env (.json_object obj)) :
    ∃ p, parse_primitive_element obj = some p ∧ p.indices = UINT32_MAX := by
  have hg := get_int_minus_one
  simp only [parse_primitive_element, hm, hg]
  repeat' first
    | exact ⟨_, rfl, rfl⟩
    | exact ⟨_, rfl⟩
    | exact member_int_ok env obj hok _ _ (by assumption)
    | exact parse_attributes_ok env _ _
        (numbers_ok_members env _ (numbers_ok_member env obj _ _ hok (by assumption)))
    | rw [some_bind_eq]
    | refine bind_ok_prop ?_ (fun a => ?_)
    | split

theorem primitive_material_minus_one (env : Env) (obj : json_object_s)
    (hm : find_member obj (ascii "material") = some minus_one)
    (hok : numbers_ok env (.json_object obj)) :
    ∃ p, parse_primitive_element obj = some p ∧ p.material = UINT32_MAX := by
  have hg := get_int_minus_one
  simp only [parse_primitive_element, hm, hg]
  repeat' first
    | exact ⟨_, rfl, rfl⟩
    | exact ⟨_, rfl⟩
    | exact member_int_ok env obj hok _ _ (by assumption)
    | exact parse_attributes_ok env _ _
        (numbers_ok_members env _ (numbers_ok_member env obj _ _ hok (by assumption)))
    | rw [some_bind_eq]
    | refine bind_ok_prop ?_ (fun a => ?_)
    | split

theorem skin_skeleton_minus_one (env : Env) (obj : json_object_s)
    (hm : find_member obj (ascii "skeleton") = some minus_one)
    (hok : numbers_ok env (.json_object obj)) :
    ∃ s, parse_skin_element obj = some s ∧ s.skeleton = UINT32_MAX := by
  have hg := get_int_minus_one
  simp only [parse_skin_element, hm, hg]
  repeat' first
    | exact ⟨_, rfl, rfl⟩
    | exact ⟨_, rfl⟩
    | exact member_int_ok env obj hok _ _ (by assumption)
    | exact member_indices_ok env obj hok _ _ (by assumption)
    | rw [some_bind_eq]
    | refine bind_ok_prop ?_ (fun a => ?_)
    | split

/-- The getter `get_int` returns -1 for the JSON number `-1`, and -1 stored in an
unsigned 32-bit field is 4294967295, the sentinel of an absent index; so in every
object (whose numbers convert) where the lookup finds the number `-1`, a node's mesh
and skin, a primitive's indices and material and a skin's skeleton decode to the
sentinel, and `generate_json`, which writes these members only when the field differs
from the sentinel, writes a node and a primitive decoded so without them. -/
theorem minus_one_index_is_absent (env : Env) (obj : json_object_s)
    (hok : numbers_ok env (.json_object obj)) :
    get_int (some minus_one) = some (-1)
    ∧ to_u32 (-1) = 4294967295
    ∧ UINT32_MAX = 4294967295
    ∧ (find_member obj (ascii "mesh") = some minus_one →
        ∃ node, parse_node_element env obj = some node ∧ node.mesh = UINT32_MAX)
    ∧ (find_member obj (ascii "skin") = some minus_one →
        ∃ node, parse_node_element env obj = some node ∧ node.skin = UINT32_MAX)
    ∧ (find_member obj (ascii "indices") = some minus_one →
        ∃ p, parse_primitive_element obj = some p ∧ p.indices = UINT32_MAX)
    ∧ (find_member obj (ascii "material") = some minus_one →
        ∃ p, parse_primitive_element obj = some p ∧ p.material = UINT32_MAX)
    ∧ (find_member obj (ascii "skeleton") = some minus_one →
        ∃ s, parse_skin_element obj = some s ∧ s.skeleton = UINT32_MAX)
    ∧ node_json env { mesh := to_u32 (-1), skin := to_u32 (-1), name := ascii "n" }
        = ascii "\x7b\"name\":\"n\"\x7d"
    ∧ primitive_json { indices := to_u32 (-1), material := to_u32 (-1) }
        = ascii "\x7b\"attributes\":\x7b\x7d\x7d" :=
  ⟨get_int_minus_one, by decide, rfl,
    fun hm => node_mesh_minus_one env obj hm hok,
    fun hm => node_skin_minus_one env obj hm hok,
    fun hm => primitive_indices_minus_one env obj hm hok,
    fun hm => primitive_material_minus_one env obj hm hok,
    fun hm => skin_skeleton_minus_one env obj hm hok,
    by rfl, by decide⟩

/-- The node `{"mesh":-1,"skin":-1,"name":"n"}` decodes with the mesh at the sentinel. -/
theorem minus_one_index_is_absent_witness :
    numbers_ok signed_env (.json_object minus_one_node)
    ∧ find_member minus_one_node (ascii "mesh") = some minus_one
    ∧ (∃ node, parse_node_element signed_env minus_one_node = some node
        ∧ node.mesh = UINT32_MAX)
    ∧ parse_node_element signed_env minus_one_node
        = some { mesh := UINT32_MAX, skin := UINT32_MAX, name := ascii "n" } :=
  ⟨numbers_ok_minus_one_node, rfl,
   (minus_one_index_is_absent signed_env minus_one_node numbers_ok_minus_one_node).2.2.2.1 rfl,
   by rfl⟩

/-! ## Escaping of strings -/

theorem escape_char_cases : ∀ c : Fin 256,
    (c.val = 34 → escape_char c = [92, 34])
    ∧ (c.val = 92 → escape_char c = [92, 92])
    ∧ (c.val = 8 → escape_char c = [92, 98])
    ∧ (c.val = 12 → escape_char c = [92, 102])
    ∧ (c.val = 10 → escape_char c = [92, 110])
    ∧ (c.val = 13 → escape_char c = [92, 114])
    ∧ (c.val = 9 → escape_char c = [92, 116])
    ∧ (c.val < 32 → c.val ≠ 8 → c.val ≠ 12 → c.val ≠ 10 → c.val ≠ 13 → c.val ≠ 9 →
        escape_char c
          = [92, 117, 48, 48, hex_digit (c.val / 16), hex_digit (c.val % 16)])
    ∧ (32 ≤ c.val → c.val ≠ 34 → c.val ≠ 92 → escape_char c = [c]) := by
  intro c
  unfold escape_char
  refine ⟨?_, ?_, ?_, ?_, ?_, ?_, ?_, ?_, ?_⟩
  all_goals intros
  all_goals split_ifs
  all_goals first
    | rfl
    | omega

theorem flatten_map_singleton : ∀ (s : List u8) (f : u8 → List u8),
    (∀ c ∈ s, f c = [c]) → (s.map f).flatten = s
  | [], _, _ => rfl
  | c :: s, f, h => by
    rw [List.map_cons, List.flatten_cons, h c (List.mem_cons_self _ _),
      flatten_map_singleton s f (fun d hd => h d (List.mem_cons_of_mem _ hd))]
    rfl

/-- Claim C40: for every string `s`, `create_json_string s` is a double quote, the
escapes of the bytes of `s` in order, and a double quote, where the escape of a double
quote or backslash is a backslash and the byte, the escape of the bytes 8, 12, 10, 13, 9
is `\b`, `\f`, `\n`, `\r`, `\t`, the escape of any other byte below 0x20 is `\u00` and
its two hexadecimal digits, and the escape of any other byte is the byte; for a string
without double quote, backslash and bytes below 0x20 the result is `s` between double
quotes. -/
theorem create_json_string_escapes (s : List u8) :
    create_json_string s = [34] ++ (s.map escape_char).flatten ++ [34]
    ∧ (∀ c : u8,
        (c.val = 34 → escape_char c = [92, 34])
        ∧ (c.val = 92 → escape_char c = [92, 92])
        ∧ (c.val = 8 → escape_char c = [92, 98])
        ∧ (c.val = 12 → escape_char c = [92, 102])
        ∧ (c.val = 10 → escape_char c = [92, 110])
        ∧ (c.val = 13 → escape_char c = [92, 114])
        ∧ (c.val = 9 → escape_char c = [92, 116])
        ∧ (c.val < 32 → c.val ≠ 8 → c.val ≠ 12 → c.val ≠ 10 → c.val ≠ 13 → c.val ≠ 9 →
            escape_char c
              = [92, 117, 48, 48, hex_digit (c.val / 16), hex_digit (c.val % 16)])
        ∧ (32 ≤ c.val → c.val ≠ 34 → c.val ≠ 92 → escape_char c = [c]))
    ∧ (∀ n : Fin 16, hex_digit n.val = (ascii "0123456789abcdef").getD n.val 0)
    ∧ ((∀ c ∈ s, 32 ≤ c.val ∧ c.val ≠ 34 ∧ c.val ≠ 92) →
        create_json_string s = [34] ++ s ++ [34]) := by
  refine ⟨rfl, escape_char_cases, fun _ => rfl, fun h => ?_⟩
  rw [create_json_string, flatten_map_singleton s escape_char (fun c hc =>
    (escape_char_cases c).2.2.2.2.2.2.2.2 (h c hc).1 (h c hc).2.1 (h c hc).2.2)]
  rfl

/-- The string `a"b`, a line feed, and the byte 1. -/
theorem create_json_string_escapes_witness :
    create_json_string (ascii "a\"b\n" ++ [1]) = ascii "\"a\\\"b\\n\\u0001\""
    ∧ (∀ c ∈ ascii "abc", 32 ≤ c.val ∧ c.val ≠ 34 ∧ c.val ≠ 92)
    ∧ create_json_string (ascii "abc") = [34] ++ ascii "abc" ++ [34] :=
  ⟨by decide, by decide,
   (create_json_string_escapes (ascii "abc")).2.2.2 (by decide)⟩

/-! ## Vector members that are too short -/

theorem bind_ok_val {α β : Type} {x : Option α} {f : α → Option β} {Q : α → Prop}
    {P : β → Prop} (hx : ∃ a, x = some a ∧ Q a) (hf : ∀ a, Q a → ∃ b, f a = some b ∧ P b) :
    ∃ b, x >>= f = some b ∧ P b := by
  obtain ⟨a, rfl, ha⟩ := hx
  exact hf a ha

/-- An array of fewer than 3 elements leaves a three-component vector as it is; no
element is converted, whatever `stof` does. -/
theorem parse_vec3_short (env : Env) (cur : Vec3) (elements : List json_value_s)
    (h : elements.length < 3) : parse_vec3 env cur (some (.json_array elements)) = some cur := by
  match elements, h with
  | [], _ => rfl
  | [_], _ => rfl
  | [_, _], _ => rfl
  | _ :: _ :: _ :: _, h =>
    simp only [List.length_cons] at h
    omega

/-- An array of fewer than 4 elements leaves a four-component vector as it is; no
element is converted, whatever `stof` does. -/
theorem parse_vec4_short (env : Env) (cur : Vec4) (elements : List json_value_s)
    (h : elements.length < 4) : parse_vec4 env cur (some (.json_array elements)) = some cur := by
  match elements, h with
  | [], _ => rfl
  | [_], _ => rfl
  | [_, _], _ => rfl
  | [_, _, _], _ => rfl
  | _ :: _ :: _ :: _ :: _, h =>
    simp only [List.length_cons] at h
    omega

theorem node_translation_short (env : Env) (obj : json_object_s) (elements : List json_value_s)
    (hm : find_member obj (ascii "translation") = some (.json_array elements))
    (hl : elements.length < 3) (hok : numbers_ok env (.json_object obj)) :
    ∃ node, parse_node_element env obj = some node ∧ node.translation = Vec3.zero := by
  have hs := fun cur => parse_vec3_short env cur elements hl
  simp only [parse_node_element, hm, hs]
  repeat' first
    | exact ⟨_, rfl, rfl⟩
    | exact ⟨_, rfl⟩
    | exact member_int_ok env obj hok _ _ (by assumption)
    | exact member_indices_ok env obj hok _ _ (by assumption)
    | exact parse_vec3_ok env _ _ (fun v hv => numbers_ok_member env obj _ v hok hv)
    | exact parse_vec4_ok env _ _ (fun v hv => numbers_ok_member env obj _ v hok hv)
    | exact parse_matrix_ok env _
        (numbers_ok_elements env _ (numbers_ok_member env obj _ _ hok (by assumption)))
    | rw [some_bind_eq]
    | refine bind_ok_prop ?_ (fun a => ?_)
    | split

theorem node_rotation_short (env : Env) (obj : json_object_s) (elements : List json_value_s)
    (hm : find_member obj (ascii "rotation") = some (.json_array elements))
    (hl : elements.length < 4) (hok : numbers_ok env (.json_object obj)) :
    ∃ node, parse_node_element env obj = some node
      ∧ node.rotation = ⟨f32.zero, f32.zero, f32.zero, f32.one⟩ := by
  have hs := fun cur => parse_vec4_short env cur elements hl
  simp only [parse_node_element, hm, hs]
  repeat' first
    | exact ⟨_, rfl, rfl⟩
    | exact ⟨_, rfl⟩
    | exact member_int_ok env obj hok _ _ (by assumption)
    | exact member_indices_ok env obj hok _ _ (by assumption)
    | exact parse_vec3_ok env _ _ (fun v hv => numbers_ok_member env obj _ v hok hv)
    | exact parse_vec4_ok env _ _ (fun v hv => numbers_ok_member env obj _ v hok hv)
    | exact parse_matrix_ok env _
        (numbers_ok_elements env _ (numbers_ok_member env obj _ _ hok (by assumption)))
    | rw [some_bind_eq]
    | refine bind_ok_prop ?_ (fun a => ?_)
    | split

theorem node_scale_short (env : Env) (obj : json_object_s) (elements : List json_value_s)
    (hm : find_member obj (ascii "scale") = some (.json_array elements))
    (hl : elements.length < 3) (hok : numbers_ok env (.json_object obj)) :
    ∃ node, parse_node_element env obj = some node ∧ node.scale = Vec3.one := by
  have hs := fun cur => parse_vec3_short env cur elements hl
  simp only [parse_node_element, hm, hs]
  repeat' first
    | exact ⟨_, rfl, rfl⟩
    | exact ⟨_, rfl⟩
    | exact member_int_ok env obj hok _ _ (by assumption)
    | exact member_indices_ok env obj hok _ _ (by assumption)
    | exact parse_vec3_ok env _ _ (fun v hv => numbers_ok_member env obj _ v hok hv)
    | exact parse_vec4_ok env _ _ (fun v hv => numbers_ok_member env obj _ v hok hv)
    | exact parse_matrix_ok env _
        (numbers_ok_elements env _ (numbers_ok_member env obj _ _ hok (by assumption)))
    | rw [some_bind_eq]
    | refine bind_ok_prop ?_ (fun a => ?_)
    | split

theorem material_emissive_short (env : Env) (obj : json_object_s)
    (elements : List json_value_s)
    (hm : find_member obj (ascii "emissiveFactor") = some (.json_array elements))
    (hl : elements.length < 3) (hok : numbers_ok env (.json_object obj)) :
    ∃ m, parse_material_element env obj = some m ∧ m.emissive_factor = Vec3.zero := by
  have hs := fun cur => parse_vec3_short env cur elements hl
  simp only [parse_material_element, hm, hs]
  repeat' first
    | exact ⟨_, rfl, rfl⟩
    | exact ⟨_, rfl⟩
    | exact member_float_ok env obj hok _ _ (by assumption)
    | exact parse_texture_info_ok env _ _ (fun v hv => numbers_ok_member env obj _ v hok hv)
    | exact parse_pbr_ok env _ _ (numbers_ok_member env obj _ _ hok (by assumption))
    | rw [some_bind_eq]
    | refine bind_ok_prop ?_ (fun a => ?_)
    | split

theorem pbr_base_color_short (env : Env) (pbr : PbrMetallicRoughness) (obj : json_object_s)
    (elements : List json_value_s)
    (hm : find_member obj (ascii "baseColorFactor") = some (.json_array elements))
    (hl : elements.length < 4) (hok : numbers_ok env (.json_object obj)) :
    ∃ r, parse_pbr env pbr obj = some r ∧ r.base_color_factor = pbr.base_color_factor := by
  have hs := fun cur => parse_vec4_short env cur elements hl
  simp only [parse_pbr, hm, hs]
  repeat' first
    | exact ⟨_, rfl, rfl⟩
    | exact ⟨_, rfl⟩
    | exact member_float_ok env obj hok _ _ (by assumption)
    | exact parse_texture_info_ok env _ _ (fun v hv => numbers_ok_member env obj _ v hok hv)
    | rw [some_bind_eq]
    | refine bind_ok_prop ?_ (fun a => ?_)
    | split

theorem material_base_color_short (env : Env) (obj pbr_obj : json_object_s)
    (elements : List json_value_s)
    (hp : find_member obj (ascii "pbrMetallicRoughness") = some (.json_object pbr_obj))
    (hm : find_member pbr_obj (ascii "baseColorFactor") = some (.json_array elements))
    (hl : elements.length < 4) (hok : numbers_ok env (.json_object obj)) :
    ∃ m, parse_material_element env obj = some m
      ∧ m.pbr_metallic_roughness.base_color_factor = Vec4.one := by
  have hpbr := pbr_base_color_short env ({} : Material).pbr_metallic_roughness pbr_obj elements
    hm hl (numbers_ok_member env obj _ _ hok hp)
  simp only [parse_material_element, hp]
  refine bind_ok_val hpbr (fun a ha => ?_)
  repeat' first
    | exact ⟨_, rfl, ha⟩
    | exact ⟨_, rfl⟩
    | exact member_float_ok env obj hok _ _ (by assumption)
    | exact parse_texture_info_ok env _ _ (fun v hv => numbers_ok_member env obj _ v hok hv)
    | exact parse_vec3_ok env _ _ (fun v hv => numbers_ok_member env obj _ v hok hv)
    | rw [some_bind_eq]
    | refine bind_ok_prop ?_ (fun a => ?_)
    | split

theorem numbers_ok_short_translation_node :
    numbers_ok table_env (.json_object short_translation_node) :=
  numbers_ok.json_object _ (fun p hp => by
    simp only [short_translation_node, List.mem_cons, List.mem_singleton, List.not_mem_nil,
      or_false] at hp
    rcases hp with rfl | rfl
    · exact numbers_ok.json_array _ (fun e he => by
        simp only [List.mem_cons, List.mem_singleton, List.not_mem_nil, or_false, or_self] at he
        subst he
        exact numbers_ok_one)
    · exact numbers_ok.json_string _)

/-- An array shorter than the vector it is read into leaves the vector as
it is, without converting any of its elements; so for every node or material object
(whose numbers convert) in which the lookup finds a `translation` or `scale` array of
fewer than 3 elements, a `rotation` array of fewer than 4, an `emissiveFactor` array of
fewer than 3 or, in its `pbrMetallicRoughness` object, a `baseColorFactor` array of
fewer than 4, decoding completes and the vector has its default value. -/
theorem short_vector_keeps_default (env : Env) (obj : json_object_s)
    (elements : List json_value_s) (hok : numbers_ok env (.json_object obj)) :
    (∀ (any_env : Env) (cur : Vec3), elements.length < 3 →
        parse_vec3 any_env cur (some (.json_array elements)) = some cur)
    ∧ (∀ (any_env : Env) (cur : Vec4), elements.length < 4 →
        parse_vec4 any_env cur (some (.json_array elements)) = some cur)
    ∧ (find_member obj (ascii "translation") = some (.json_array elements) →
        elements.length < 3 →
        ∃ node, parse_node_element env obj = some node ∧ node.translation = Vec3.zero)
    ∧ (find_member obj (ascii "rotation") = some (.json_array elements) →
        elements.length < 4 →
        ∃ node, parse_node_element env obj = some node
          ∧ node.rotation = ⟨f32.zero, f32.zero, f32.zero, f32.one⟩)
    ∧ (find_member obj (ascii "scale") = some (.json_array elements) →
        elements.length < 3 →
        ∃ node, parse_node_element env obj = some node ∧ node.scale = Vec3.one)
    ∧ (find_member obj (ascii "emissiveFactor") = some (.json_array elements) →
        elements.length < 3 →
        ∃ m, parse_material_element env obj = some m ∧ m.emissive_factor = Vec3.zero)
    ∧ (∀ pbr_obj, find_member obj (ascii "pbrMetallicRoughness") = some (.json_object pbr_obj) →
        find_member pbr_obj (ascii "baseColorFactor") = some (.json_array elements) →
        elements.length < 4 →
        ∃ m, parse_material_element env obj = some m
          ∧ m.pbr_metallic_roughness.base_color_factor = Vec4.one) :=
  ⟨fun any_env cur h => parse_vec3_short any_env cur elements h,
   fun any_env cur h => parse_vec4_short any_env cur elements h,
   fun hm hl => node_translation_short env obj elements hm hl hok,
   fun hm hl => node_rotation_short env obj elements hm hl hok,
   fun hm hl => node_scale_short env obj elements hm hl hok,
   fun hm hl => material_emissive_short env obj elements hm hl hok,
   fun pbr_obj hp hm hl => material_base_color_short env obj pbr_obj elements hp hm hl hok⟩

/-- The node `{"translation":[1,1],"name":"n"}` decodes with the default translation. -/
theorem short_vector_keeps_default_witness :
    numbers_ok table_env (.json_object short_translation_node)
    ∧ find_member short_translation_node (ascii "translation")
        = some (.json_array [.json_number (ascii "1"), .json_number (ascii "1")])
    ∧ (∃ node, parse_node_element table_env short_translation_node = some node
        ∧ node.translation = Vec3.zero)
    ∧ parse_node_element table_env short_translation_node = some { name := ascii "n" } :=
  ⟨numbers_ok_short_translation_node, rfl,
   (short_vector_keeps_default table_env short_translation_node _
      numbers_ok_short_translation_node).2.2.1 rfl (by decide),
   by rfl⟩

/-! ## Characters outside the alphabet -/

theorem table_is_alphabet : ∀ c : Fin 256,
    (decode_table.getD c.val 64 = 64) = (c ∉ base64_chars) := by
  decide

theorem base64_char_mem : ∀ k : Fin 64, base64_char k.val ∈ base64_chars := by
  decide

theorem decode_step_skip (state : List Nat × List u8) (c : u8) (h : c ∉ base64_chars) :
    decode_step state c = state := by
  have ht : decode_table.getD c.val 64 = 64 := by
    rw [table_is_alphabet c]
    exact h
  simp only [decode_step, ht, if_true]

theorem foldl_decode_step_filter : ∀ (s : List u8) (state : List Nat × List u8),
    s.foldl decode_step state
      = (s.filter (fun c => decide (c ∈ base64_chars))).foldl decode_step state
  | [], _ => rfl
  | c :: s, state => by
    by_cases h : c ∈ base64_chars
    · rw [List.filter_cons_of_pos (by simpa using h), List.foldl_cons, List.foldl_cons,
        foldl_decode_step_filter s]
    · rw [List.filter_cons_of_neg (by simpa using h), List.foldl_cons, decode_step_skip _ _ h,
        foldl_decode_step_filter s]

theorem foldl_decode_step_pads : ∀ (pads : List u8) (state : List Nat × List u8),
    (∀ c ∈ pads, (c.val == 61) = true) → pads.foldl decode_step state = state
  | [], _, _ => rfl
  | c :: pads, state, h => by
    have hc : c = 61 := by
      have := h c (List.mem_cons_self _ _)
      exact Fin.ext (by simpa using this)
    subst hc
    rw [List.foldl_cons, decode_step_skip _ _ (by decide),
      foldl_decode_step_pads pads state (fun d hd => h d (List.mem_cons_of_mem _ hd))]

theorem foldl_decode_step_strip (s : List u8) (state : List Nat × List u8) :
    (strip_padding s).foldl decode_step state = s.foldl decode_step state := by
  have hs : strip_padding s ++ (s.reverse.takeWhile (fun c => c.val == 61)).reverse = s := by
    rw [strip_padding, ← List.reverse_append, List.takeWhile_append_dropWhile,
      List.reverse_reverse]
  have key : (strip_padding s ++ (s.reverse.takeWhile (fun c => c.val == 61)).reverse).foldl
      decode_step state = (strip_padding s).foldl decode_step state := by
    rw [List.foldl_append, foldl_decode_step_pads _ _ (fun c hc => by
      rw [List.mem_reverse] at hc
      exact List.mem_takeWhile_imp (p := fun c : u8 => c.val == 61) hc)]
  rw [hs] at key
  exact key.symm

/-- The decoder only sees the characters of the alphabet. -/
theorem decode_base_64_filter (s : List u8) :
    decode_base_64 s
      = decode_remaining
          ((s.filter (fun c => decide (c ∈ base64_chars))).foldl decode_step ([], [])) := by
  rw [decode_base_64_eq, foldl_decode_step_strip, foldl_decode_step_filter]

theorem decode_step_lengths (val : List Nat) (output : List u8) (c : u8)
    (hc : c ∈ base64_chars) (hv : val.length < 4) :
    (decode_step (val, output) c).1.length = (val.length + 1) % 4
    ∧ (decode_step (val, output) c).2.length = output.length + 3 * ((val.length + 1) / 4) := by
  have ht : decode_table.getD c.val 64 ≠ 64 := by
    rw [ne_eq, table_is_alphabet c]
    exact not_not.mpr hc
  simp only [decode_step, if_neg ht, List.length_append, List.length_singleton]
  by_cases h4 : val.length + 1 = 4
  · rw [if_pos h4]
    simp only [List.length_nil, List.length_append, List.length_cons]
    omega
  · rw [if_neg h4]
    simp only [List.length_append, List.length_singleton]
    omega

theorem foldl_decode_step_lengths : ∀ (cs : List u8) (val : List Nat) (output : List u8),
    (∀ c ∈ cs, c ∈ base64_chars) → val.length < 4 →
    (cs.foldl decode_step (val, output)).1.length = (val.length + cs.length) % 4
    ∧ (cs.foldl decode_step (val, output)).2.length
        = output.length + 3 * ((val.length + cs.length) / 4)
  | [], val, output, _, hv => by
    simp only [List.foldl_nil, List.length_nil, Nat.add_zero]
    omega
  | c :: cs, val, output, h, hv => by
    obtain ⟨h1, h2⟩ := decode_step_lengths val output c (h c (List.mem_cons_self _ _)) hv
    have hv2 : (decode_step (val, output) c).1.length < 4 := by
      rw [h1]
      omega
    obtain ⟨i1, i2⟩ := foldl_decode_step_lengths cs (decode_step (val, output) c).1
      (decode_step (val, output) c).2 (fun d hd => h d (List.mem_cons_of_mem _ hd)) hv2
    rw [List.foldl_cons, List.length_cons]
    refine ⟨?_, ?_⟩
    · rw [i1, h1]
      omega
    · rw [i2, h1, h2]
      omega

theorem decode_remaining_length (state : List Nat × List u8) :
    (decode_remaining state).length
      = state.2.length + (if state.1.length > 1 then 1 else 0)
        + (if state.1.length > 2 then 1 else 0) := by
  simp only [decode_remaining]
  split_ifs <;> simp

/-- Claim C38: for every string `s`, `decode_base_64 s` is `decode_base_64` of `s`
without its characters outside the 64-character alphabet, and, `k` being the number of
alphabet characters of `s`, the output has `3 * (k / 4)` bytes, plus 1 when `k % 4 = 2`
and plus 2 when `k % 4 = 3`. -/
theorem decode_base_64_ignores_other_characters (s : List u8) :
    decode_base_64 s = decode_base_64 (s.filter (fun c => decide (c ∈ base64_chars)))
    ∧ (decode_base_64 s).length
        = 3 * ((s.filter (fun c => decide (c ∈ base64_chars))).length / 4)
          + (if (s.filter (fun c => decide (c ∈ base64_chars))).length % 4 = 2 then 1
             else if (s.filter (fun c => decide (c ∈ base64_chars))).length % 4 = 3 then 2
             else 0) := by
  refine ⟨?_, ?_⟩
  · rw [decode_base_64_filter s, decode_base_64_filter (s.filter _), List.filter_filter]
    simp only [Bool.and_self]
  · obtain ⟨h1, h2⟩ := foldl_decode_step_lengths
      (s.filter (fun c => decide (c ∈ base64_chars))) [] []
      (fun c hc => by simpa using (List.mem_filter.mp hc).2) (by decide)
    rw [decode_base_64_filter, decode_remaining_length, h1, h2]
    simp only [List.length_nil, Nat.zero_add]
    split_ifs <;> omega

/-! ## The shape of the encoder's output -/

theorem encode_chars_shape : ∀ d : List u8,
    ∃ body, encode_chars d = body ++ List.replicate ((3 - d.length % 3) % 3) (61 : u8)
      ∧ ∀ c ∈ body, c ∈ base64_chars
  | a :: b :: c :: rest => by
    obtain ⟨body, hb, hmem⟩ := encode_chars_shape rest
    obtain ⟨i0, i1, i2, i3⟩ := index_values a b c
    obtain ⟨b0, b1, b2, b3, _, _⟩ := index_bounds a b c
    refine ⟨[base64_char (a.val / 4), base64_char (16 * (a.val % 4) + b.val / 16),
        base64_char (4 * (b.val % 16) + c.val / 64), base64_char (c.val % 64)] ++ body, ?_, ?_⟩
    · simp only [encode_chars, i0, i1, i2, i3, hb, List.length_cons, List.append_assoc]
      have e : (rest.length + 1 + 1 + 1) % 3 = rest.length % 3 := by omega
      rw [e]
    · intro x hx
      simp only [List.mem_append, List.mem_cons, List.mem_singleton, List.not_mem_nil,
        or_false] at hx
      rcases hx with (rfl | rfl | rfl | rfl) | hx
      · exact base64_char_mem ⟨_, b0⟩
      · exact base64_char_mem ⟨_, b1⟩
      · exact base64_char_mem ⟨_, b2⟩
      · exact base64_char_mem ⟨_, b3⟩
      · exact hmem x hx
  | [a, b] => by
    obtain ⟨i0, i1, _, _⟩ := index_values a b 0
    obtain ⟨_, _, _, b4, _, _⟩ := byte_facts b
    obtain ⟨b0, b1, _, _, _, b5⟩ := index_bounds a b 0
    refine ⟨[base64_char (a.val / 4), base64_char (16 * (a.val % 4) + b.val / 16),
        base64_char (4 * (b.val % 16))], ?_, ?_⟩
    · simp only [encode_chars, i0, i1, b4]
      rfl
    · intro x hx
      simp only [List.mem_cons, List.mem_singleton, List.not_mem_nil, or_false] at hx
      rcases hx with rfl | rfl | rfl
      · exact base64_char_mem ⟨_, b0⟩
      · exact base64_char_mem ⟨_, b1⟩
      · exact base64_char_mem ⟨_, b5⟩
  | [a] => by
    obtain ⟨a1, a2, _, _, _, _⟩ := byte_facts a
    obtain ⟨b0, _, _, _, b4, _⟩ := index_bounds a 0 0
    refine ⟨[base64_char (a.val / 4), base64_char (16 * (a.val % 4))], ?_, ?_⟩
    · simp only [encode_chars, a1, a2]
      rfl
    · intro x hx
      simp only [List.mem_cons, List.mem_singleton, List.not_mem_nil, or_false] at hx
      rcases hx with rfl | rfl
      · exact base64_char_mem ⟨_, b0⟩
      · exact base64_char_mem ⟨_, b4⟩
  | [] => ⟨[], by simp [encode_chars], fun c hc => by cases hc⟩

/-- Claim C39: for every byte sequence of length `n`, `encode_base64` returns
`4 * ceil(n / 3)` characters: characters of the 64-character alphabet followed by
exactly `(3 - n % 3) % 3` characters `=`; no character of the result is NUL. -/
theorem encode_base64_shape (d : List u8) :
    (encode_base64 d).length = 4 * ((d.length + 2) / 3)
    ∧ (∃ body, encode_base64 d = body ++ List.replicate ((3 - d.length % 3) % 3) (61 : u8)
        ∧ ∀ c ∈ body, c ∈ base64_chars)
    ∧ (61 : u8) ∉ base64_chars
    ∧ (0 : u8) ∉ encode_base64 d := by
  obtain ⟨body, hb, hmem⟩ := encode_chars_shape d
  refine ⟨by rw [encode_base64_eq, encode_chars_length], ⟨body, by rw [encode_base64_eq, hb],
    hmem⟩, by decide, ?_⟩
  rw [encode_base64_eq, hb]
  intro h0
  rcases List.mem_append.mp h0 with h | h
  · exact absurd (hmem 0 h) (by decide)
  · exact absurd (List.eq_of_mem_replicate h) (by decide)

/-! ## The member lookup -/

/-- Claim C15, at the node object `{"m":0,"matrix":[1, ..., 1],"translation":[1,1,1]}`,
which has a `matrix` member of 16 elements: the lookup of `matrix` returns the value
of the member `m`, which is not an array, so the decoded node has `has_matrix = false`,
the identity matrix and the translation (1,1,1) read from its `translation` member (and
`mesh = 0`, the member `m` being returned for `mesh` as well); without the member `m`
the matrix is read and the translation is left alone. -/
theorem matrix_shadowed_by_shorter_name :
    find_member shadowed_matrix_node (ascii "matrix") = some (.json_number (ascii "0"))
    ∧ parse_node_element table_env shadowed_matrix_node
        = some { mesh := 0, has_matrix := false, matrix := Mat4.identify,
                 translation := ⟨f32.one, f32.one, f32.one⟩ }
    ∧ parse_node_element table_env matrix_node
        = some { has_matrix := true, matrix := ⟨List.replicate 16 f32.one, rfl⟩,
                 translation := Vec3.zero } := by
  refine ⟨by rfl, by rfl, by rfl⟩

/-- Claim C19, at the root object `{"scene":[{}]}`, which has no member named `scenes`:
the lookup of `scenes` returns the value of the member `scene`, an array of one object,
and `Model::parse` returns a document with one scene. -/
theorem scenes_decoded_from_scene_member :
    (∀ p ∈ scene_array_root, p.1 ≠ ascii "scenes")
    ∧ find_member scene_array_root (ascii "scenes") = some (.json_array [.json_object []])
    ∧ parse minimal_env {} (.json_object scene_array_root)
        = some (true, { scenes := [{}] }) := by
  refine ⟨by decide, by rfl, by rfl⟩

/-- Claim C32, at the node object `{"t":[1,1,1],"translation":[1,1]}`, whose
`translation` member has 2 elements: the lookup of `translation` returns the value of
the member `t`, and the decoded translation is (1,1,1), not the default (0,0,0). -/
theorem short_translation_shadowed :
    find_member shadowed_translation_node (ascii "translation") = some ones3
    ∧ parse_node_element table_env shadowed_translation_node
        = some { translation := ⟨f32.one, f32.one, f32.one⟩ }
    ∧ ({} : Node).translation = Vec3.zero := by
  refine ⟨by rfl, by rfl, by rfl⟩

/-- Claim C37, at the node object `{"me":5,"mesh":-1}`, whose `mesh` member holds -1:
the lookup of `mesh` returns the value of the member `me`, the decoded mesh is 5, not
the sentinel 4294967295, and `generate_json` writes the member `mesh` for the decoded
node. -/
theorem minus_one_mesh_shadowed :
    find_member shadowed_mesh_node (ascii "mesh") = some (.json_number (ascii "5"))
    ∧ parse_node_element table_env shadowed_mesh_node = some { mesh := 5 }
    ∧ UINT32_MAX = 4294967295
    ∧ node_json table_env { mesh := 5 } = ascii "\x7b\"mesh\":5\x7d" := by
  refine ⟨by rfl, by rfl, by rfl, by decide⟩

/-! ## The first member the lookup can match -/

end gltf
